import Mathlib

/-!
# The clustered storage-volume directory of `lxd/db`

A shallow embedding of `lxd/db/storage_volumes.go`.  The relational store is a
record of row lists, one list per table; a `SELECT` is a list comprehension over
them (rows come back in table order), a statement run with `Exec` is a function on
the store that the driver may refuse, and a transaction keeps the store it ends
with only when its body returns no error.
-/

set_option autoImplicit false

namespace Lxd

/-! ## Errors -/

/-- The error values the package returns. -/
inductive Error where
  /-- An `api.StatusErrorf(code, msg)`. -/
  | StatusError (code : Nat) (msg : String)
  /-- The package-level `ErrNoClusterMember`. -/
  | ErrNoClusterMember
  /-- The `sql.ErrNoRows` of the standard library. -/
  | ErrNoRows
  /-- A `fmt.Errorf(format, args...)` without a wrapped error. -/
  | Errorf (format : String) (args : List String)
  /-- A `fmt.Errorf(msg + ": %w", inner)`. -/
  | Wrapped (msg : String) (inner : Error)
  /-- An error reported by the SQL driver for a statement. -/
  | Store (msg : String)
  deriving DecidableEq, Repr

/-- The constant `http.StatusNotFound`. -/
def StatusNotFound : Nat := 404

/-! ## Strings -/

/-- Modelled from the spec: `shared.SnapshotDelimiter` is declared outside these source
files; it is the separator of a snapshot-qualified name `<parent><delimiter><child>`. -/
def SnapshotDelimiter : String := "/"

/-- Go's `strings.Contains(s, substr)`. -/
def stringsContains (s substr : String) : Bool :=
  decide (substr.data <:+: s.data)

/-- The scan behind `strings.Split` for a non-empty separator: `skip` counts the
characters of a separator just matched that are still to be dropped, `cur` is the
field being read, in reverse. -/
def splitScan (sep : List Char) : Nat → List Char → List Char → List (List Char)
  | _, cur, [] => [cur.reverse]
  | skip + 1, cur, _ :: cs => splitScan sep skip cur cs
  | 0, cur, c :: cs =>
    if sep <+: (c :: cs) then cur.reverse :: splitScan sep (sep.length - 1) [] cs
    else splitScan sep 0 (c :: cur) cs

/-- Go's `strings.Split(s, sep)`. -/
def stringsSplit (s sep : String) : List String :=
  if sep.data = [] then s.data.map String.singleton
  else (splitScan sep.data 0 [] s.data).map String.mk

/-- The piece of `s` before the first occurrence of the non-empty `sep` and the piece
after it, when `sep` occurs. -/
def cutAt (sep : List Char) : List Char → Option (List Char × List Char)
  | [] => none
  | c :: cs =>
    if sep <+: (c :: cs) then some ([], (c :: cs).drop sep.length)
    else (cutAt sep cs).map (fun p => (c :: p.1, p.2))

/-- The fields of `strings.SplitN` for a non-empty separator and a count `n`: at most `n`
fields, the last one the unsplit remainder. -/
def splitNFields (sep : List Char) : Nat → List Char → List (List Char)
  | 0, _ => []
  | 1, s => [s]
  | n + 2, s =>
    match cutAt sep s with
    | none => [s]
    | some (before, after) => before :: splitNFields sep (n + 1) after

/-- The fields of `strings.SplitN` for the empty separator: one per character, at most
`n`, the last one the remainder. -/
def explodeFields : Nat → List Char → List (List Char)
  | 0, _ => []
  | _, [] => []
  | 1, s => [s]
  | n + 2, c :: cs => [c] :: explodeFields (n + 1) cs

/-- Go's `strings.SplitN(s, sep, n)` for a count `n` that is not negative. -/
def stringsSplitN (s sep : String) (n : Nat) : List String :=
  if sep.data = [] then (explodeFields n s.data).map String.mk
  else (splitNFields sep.data n s.data).map String.mk

/-- The value of a Go `int` (64 bits on the platforms of the build constraint) after an
arithmetic result `n` is stored in it: `n` wrapped to `[-2^63, 2^63)`. -/
def wrapInt64 (n : Int) : Int :=
  (n + 9223372036854775808) % 18446744073709551616 - 9223372036854775808

/-- The space test of package `fmt`. -/
def isSpace (c : Char) : Bool :=
  let r := c.toNat
  (0x0009 ≤ r && r ≤ 0x000d) || r = 0x0020 || r = 0x0085 || r = 0x00a0 || r = 0x1680
    || (0x2000 ≤ r && r ≤ 0x200a) || r = 0x2028 || r = 0x2029 || r = 0x202f || r = 0x205f
    || r = 0x3000

/-- What `fmt.Sscanf(str, format, &num)` leaves: the value stored in `num` (zero when
nothing was stored), the count of operands scanned, and the error. -/
structure ScanResult where
  num : Int
  count : Nat
  err : Option Error
  deriving DecidableEq, Repr

/-- The input after the spaces other than newline at its head. -/
def dropBlanks : List Char → List Char
  | [] => []
  | c :: cs => if isSpace c && c != '\n' then dropBlanks cs else c :: cs

/-- The input after it matched `newlines` newlines of the format: each matches blanks and
then a newline or the end of the input. -/
def matchNewlines : Nat → List Char → Except Error (List Char)
  | 0, input => .ok input
  | n + 1, input =>
    match dropBlanks input with
    | [] => matchNewlines n []
    | c :: cs =>
      if c = '\n' then matchNewlines n cs
      else .error (.Errorf "newline in format does not match input" [])

/-- The input after it matched a run of spaces of the format with `newlines` newlines
and, when `trailingSpace`, blanks after the last of them. -/
def matchSpaceRun (newlines : Nat) (trailingSpace : Bool) (input : List Char) :
    Except Error (List Char) :=
  match matchNewlines newlines input with
  | .error err => .error err
  | .ok input1 =>
    if trailingSpace then
      match input1 with
      | [] => .ok []
      | c :: cs =>
        if newlines = 0 && !isSpace c then
          .error (.Errorf "expected space in input to match format" [])
        else if newlines = 0 && c = '\n' then
          .error (.Errorf "newline in input does not match format" [])
        else .ok (dropBlanks (c :: cs))
    else .ok input1

/-- `SkipSpace` of a scan that does not take newlines for spaces. -/
def skipSpace : List Char → Except Error (List Char)
  | [] => .ok []
  | c :: cs =>
    if c = '\n' then .error (.Errorf "unexpected newline" [])
    else if isSpace c then skipSpace cs
    else .ok (c :: cs)

/-- The decimal digits at the head of the input, the characters `0` to `9`, and the input
after them. -/
def spanNumber : List Char → List Char × List Char
  | [] => ([], [])
  | c :: cs =>
    if c.isDigit then ((spanNumber cs).1.cons c, (spanNumber cs).2)
    else ([], c :: cs)

/-- The number a string of decimal digits denotes. -/
def digitsValue (digits : List Char) : Nat :=
  digits.foldl (fun n c => 10 * n + (c.toNat - '0'.toNat)) 0

/-- The verb `%d` on an `*int` operand: spaces are skipped, one sign is accepted, the
decimal digits that follow are the token (at least one is required), and
`strconv.ParseInt(token, 10, 64)` gives the value.  The result is the value and the input
after the token. -/
def scanInt (input : List Char) : Except Error (Int × List Char) :=
  match skipSpace input with
  | .error err => .error err
  | .ok [] => .error (.Errorf "unexpected EOF" [])
  | .ok (c :: cs) =>
    let negative := decide (c = '-')
    let afterSign := if c = '+' ∨ c = '-' then cs else c :: cs
    match afterSign with
    | [] => .error (.Errorf "unexpected EOF" [])
    | d :: ds =>
      if !d.isDigit then .error (.Errorf "expected integer" [])
      else
        let token := (spanNumber (d :: ds)).1
        let rest := (spanNumber (d :: ds)).2
        let value : Int := if negative then -(digitsValue token : Int) else digitsValue token
        if value < -9223372036854775808 ∨ 9223372036854775807 < value then
          .error (.Errorf "strconv.ParseInt: value out of range" [])
        else .ok (value, rest)

/-- The run of spaces of the format that is being read, extended by the space `c`. -/
def extendRun (run : Option (Nat × Bool)) (c : Char) : Option (Nat × Bool) :=
  match run with
  | none => if c = '\n' then some (1, false) else some (0, true)
  | some (newlines, _) =>
    if c = '\n' then some (newlines + 1, false) else some (newlines, true)

/-- The input after the pending run of spaces of the format, if there is one. -/
def flushRun (run : Option (Nat × Bool)) (input : List Char) : Except Error (List Char) :=
  match run with
  | none => .ok input
  | some (newlines, trailingSpace) => matchSpaceRun newlines trailingSpace input

/-- What a call of `advance` of package `fmt` leaves: it stopped in front of a verb or at
the end of the format (Go's result is the length of the format it consumed, here the
format that is left), or a literal did not match the input (Go's `-1`), or it reported an
error.  The input read stays read in each case. -/
inductive Advance where
  | stopped (format input : List Char)
  | mismatch (input : List Char)
  | failed (err : Error)
  deriving DecidableEq, Repr

/-- The method `advance` of package `fmt`: it matches runs of spaces, literal text and `%%`
of the format against the input, up to the next verb.  `run` is the run of spaces of the
format being read. -/
def advance : List Char → Option (Nat × Bool) → List Char → Advance
  | [], run, input =>
    match flushRun run input with
    | .error err => .failed err
    | .ok input1 => .stopped [] input1
  | c :: format, run, input =>
    if isSpace c then advance format (extendRun run c) input
    else
      match flushRun run input with
      | .error err => .failed err
      | .ok input1 =>
        if c = '%' then
          match format with
          | [] => .failed (.Errorf "missing verb: % at end of format string" [])
          | next :: format1 =>
            if next = '%' then
              match input1 with
              | [] => .failed (.Errorf "unexpected EOF" [])
              | i :: input2 =>
                if i = '%' then advance format1 none input2 else .mismatch input1
            else .stopped (c :: next :: format1) input1
        else
          match input1 with
          | [] => .failed (.Errorf "unexpected EOF" [])
          | i :: input2 => if i = c then advance format none input2 else .mismatch input1

/-- What the scan of one verb leaves: the scan goes on with the rest of the format, or it
is over with a result. -/
inductive VerbStep where
  | next (format input : List Char) (count : Nat) (num : Int)
  | done (result : ScanResult)
  deriving DecidableEq, Repr

/-- The part of the loop of `doScanf` for a verb, `rest` being the format after its `%`,
with one `*int` operand.  Spaces of the input are skipped (but for the verb `c`); `%%`
then takes a `%` of the input after further spaces and uses no operand; the verb `%d`
scans the operand; a second verb finds no operand left; a verb that is no integer verb is
refused.  A width, and the integer verbs other than `%d` (`b`, `c`, `o`, `U`, `v`, `x`,
`X`) on the operand, are outside this model and are reported as an error. -/
def scanVerb (rest input : List Char) (count : Nat) (num : Int) : VerbStep :=
  match rest with
  | [] =>
    .done { num := num, count := count,
            err := some (.Errorf "missing verb: % at end of format string" []) }
  | c :: rest1 =>
    if c.isDigit && !rest1.isEmpty then
      .done { num := num, count := count, err := some (.Errorf "width outside the model" []) }
    else
      match (if c = 'c' then .ok input else skipSpace input) with
      | .error err => .done { num := num, count := count, err := some err }
      | .ok input2 =>
        if c = '%' then
          match skipSpace input2 with
          | .error err => .done { num := num, count := count, err := some err }
          | .ok [] => .done { num := num, count := count, err := some (.Errorf "EOF" []) }
          | .ok (i :: input3) =>
            if i = '%' then .next rest1 input3 count num
            else .done { num := num, count := count,
                         err := some (.Errorf "missing literal %" []) }
        else if count ≥ 1 then
          .done { num := num, count := count,
                  err := some (.Errorf "too few operands for format" [String.singleton c]) }
        else if c = 'd' then
          match scanInt input2 with
          | .error err => .done { num := num, count := count, err := some err }
          | .ok (value, input3) => .next rest1 input3 (count + 1) value
        else if c ∈ ['b', 'c', 'o', 'U', 'v', 'x', 'X'] then
          .done { num := num, count := count,
                  err := some (.Errorf "verb outside the model" [String.singleton c]) }
        else
          .done { num := num, count := count,
                  err := some (.Errorf "bad verb for integer" [String.singleton c]) }

/-- The end of `doScanf`: an operand that was not scanned is an error. -/
def finishScan (count : Nat) (num : Int) : ScanResult :=
  if count < 1 then { num := num, count := count, err := some (.Errorf "too many operands" []) }
  else { num := num, count := count, err := none }

/-- The loop of `doScanf` of package `fmt` with one `*int` operand: `advance` matches the
format up to a verb, the verb is scanned, and so on to the end of the format.  When
`advance` finds a mismatch and the format it started on begins with `%` (a `%%`), the loop
goes on as for a verb at that place; any other mismatch is an error.  `count` is the
operands scanned and `num` the value stored so far.  Each turn shortens the format, and
`fuel` bounds the turns: more fuel than the format has characters is never used up. -/
def doScanf : Nat → List Char → List Char → Nat → Int → ScanResult
  | 0, _, _, count, num =>
    { num := num, count := count, err := some (.Errorf "out of fuel" []) }
  | fuel + 1, format, input, count, num =>
    match format with
    | [] => finishScan count num
    | f :: rest =>
      match advance (f :: rest) none input with
      | .failed err => { num := num, count := count, err := some err }
      | .stopped [] _ => finishScan count num
      | .stopped (c :: rest1) input1 =>
        if c = '%' then
          match scanVerb rest1 input1 count num with
          | .done result => result
          | .next format1 input2 count1 num1 => doScanf fuel format1 input2 count1 num1
        else finishScan count num
      | .mismatch input1 =>
        if f = '%' then
          match scanVerb rest input1 count num with
          | .done result => result
          | .next format1 input2 count1 num1 => doScanf fuel format1 input2 count1 num1
        else
          { num := num, count := count,
            err := some (.Errorf "input does not match format" []) }

/-- Go's `fmt.Sscanf(str, format, &num)` for one operand `num` of type `int`. -/
def Sscanf (str format : String) : ScanResult :=
  doScanf (format.data.length + 1) format.data str.data 0 0

/-- Go's `shared.StringInSlice(key, list)`. -/
def StringInSlice (key : String) (list : List String) : Bool :=
  decide (key ∈ list)

/-! ## The store -/

/-- A row of `nodes(id, name, address)`. -/
structure Node where
  id : Int
  name : String
  address : String
  deriving DecidableEq, Repr

/-- A row of `projects(id, name)`. -/
structure Project where
  id : Int
  name : String
  deriving DecidableEq, Repr

/-- A row of `storage_pools(id, name, driver)`. -/
structure StoragePool where
  id : Int
  name : String
  driver : String
  deriving DecidableEq, Repr

/-- A row of `storage_volumes`, and of the view `storage_volumes_all`, which has the
same columns.  A `node_id` of `none` is SQL `NULL`. -/
structure StorageVolume where
  id : Int
  name : String
  storage_pool_id : Int
  node_id : Option Int
  type : Int
  description : String
  project_id : Int
  content_type : Int
  deriving DecidableEq, Repr

/-- A row of `storage_volumes_snapshots`. -/
structure StorageVolumeSnapshot where
  id : Int
  storage_volume_id : Int
  name : String
  description : String
  expiry_date : Option Int
  deriving DecidableEq, Repr

/-- A row of `storage_volumes_config` or of `storage_volumes_snapshots_config`:
`owner` is the `storage_volume_id`, respectively the `storage_volume_snapshot_id`. -/
structure ConfigRow where
  owner : Int
  key : String
  value : String
  deriving DecidableEq, Repr

/-- The tables the package reads and writes. -/
structure DB where
  nodes : List Node
  projects : List Project
  storage_pools : List StoragePool
  storage_volumes : List StorageVolume
  storage_volumes_config : List ConfigRow
  storage_volumes_snapshots : List StorageVolumeSnapshot
  storage_volumes_snapshots_config : List ConfigRow
  deriving DecidableEq, Repr

/-- The view row of a snapshot `s` of the volume `v`: the snapshot's id and
description, the qualified name, everything else from the parent. -/
def snapshotRow (v : StorageVolume) (s : StorageVolumeSnapshot) : StorageVolume :=
  { id := s.id
    name := v.name ++ SnapshotDelimiter ++ s.name
    storage_pool_id := v.storage_pool_id
    node_id := v.node_id
    type := v.type
    description := s.description
    project_id := v.project_id
    content_type := v.content_type }

/-- Modelled from the spec: the view `storage_volumes_all`, whose declaration is in the
schema, outside these source files.  It spans the volume rows and, for every snapshot
joined to its parent volume, a row named `parent.name + delimiter + short name`. -/
def storage_volumes_all (db : DB) : List StorageVolume :=
  db.storage_volumes ++
    db.storage_volumes.flatMap (fun v =>
      (db.storage_volumes_snapshots.filter (fun s => s.storage_volume_id = v.id)).map
        (snapshotRow v))


/-! ## Queries

A `SELECT` is evaluated on the row lists and always returns its rows; an inner join
pairs each left row with the right rows its `ON` condition accepts, a left join keeps a
left row without a partner. -/

/-- The rows of `l JOIN r ON cond`. -/
def innerJoin {α β : Type} (l : List α) (r : List β) (cond : α → β → Bool) : List (α × β) :=
  l.flatMap (fun a => (r.filter (cond a)).map (fun b => (a, b)))

/-- The rows of `l LEFT JOIN r ON cond`. -/
def leftJoin {α β : Type} (l : List α) (r : List β) (cond : α → β → Bool) :
    List (α × Option β) :=
  l.flatMap (fun a =>
    match r.filter (cond a) with
    | [] => [(a, none)]
    | b :: bs => (b :: bs).map (fun b => (a, some b)))

/-- The row a `QueryRow(...).Scan` reads: the first one, `sql.ErrNoRows` without one
(the helper `dbQueryRowScan` is declared outside these source files). -/
def dbQueryRowScan {α : Type} (rows : List α) : Except Error α :=
  match rows with
  | [] => .error .ErrNoRows
  | r :: _ => .ok r

/-- Modelled from the spec: `ClusterTx.GetStoragePoolDriver`, declared outside these
source files: the driver of the pool with the given id, NotFound if the pool is
unknown. -/
def ClusterTx.GetStoragePoolDriver (tx : DB) (poolID : Int) : Except Error String :=
  match tx.storage_pools.filter (fun p => p.id = poolID) with
  | [] => .error (.StatusError StatusNotFound "Storage pool not found")
  | p :: _ => .ok p.driver

/-- Modelled from the spec: `storagePoolDriverGet`, the same lookup on a raw
transaction, declared outside these source files. -/
def storagePoolDriverGet (tx : DB) (poolID : Int) : Except Error String :=
  ClusterTx.GetStoragePoolDriver tx poolID

/-- Modelled from the spec: `Cluster.IsRemoteStorage`, declared outside these source
files: the set-membership test of the pool's driver string against the remote driver
names, failing when the pool is unknown. -/
def Cluster.IsRemoteStorage (remoteDrivers : List String) (db : DB) (poolID : Int) :
    Except Error Bool :=
  match ClusterTx.GetStoragePoolDriver db poolID with
  | .error err => .error err
  | .ok driver => .ok (StringInSlice driver remoteDrivers)

/-- The ids of all volumes with the given name and type associated with the given pool,
regardless of their `node_id` column. -/
def storageVolumeIDsGet (tx : DB) (project volumeName : String) (volumeType : Int)
    (poolID : Int) : List Int :=
  ((innerJoin (storage_volumes_all tx) tx.projects
      (fun v p => decide (p.id = v.project_id))).filter
    (fun vp => decide (vp.2.name = project) && decide (vp.1.name = volumeName)
      && decide (vp.1.type = volumeType) && decide (vp.1.storage_pool_id = poolID))).map
    (fun vp => vp.1.id)

/-- The `WHERE` clause shared by the member-aware lookups:
`node_id=? OR node_id IS NULL AND storage_pools.driver IN (remote drivers)`. -/
def onMember (remoteDrivers : List String) (nodeID : Int) (v : StorageVolume)
    (pool : StoragePool) : Bool :=
  decide (v.node_id = some nodeID) ||
    (decide (v.node_id = none) && StringInSlice pool.driver remoteDrivers)

/-- `ClusterTx.storagePoolVolumeGetTypeID`: the id of a storage volume on a given
storage pool of a given storage volume type, on the given node.  The pair is Go's
`(int64, error)`. -/
def ClusterTx.storagePoolVolumeGetTypeID (remoteDrivers : List String) (tx : DB)
    (project volumeName : String) (volumeType : Int) (poolID nodeID : Int) :
    Int × Option Error :=
  let result : List Int :=
    ((innerJoin
        (innerJoin (storage_volumes_all tx) tx.storage_pools
          (fun v pool => decide (v.storage_pool_id = pool.id)))
        tx.projects (fun vp p => decide (vp.1.project_id = p.id))).filter
      (fun vpp => decide (vpp.2.name = project) && decide (vpp.1.1.storage_pool_id = poolID)
        && decide (vpp.1.1.name = volumeName) && decide (vpp.1.1.type = volumeType)
        && onMember remoteDrivers nodeID vpp.1.1 vpp.1.2)).map
      (fun vpp => vpp.1.1.id)
  match result with
  | [] => (-1, some (.StatusError StatusNotFound "Storage pool volume not found"))
  | id :: _ => (id, none)

/-- `Cluster.storagePoolVolumeGetTypeID`: the same lookup run in a transaction of its
own. -/
def Cluster.storagePoolVolumeGetTypeID (remoteDrivers : List String) (db : DB)
    (project volumeName : String) (volumeType : Int) (poolID nodeID : Int) :
    Int × Option Error :=
  match ClusterTx.storagePoolVolumeGetTypeID remoteDrivers db project volumeName volumeType
      poolID nodeID with
  | (_, some err) => (-1, some err)
  | (id, none) => (id, none)

/-- `Cluster.GetStoragePoolNodeVolumeID`: the id of a storage volume on a given storage
pool of a given storage volume type and project, on the current node. -/
def Cluster.GetStoragePoolNodeVolumeID (remoteDrivers : List String) (localNodeID : Int)
    (db : DB) (projectName volumeName : String) (volumeType : Int) (poolID : Int) :
    Int × Option Error :=
  Cluster.storagePoolVolumeGetTypeID remoteDrivers db projectName volumeName volumeType
    poolID localNodeID

/-- The fields of `NodeInfo` that `GetStorageVolumeNodes` fills. -/
structure NodeInfo where
  ID : Int
  Address : String
  Name : String
  deriving DecidableEq, Repr

/-- The rows `GetStorageVolumeNodes` selects: one per volume row of the identity and
node joined to it, with `coalesce` turning a missing node into `0` and `""`. -/
def storageVolumeNodeRows (tx : DB) (poolID : Int) (projectName volumeName : String)
    (volumeType : Int) : List NodeInfo :=
  ((leftJoin
      (innerJoin (storage_volumes_all tx) tx.projects
        (fun v p => decide (p.id = v.project_id)))
      tx.nodes (fun vp n => decide (vp.1.node_id = some n.id))).filter
    (fun vpn => decide (vpn.1.1.storage_pool_id = poolID) && decide (vpn.1.2.name = projectName)
      && decide (vpn.1.1.name = volumeName) && decide (vpn.1.1.type = volumeType))).map
    (fun vpn =>
      match vpn.2 with
      | none => { ID := 0, Address := "", Name := "" }
      | some n => { ID := n.id, Address := n.address, Name := n.name })

/-- `ClusterTx.GetStorageVolumeNodes`: the node info of all nodes on which the volume
with the given name is defined.  `StorageRemoteDriverNames` is the package variable of
that name, `none` when no function is installed. -/
def ClusterTx.GetStorageVolumeNodes (StorageRemoteDriverNames : Option (List String))
    (tx : DB) (poolID : Int) (projectName volumeName : String) (volumeType : Int) :
    Except Error (List NodeInfo) :=
  let nodes := storageVolumeNodeRows tx poolID projectName volumeName volumeType
  if nodes.length = 0 then
    .error (.StatusError StatusNotFound "Storage pool volume not found")
  else if nodes.any (fun node => decide (node.ID = 0)) then
    .error .ErrNoClusterMember
  else
    let nodeCount := nodes.length
    if nodeCount = 0 then
      .error (.StatusError StatusNotFound "Storage pool volume not found")
    else if nodeCount > 1 then
      match ClusterTx.GetStoragePoolDriver tx poolID with
      | .error err => .error err
      | .ok driver =>
        match StorageRemoteDriverNames with
        | none => .error (.Errorf "No remote storage drivers function defined" [])
        | some remoteDrivers =>
          if StringInSlice driver remoteDrivers then .error .ErrNoClusterMember
          else .ok nodes
    else .ok nodes


/-! ## Config, description and the logical view -/

/-- A Go `map[string]string`: its entries, each key once, in the order a `range` over
it visits them. -/
abbrev GoMap := List (String × String)

/-- The lookup `_, found := m[key]`. -/
def mapFound (m : GoMap) (key : String) : Bool :=
  m.any (fun e => decide (e.1 = key))

/-- The assignment `m[key] = value`. -/
def mapSet : GoMap → String → String → GoMap
  | [], key, value => [(key, value)]
  | (k, v) :: m, key, value =>
    if k = key then (key, value) :: m else (k, v) :: mapSet m key value

/-- The config rows of a record: `SELECT key, value FROM storage_volumes_config WHERE
storage_volume_id=?`, or the same on `storage_volumes_snapshots_config`. -/
def configRows (tx : DB) (volumeID : Int) (isSnapshot : Bool) : List ConfigRow :=
  if isSnapshot then
    tx.storage_volumes_snapshots_config.filter (fun r => decide (r.owner = volumeID))
  else
    tx.storage_volumes_config.filter (fun r => decide (r.owner = volumeID))

/-- `ClusterTx.storageVolumeConfigGet`: the config of a storage volume. -/
def ClusterTx.storageVolumeConfigGet (tx : DB) (volumeID : Int) (isSnapshot : Bool) :
    Except Error GoMap :=
  .ok ((configRows tx volumeID isSnapshot).foldl (fun config r => mapSet config r.key r.value) [])

/-- `Cluster.storageVolumeConfigGet`: the same read in a transaction of its own. -/
def Cluster.storageVolumeConfigGet (db : DB) (volumeID : Int) (isSnapshot : Bool) :
    Except Error GoMap :=
  ClusterTx.storageVolumeConfigGet db volumeID isSnapshot

/-- One step of the scan of `storageVolumeSnapshotConfig`: a key already in the map is
an error. -/
def snapshotConfigStep (volumeSnapshotID : Int) (config : GoMap) (r : ConfigRow) :
    Except Error GoMap :=
  if mapFound config r.key then
    .error (.Errorf "Duplicate config row found for key %q for storage volume snapshot ID %d"
      [r.key, toString volumeSnapshotID])
  else .ok (mapSet config r.key r.value)

/-- The scan of `storageVolumeSnapshotConfig` over the rows, from the map read so far. -/
def snapshotConfigScan (volumeSnapshotID : Int) : GoMap → List ConfigRow → Except Error GoMap
  | config, [] => .ok config
  | config, r :: rows =>
    match snapshotConfigStep volumeSnapshotID config r with
    | .error err => .error err
    | .ok config1 => snapshotConfigScan volumeSnapshotID config1 rows

/-- `storageVolumeSnapshotConfig`: the config map of the storage volume snapshot with the
given id, which the Go function stores in `volume.Config`. -/
def storageVolumeSnapshotConfig (tx : DB) (volumeSnapshotID : Int) : Except Error GoMap :=
  snapshotConfigScan volumeSnapshotID []
    (tx.storage_volumes_snapshots_config.filter (fun r => decide (r.owner = volumeSnapshotID)))

/-- `Cluster.storageVolumeNodeGet`: the name of the node a storage volume is on. -/
def Cluster.storageVolumeNodeGet (db : DB) (volumeID : Int) : Except Error String :=
  match dbQueryRowScan
      (((innerJoin (storage_volumes_all db) db.nodes
          (fun v n => decide (some n.id = v.node_id))).filter
        (fun vn => decide (vn.1.id = volumeID))).map (fun vn => vn.2.name)) with
  | .error .ErrNoRows => .error (.StatusError StatusNotFound "Storage pool volume not found")
  | .error err => .error err
  | .ok name => .ok name

/-- `Cluster.GetStorageVolumeDescription`: the description of a storage volume. -/
def Cluster.GetStorageVolumeDescription (db : DB) (volumeID : Int) : Except Error String :=
  match dbQueryRowScan
      (((storage_volumes_all db).filter (fun v => decide (v.id = volumeID))).map
        (fun v => v.description)) with
  | .error .ErrNoRows => .error (.StatusError StatusNotFound "Storage pool volume not found")
  | .error err => .error err
  | .ok description => .ok description

/-- `Cluster.getStorageVolumeContentType`: the content type of a storage volume. -/
def Cluster.getStorageVolumeContentType (db : DB) (volumeID : Int) : Except Error Int :=
  match dbQueryRowScan
      (((storage_volumes_all db).filter (fun v => decide (v.id = volumeID))).map
        (fun v => v.content_type)) with
  | .error .ErrNoRows => .error (.StatusError StatusNotFound "Storage pool volume not found")
  | .error err => .error err
  | .ok contentType => .ok contentType

/-- The volume type codes. -/
def StoragePoolVolumeTypeContainer : Int := 0
/-- The volume type code of image volumes. -/
def StoragePoolVolumeTypeImage : Int := 1
/-- The volume type code of custom volumes. -/
def StoragePoolVolumeTypeCustom : Int := 2
/-- The volume type code of virtual-machine volumes. -/
def StoragePoolVolumeTypeVM : Int := 3

/-- The content type codes. -/
def StoragePoolVolumeContentTypeFS : Int := 0
/-- The content type code of block volumes. -/
def StoragePoolVolumeContentTypeBlock : Int := 1

/-- Convert a volume integer type code to its human-readable name. -/
def storagePoolVolumeTypeToName (volumeType : Int) : Except Error String :=
  if volumeType = StoragePoolVolumeTypeContainer then .ok "container"
  else if volumeType = StoragePoolVolumeTypeVM then .ok "virtual-machine"
  else if volumeType = StoragePoolVolumeTypeImage then .ok "image"
  else if volumeType = StoragePoolVolumeTypeCustom then .ok "custom"
  else .error (.Errorf "Invalid storage volume type" [])

/-- Convert a volume integer content type code to its human-readable name. -/
def storagePoolVolumeContentTypeToName (contentType : Int) : Except Error String :=
  if contentType = StoragePoolVolumeContentTypeFS then .ok "filesystem"
  else if contentType = StoragePoolVolumeContentTypeBlock then .ok "block"
  else .error (.Errorf "Invalid storage volume content type" [])

/-- The fields of `api.StorageVolume` the package fills (`Type_` is Go's `Type`). -/
structure ApiStorageVolume where
  Type_ : String
  Name : String
  Description : String
  Config : GoMap
  Location : String
  ContentType : String
  deriving DecidableEq, Repr

/-- `Cluster.storagePoolVolumeGetType`: a single storage volume attached to a given
storage pool of a given type, on the node with the given id.  An error stands for Go's
`(-1, nil, err)`. -/
def Cluster.storagePoolVolumeGetType (remoteDrivers : List String) (db : DB)
    (project volumeName : String) (volumeType : Int) (poolID nodeID : Int) :
    Except Error (Int × ApiStorageVolume) :=
  let isSnapshot := stringsContains volumeName SnapshotDelimiter
  match Cluster.storagePoolVolumeGetTypeID remoteDrivers db project volumeName volumeType
      poolID nodeID with
  | (_, some err) => .error err
  | (volumeID, none) =>
  match Cluster.IsRemoteStorage remoteDrivers db poolID with
  | .error err => .error err
  | .ok isRemoteStorage =>
  match (if !isRemoteStorage then Cluster.storageVolumeNodeGet db volumeID else .ok "") with
  | .error err => .error err
  | .ok volumeNode =>
  match Cluster.storageVolumeConfigGet db volumeID isSnapshot with
  | .error err => .error err
  | .ok volumeConfig =>
  match Cluster.GetStorageVolumeDescription db volumeID with
  | .error err => .error err
  | .ok volumeDescription =>
  match Cluster.getStorageVolumeContentType db volumeID with
  | .error err => .error err
  | .ok volumeContentType =>
  match storagePoolVolumeTypeToName volumeType with
  | .error err => .error err
  | .ok volumeTypeName =>
  match storagePoolVolumeContentTypeToName volumeContentType with
  | .error err => .error err
  | .ok volumeContentTypeName =>
    .ok (volumeID,
      { Type_ := volumeTypeName
        Name := volumeName
        Description := volumeDescription
        Config := volumeConfig
        Location := volumeNode
        ContentType := volumeContentTypeName })

/-- `Cluster.GetLocalStoragePoolVolume`: a single storage volume attached to a given
storage pool of a given type, on the current node in the given project. -/
def Cluster.GetLocalStoragePoolVolume (remoteDrivers : List String) (localNodeID : Int)
    (db : DB) (project volumeName : String) (volumeType : Int) (poolID : Int) :
    Except Error (Int × ApiStorageVolume) :=
  Cluster.storagePoolVolumeGetType remoteDrivers db project volumeName volumeType poolID
    localNodeID


/-! ## Statements and transactions -/

/-- The statements the package runs with `Exec`. -/
inductive Stmt where
  /-- `DELETE FROM storage_volumes_config WHERE storage_volume_id=?` -/
  | DeleteVolumeConfig (volumeID : Int)
  /-- `DELETE FROM storage_volumes_snapshots_config WHERE storage_volume_snapshot_id=?` -/
  | DeleteSnapshotConfig (volumeID : Int)
  /-- `INSERT INTO storage_volumes_config (storage_volume_id, key, value) VALUES(?, ?, ?)` -/
  | InsertVolumeConfig (volumeID : Int) (key value : String)
  /-- `INSERT INTO storage_volumes_snapshots_config (storage_volume_snapshot_id, key, value)
  VALUES(?, ?, ?)` -/
  | InsertSnapshotConfig (volumeID : Int) (key value : String)
  /-- `UPDATE storage_volumes SET description=? WHERE id=?` -/
  | UpdateVolumeDescription (description : String) (volumeID : Int)
  /-- `UPDATE storage_volumes_snapshots SET description=? WHERE id=?` -/
  | UpdateSnapshotDescription (description : String) (volumeID : Int)
  /-- `UPDATE storage_volumes SET name=? WHERE id=?` -/
  | UpdateVolumeName (name : String) (volumeID : Int)
  /-- `UPDATE storage_volumes_snapshots SET name=? WHERE id=?` -/
  | UpdateSnapshotName (name : String) (volumeID : Int)
  /-- `DELETE FROM storage_volumes WHERE id=?` -/
  | DeleteVolume (volumeID : Int)
  /-- `DELETE FROM storage_volumes_snapshots WHERE id=?` -/
  | DeleteSnapshot (volumeID : Int)
  /-- `INSERT INTO storage_volumes (storage_pool_id, node_id, type, name, description,
  project_id, content_type) VALUES (?, ?, ?, ?, ?, (SELECT id FROM projects WHERE name = ?),
  ?)`, and the same statement without the column `node_id` when `nodeID` is `none`. -/
  | InsertVolume (poolID : Int) (nodeID : Option Int) (volumeType : Int)
      (name description project : String) (contentType : Int)
  /-- `DELETE FROM storage_volumes WHERE type=? AND name NOT IN (?, ..., ?)`, with one
  placeholder per name. -/
  | DeleteVolumesNotIn (volumeType : Int) (names : List String)
  deriving DecidableEq, Repr

/-- Modelled from the spec: the id the store gives the next row of `storage_volumes`, what
`LastInsertId` reports after the insert.  A record id is opaque and stable; it is taken
above every id of a volume or snapshot row of the store. -/
def nextVolumeID (tx : DB) : Int :=
  ((tx.storage_volumes.map (fun v => v.id) ++
      tx.storage_volumes_snapshots.map (fun s => s.id)).foldl max 0) + 1

/-- The value of the subquery `SELECT id FROM projects WHERE name = ?`: the id of the
project of that name, `none` (SQL `NULL`) without one. -/
def projectIDOf (tx : DB) (project : String) : Option Int :=
  ((tx.projects.filter (fun p => decide (p.name = project))).map (fun p => p.id)).head?

/-- The snapshot rows a `DELETE` on `storage_volumes_snapshots` removes together with
their config rows. -/
def deleteSnapshots (tx : DB) (gone : StorageVolumeSnapshot → Bool) : DB :=
  { tx with
    storage_volumes_snapshots := tx.storage_volumes_snapshots.filter (fun s => !gone s)
    storage_volumes_snapshots_config :=
      tx.storage_volumes_snapshots_config.filter (fun r =>
        !(tx.storage_volumes_snapshots.any (fun s => gone s && decide (s.id = r.owner)))) }

/-- What a statement does to the store when the driver accepts it.  Modelled from the
spec: the schema is outside these source files; a deleted record takes the rows it owns
with it (its config rows, and a volume's snapshots). -/
def Stmt.run : Stmt → DB → DB
  | .DeleteVolumeConfig volumeID, tx =>
    { tx with storage_volumes_config :=
        tx.storage_volumes_config.filter (fun r => !decide (r.owner = volumeID)) }
  | .DeleteSnapshotConfig volumeID, tx =>
    { tx with storage_volumes_snapshots_config :=
        tx.storage_volumes_snapshots_config.filter (fun r => !decide (r.owner = volumeID)) }
  | .InsertVolumeConfig volumeID key value, tx =>
    { tx with storage_volumes_config :=
        tx.storage_volumes_config ++ [{ owner := volumeID, key := key, value := value }] }
  | .InsertSnapshotConfig volumeID key value, tx =>
    { tx with storage_volumes_snapshots_config :=
        tx.storage_volumes_snapshots_config ++
          [{ owner := volumeID, key := key, value := value }] }
  | .UpdateVolumeDescription description volumeID, tx =>
    { tx with storage_volumes :=
        tx.storage_volumes.map (fun v =>
          if v.id = volumeID then { v with description := description } else v) }
  | .UpdateSnapshotDescription description volumeID, tx =>
    { tx with storage_volumes_snapshots :=
        tx.storage_volumes_snapshots.map (fun s =>
          if s.id = volumeID then { s with description := description } else s) }
  | .UpdateVolumeName name volumeID, tx =>
    { tx with storage_volumes :=
        tx.storage_volumes.map (fun v => if v.id = volumeID then { v with name := name } else v) }
  | .UpdateSnapshotName name volumeID, tx =>
    { tx with storage_volumes_snapshots :=
        tx.storage_volumes_snapshots.map (fun s =>
          if s.id = volumeID then { s with name := name } else s) }
  | .DeleteVolume volumeID, tx =>
    let tx1 := deleteSnapshots tx (fun s => decide (s.storage_volume_id = volumeID))
    { tx1 with
      storage_volumes := tx1.storage_volumes.filter (fun v => !decide (v.id = volumeID))
      storage_volumes_config :=
        tx1.storage_volumes_config.filter (fun r => !decide (r.owner = volumeID)) }
  | .DeleteSnapshot volumeID, tx =>
    deleteSnapshots tx (fun s => decide (s.id = volumeID))
  | .InsertVolume poolID nodeID volumeType name description project contentType, tx =>
    match projectIDOf tx project with
    | none => tx
    | some projectID =>
      { tx with storage_volumes :=
          tx.storage_volumes ++
            [{ id := nextVolumeID tx
               name := name
               storage_pool_id := poolID
               node_id := nodeID
               type := volumeType
               description := description
               project_id := projectID
               content_type := contentType }] }
  | .DeleteVolumesNotIn volumeType names, tx =>
    let gone : StorageVolume → Bool :=
      fun v => decide (v.type = volumeType) && !decide (v.name ∈ names)
    let tx1 := deleteSnapshots tx (fun s =>
      tx.storage_volumes.any (fun v => gone v && decide (s.storage_volume_id = v.id)))
    { tx1 with
      storage_volumes := tx1.storage_volumes.filter (fun v => !gone v)
      storage_volumes_config :=
        tx1.storage_volumes_config.filter (fun r =>
          !(tx.storage_volumes.any (fun v => gone v && decide (r.owner = v.id)))) }

/-- Whether the key `(pool, member, project, name, type)` of a volume record is taken in
the store by a record other than `volumeID`.  A record without a member takes no key: SQL
`NULL`s are distinct, and invariant I1 speaks of local-class pools, whose records have a
member. -/
def keyTaken (tx : DB) (poolID : Int) (nodeID : Option Int) (projectID : Int) (name : String)
    (volumeType : Int) (volumeID : Option Int) : Bool :=
  tx.storage_volumes.any (fun v =>
    nodeID.isSome && decide (v.node_id = nodeID) && decide (v.storage_pool_id = poolID)
      && decide (v.project_id = projectID) && decide (v.name = name)
      && decide (v.type = volumeType) && !decide (some v.id = volumeID))

/-- Modelled from the spec: the constraints of the schema, which is outside these source
files, a statement can violate in this model.  A volume record has a project, so an
insert whose project subquery is `NULL` is refused; and the key `(pool, member, project,
name, type)` of a volume record is unique (invariant I1), so an insert or a rename that
would give a second record the key of a record is refused. -/
def Stmt.check : Stmt → DB → Option Error
  | .InsertVolume poolID nodeID volumeType name _ project _, tx =>
    match projectIDOf tx project with
    | none => some (.Store "NOT NULL constraint failed: storage_volumes.project_id")
    | some projectID =>
      if keyTaken tx poolID nodeID projectID name volumeType none then
        some (.Store "UNIQUE constraint failed: storage_volumes.storage_pool_id, storage_volumes.node_id, storage_volumes.project_id, storage_volumes.name, storage_volumes.type")
      else none
  | .UpdateVolumeName name volumeID, tx =>
    if tx.storage_volumes.any (fun v => decide (v.id = volumeID)
        && keyTaken tx v.storage_pool_id v.node_id v.project_id name v.type (some v.id)) then
      some (.Store "UNIQUE constraint failed: storage_volumes.storage_pool_id, storage_volumes.node_id, storage_volumes.project_id, storage_volumes.name, storage_volumes.type")
    else none
  | _, _ => none

/-- The SQL driver's verdict on a statement in a store: `none` accepts it, an error
refuses it and leaves the store as it is. -/
abbrev Driver := Stmt → DB → Option Error

/-- The driver that accepts every statement. -/
def Driver.accepting : Driver := fun _ _ => none

/-- `tx.Exec(stmt, args...)`: the store after the statement and the error, Go's `err`. -/
def Exec (driver : Driver) (tx : DB) (stmt : Stmt) : DB × Option Error :=
  match driver stmt tx with
  | some err => (tx, some err)
  | none =>
    match stmt.check tx with
    | some err => (tx, some err)
    | none => (stmt.run tx, none)

/-- Modelled from the spec: `Cluster.Transaction`, declared outside these source files:
the body runs on the store; without an error the store it leaves is committed, with an
error the whole transaction rolls back. -/
def Transaction (db : DB) (f : DB → DB × Option Error) : DB × Option Error :=
  match f db with
  | (tx, none) => (tx, none)
  | (_, some err) => (db, some err)

/-! ## Mutations -/

/-- Updates the description of a storage volume. -/
def storageVolumeDescriptionUpdate (driver : Driver) (tx : DB) (volumeID : Int)
    (description : String) (isSnapshot : Bool) : DB × Option Error :=
  if isSnapshot then Exec driver tx (.UpdateSnapshotDescription description volumeID)
  else Exec driver tx (.UpdateVolumeDescription description volumeID)

/-- Add a new storage volume config into database: the loop over the map. -/
def storageVolumeConfigAdd (driver : Driver) (tx : DB) (volumeID : Int)
    (volumeConfig : GoMap) (isSnapshot : Bool) : DB × Option Error :=
  match volumeConfig with
  | [] => (tx, none)
  | (k, v) :: rest =>
    if v = "" then storageVolumeConfigAdd driver tx volumeID rest isSnapshot
    else
      match Exec driver tx
          (if isSnapshot then .InsertSnapshotConfig volumeID k v
           else .InsertVolumeConfig volumeID k v) with
      | (tx1, some err) => (tx1, some err)
      | (tx1, none) => storageVolumeConfigAdd driver tx1 volumeID rest isSnapshot

/-- Delete storage volume config. -/
def storageVolumeConfigClear (driver : Driver) (tx : DB) (volumeID : Int)
    (isSnapshot : Bool) : DB × Option Error :=
  match Exec driver tx
      (if isSnapshot then .DeleteSnapshotConfig volumeID else .DeleteVolumeConfig volumeID) with
  | (tx1, some err) => (tx1, some err)
  | (tx1, none) => (tx1, none)

/-- The loop `for _, volumeID := range volumeIDs` of `storagePoolVolumeReplicateIfCeph`,
which returns at the first error of `f`. -/
def replicateLoop (f : Int → DB → DB × Option Error) : List Int → DB → DB × Option Error
  | [], tx => (tx, none)
  | volumeID :: volumeIDs, tx =>
    match f volumeID tx with
    | (tx1, some err) => (tx1, some err)
    | (tx1, none) => replicateLoop f volumeIDs tx1

/-- `storagePoolVolumeReplicateIfCeph`: a convenience to replicate a certain volume change
to all nodes if the underlying driver is ceph. -/
def storagePoolVolumeReplicateIfCeph (remoteDrivers : List String) (tx : DB) (volumeID : Int)
    (project volumeName : String) (volumeType : Int) (poolID : Int)
    (f : Int → DB → DB × Option Error) : DB × Option Error :=
  match storagePoolDriverGet tx poolID with
  | .error err => (tx, some err)
  | .ok driver =>
    let volumeIDs :=
      if StringInSlice driver remoteDrivers then
        storageVolumeIDsGet tx project volumeName volumeType poolID
      else [volumeID]
    replicateLoop f volumeIDs tx

/-- The change `UpdateStoragePoolVolume` hands to `storagePoolVolumeReplicateIfCeph`:
clear the config, add the new one, update the description. -/
def updateVolume (driver : Driver) (volumeDescription : String) (volumeConfig : GoMap)
    (isSnapshot : Bool) (volumeID : Int) (tx : DB) : DB × Option Error :=
  match storageVolumeConfigClear driver tx volumeID isSnapshot with
  | (tx1, some err) => (tx1, some err)
  | (tx1, none) =>
    match storageVolumeConfigAdd driver tx1 volumeID volumeConfig isSnapshot with
    | (tx2, some err) => (tx2, some err)
    | (tx2, none) => storageVolumeDescriptionUpdate driver tx2 volumeID volumeDescription isSnapshot

/-- `Cluster.UpdateStoragePoolVolume`: updates the storage volume attached to a given
storage pool.  The result is the store after the call and Go's `err`. -/
def Cluster.UpdateStoragePoolVolume (driver : Driver) (remoteDrivers : List String)
    (localNodeID : Int) (db : DB) (project volumeName : String) (volumeType : Int)
    (poolID : Int) (volumeDescription : String) (volumeConfig : GoMap) : DB × Option Error :=
  match Cluster.GetLocalStoragePoolVolume remoteDrivers localNodeID db project volumeName
      volumeType poolID with
  | .error err => (db, some err)
  | .ok (volumeID, _) =>
    let isSnapshot := stringsContains volumeName SnapshotDelimiter
    Transaction db (fun tx =>
      storagePoolVolumeReplicateIfCeph remoteDrivers tx volumeID project volumeName volumeType
        poolID (updateVolume driver volumeDescription volumeConfig isSnapshot))

/-- The change `RemoveStoragePoolVolume` replicates: the `DELETE` of its table. -/
def removeVolume (driver : Driver) (isSnapshot : Bool) (volumeID : Int) (tx : DB) :
    DB × Option Error :=
  Exec driver tx (if isSnapshot then .DeleteSnapshot volumeID else .DeleteVolume volumeID)

/-- `Cluster.RemoveStoragePoolVolume`: deletes the storage volume attached to a given
storage pool. -/
def Cluster.RemoveStoragePoolVolume (driver : Driver) (remoteDrivers : List String)
    (localNodeID : Int) (db : DB) (project volumeName : String) (volumeType : Int)
    (poolID : Int) : DB × Option Error :=
  match Cluster.GetLocalStoragePoolVolume remoteDrivers localNodeID db project volumeName
      volumeType poolID with
  | .error err => (db, some err)
  | .ok (volumeID, _) =>
    let isSnapshot := stringsContains volumeName SnapshotDelimiter
    Transaction db (fun tx =>
      storagePoolVolumeReplicateIfCeph remoteDrivers tx volumeID project volumeName volumeType
        poolID (removeVolume driver isSnapshot))

/-- The change `RenameStoragePoolVolume` replicates: the `UPDATE ... SET name=?` of its
table. -/
def renameVolume (driver : Driver) (isSnapshot : Bool) (newVolumeName : String)
    (volumeID : Int) (tx : DB) : DB × Option Error :=
  Exec driver tx
    (if isSnapshot then .UpdateSnapshotName newVolumeName volumeID
     else .UpdateVolumeName newVolumeName volumeID)

/-- `Cluster.RenameStoragePoolVolume`: renames the storage volume attached to a given
storage pool.  `none` is the run-time panic of `parts[1]` on a one-element `parts`. -/
def Cluster.RenameStoragePoolVolume (driver : Driver) (remoteDrivers : List String)
    (localNodeID : Int) (db : DB) (project oldVolumeName newVolumeName : String)
    (volumeType : Int) (poolID : Int) : Option (DB × Option Error) :=
  match Cluster.GetLocalStoragePoolVolume remoteDrivers localNodeID db project oldVolumeName
      volumeType poolID with
  | .error err => some (db, some err)
  | .ok (volumeID, _) =>
    let isSnapshot := stringsContains oldVolumeName SnapshotDelimiter
    let newName : Option String :=
      if isSnapshot then (stringsSplit newVolumeName SnapshotDelimiter)[1]?
      else some newVolumeName
    match newName with
    | none => none
    | some newVolumeName =>
      some (Transaction db (fun tx =>
        storagePoolVolumeReplicateIfCeph remoteDrivers tx volumeID project oldVolumeName
          volumeType poolID (renameVolume driver isSnapshot newVolumeName)))


/-! ## Creating a volume -/

/-- Modelled from the spec: `shared.IsSnapshot`, declared outside these source files:
whether a name looks like a snapshot-qualified name, one that holds the delimiter. -/
def IsSnapshot (name : String) : Bool :=
  stringsContains name SnapshotDelimiter

/-- The body of the transaction of `CreateStoragePoolVolume`: the store it leaves, the value
of the captured variable `volumeID` and the error. -/
def createVolume (driver : Driver) (remoteDrivers : List String) (localNodeID : Int)
    (project volumeName volumeDescription : String) (volumeType : Int) (poolID : Int)
    (volumeConfig : GoMap) (contentType : Int) (tx : DB) : DB × Int × Option Error :=
  match ClusterTx.GetStoragePoolDriver tx poolID with
  | .error err => (tx, 0, some err)
  | .ok poolDriver =>
    match Exec driver tx
        (if StringInSlice poolDriver remoteDrivers then
          .InsertVolume poolID none volumeType volumeName volumeDescription project contentType
         else
          .InsertVolume poolID (some localNodeID) volumeType volumeName volumeDescription project
            contentType) with
    | (tx1, some err) => (tx1, 0, some err)
    | (tx1, none) =>
      let volumeID := nextVolumeID tx
      match storageVolumeConfigAdd driver tx1 volumeID volumeConfig false with
      | (tx2, some err) =>
        (tx2, volumeID, some (.Wrapped "Insert storage volume configuration" err))
      | (tx2, none) => (tx2, volumeID, none)

/-- `Cluster.CreateStoragePoolVolume`: creates a new storage volume attached to a given
storage pool.  The result is the store after the call and Go's `(volumeID, err)`. -/
def Cluster.CreateStoragePoolVolume (driver : Driver) (remoteDrivers : List String)
    (localNodeID : Int) (db : DB) (project volumeName volumeDescription : String)
    (volumeType : Int) (poolID : Int) (volumeConfig : GoMap) (contentType : Int) :
    DB × Int × Option Error :=
  if IsSnapshot volumeName then
    (db, -1, some (.Errorf "Volume name may not be a snapshot" []))
  else
    match Transaction db (fun tx =>
        let r := createVolume driver remoteDrivers localNodeID project volumeName
          volumeDescription volumeType poolID volumeConfig contentType tx
        (r.1, r.2.2)) with
    | (db1, some err) => (db1, -1, some err)
    | (db1, none) =>
      (db1, (createVolume driver remoteDrivers localNodeID project volumeName volumeDescription
        volumeType poolID volumeConfig contentType db).2.1, none)

/-! ## Listing volumes -/

/-- Modelled from the spec: `api.StatusErrorCheck`, declared outside these source files:
whether an error is, or wraps, a status error with the given code. -/
def StatusErrorCheck : Error → Nat → Bool
  | .StatusError code _, status => decide (code = status)
  | .Wrapped _ inner, status => StatusErrorCheck inner status
  | _, _ => false

/-- `query.SelectIntegers` on the values of the selected column, declared outside these
source files: a `NULL` cannot be scanned into an integer. -/
def SelectIntegers : List (Option Int) → Except Error (List Int)
  | [] => .ok []
  | none :: _ => .error (.Store "sql: Scan error: converting NULL to int is unsupported")
  | some n :: rest =>
    match SelectIntegers rest with
    | .error err => .error err
    | .ok ns => .ok (n :: ns)

/-- `Cluster.storagePoolVolumesGetType`: the names of all storage volumes attached to a
given storage pool of a given volume type, on the given node. -/
def Cluster.storagePoolVolumesGetType (remoteDrivers : List String) (db : DB)
    (project : String) (volumeType : Int) (poolID nodeID : Int) : List String :=
  ((innerJoin
      (innerJoin (storage_volumes_all db) db.projects
        (fun v p => decide (p.id = v.project_id)))
      db.storage_pools (fun vp pool => decide (pool.id = vp.1.storage_pool_id))).filter
    (fun vpp => decide (vpp.1.2.name = project) && decide (vpp.1.1.storage_pool_id = poolID)
      && decide (vpp.1.1.type = volumeType)
      && onMember remoteDrivers nodeID vpp.1.1 vpp.2)).map
    (fun vpp => vpp.1.1.name)

/-- `Cluster.GetLocalStoragePoolVolumesWithType`: the names of all storage volumes attached
to a given storage pool of a given volume type, on the current node. -/
def Cluster.GetLocalStoragePoolVolumesWithType (remoteDrivers : List String)
    (localNodeID : Int) (db : DB) (projectName : String) (volumeType : Int) (poolID : Int) :
    List String :=
  Cluster.storagePoolVolumesGetType remoteDrivers db projectName volumeType poolID localNodeID

/-- The loop of `storagePoolVolumesGet` over the names of one volume type: each volume is
fetched and appended to `result`; a failed fetch ends the listing. -/
def fetchVolumes (remoteDrivers : List String) (db : DB) (project : String)
    (volumeType : Int) (poolID nodeID : Int) :
    List String → List ApiStorageVolume → Except Error (List ApiStorageVolume)
  | [], result => .ok result
  | volumeName :: volumeNames, result =>
    match Cluster.storagePoolVolumeGetType remoteDrivers db project volumeName volumeType poolID
        nodeID with
    | .error err => .error (.Wrapped "Failed to fetch volume type" err)
    | .ok (_, volume) =>
      fetchVolumes remoteDrivers db project volumeType poolID nodeID volumeNames
        (result ++ [volume])

/-- The loop of `storagePoolVolumesGet` over the volume types. -/
def collectVolumes (remoteDrivers : List String) (db : DB) (project : String)
    (poolID nodeID : Int) :
    List Int → List ApiStorageVolume → Except Error (List ApiStorageVolume)
  | [], result => .ok result
  | volumeType :: volumeTypes, result =>
    match fetchVolumes remoteDrivers db project volumeType poolID nodeID
        (Cluster.storagePoolVolumesGetType remoteDrivers db project volumeType poolID nodeID)
        result with
    | .error err => .error err
    | .ok result1 => collectVolumes remoteDrivers db project poolID nodeID volumeTypes result1

/-- `Cluster.storagePoolVolumesGet`: all storage volumes attached to a given storage pool on
the given node.  The pair is Go's `([]*api.StorageVolume, error)`: an empty list comes
with a NotFound status error. -/
def Cluster.storagePoolVolumesGet (remoteDrivers : List String) (db : DB) (project : String)
    (poolID nodeID : Int) (volumeTypes : List Int) : List ApiStorageVolume × Option Error :=
  match collectVolumes remoteDrivers db project poolID nodeID volumeTypes [] with
  | .error err => ([], some err)
  | .ok result =>
    if result.length = 0 then
      (result, some (.StatusError StatusNotFound "Storage pool volume(s) not found"))
    else (result, none)

/-- `Cluster.GetLocalStoragePoolVolumes`: all storage volumes attached to a given storage
pool on the current node. -/
def Cluster.GetLocalStoragePoolVolumes (remoteDrivers : List String) (localNodeID : Int)
    (db : DB) (project : String) (poolID : Int) (volumeTypes : List Int) :
    List ApiStorageVolume × Option Error :=
  Cluster.storagePoolVolumesGet remoteDrivers db project poolID localNodeID volumeTypes

/-- The member ids `GetStoragePoolVolumes` scans: `SELECT DISTINCT node_id` of the volumes
of the pool, in the project or of the custom type, whose pool driver is not a remote
driver. -/
def volumeNodeIDs (remoteDrivers : List String) (tx : DB) (project : String) (poolID : Int) :
    Except Error (List Int) :=
  SelectIntegers
    (((innerJoin
        (innerJoin (storage_volumes_all tx) tx.projects
          (fun v p => decide (p.id = v.project_id)))
        tx.storage_pools (fun vp pool => decide (pool.id = vp.1.storage_pool_id))).filter
      (fun vpp =>
        (decide (vpp.1.2.name = project) || decide (vpp.1.1.type = StoragePoolVolumeTypeCustom))
        && decide (vpp.1.1.storage_pool_id = poolID)
        && !StringInSlice vpp.2.driver remoteDrivers)).map
      (fun vpp => vpp.1.1.node_id)).eraseDups

/-- The loop of `GetStoragePoolVolumes` over the member ids: a member whose listing fails
with NotFound is skipped, any other error ends the call. -/
def memberVolumes (listing : Int → List ApiStorageVolume × Option Error) :
    List Int → List ApiStorageVolume → Except Error (List ApiStorageVolume)
  | [], volumes => .ok volumes
  | nodeID :: nodeIDs, volumes =>
    match listing nodeID with
    | (_, some err) =>
      if StatusErrorCheck err StatusNotFound then memberVolumes listing nodeIDs volumes
      else .error err
    | (nodeVolumes, none) => memberVolumes listing nodeIDs (volumes ++ nodeVolumes)

/-- `Cluster.GetStoragePoolVolumes`: all storage volumes attached to a given storage pool on
any node.  The pair is Go's `([]*api.StorageVolume, error)`. -/
def Cluster.GetStoragePoolVolumes (remoteDrivers : List String) (localNodeID : Int) (db : DB)
    (project : String) (poolID : Int) (volumeTypes : List Int) :
    List ApiStorageVolume × Option Error :=
  match volumeNodeIDs remoteDrivers db project poolID with
  | .error err => ([], some err)
  | .ok nodeIDs =>
    match memberVolumes
        (fun nodeID => Cluster.storagePoolVolumesGet remoteDrivers db project poolID nodeID
          volumeTypes) nodeIDs [] with
    | .error err => ([], some err)
    | .ok volumes =>
      match Cluster.IsRemoteStorage remoteDrivers db poolID with
      | .error err => ([], some err)
      | .ok isRemoteStorage =>
        if isRemoteStorage then
          match Cluster.storagePoolVolumesGet remoteDrivers db project poolID localNodeID
              volumeTypes with
          | (nodeVolumes, some err) =>
            if !StatusErrorCheck err StatusNotFound then ([], some err)
            else (volumes ++ nodeVolumes, none)
          | (nodeVolumes, none) => (volumes ++ nodeVolumes, none)
        else (volumes, none)

/-! ## Snapshots -/

/-- The fields of `StorageVolumeArgs` (`Type_` is Go's `Type`; a time is its Unix time,
`0` the zero time). -/
structure StorageVolumeArgs where
  ID : Int
  Name : String
  Type_ : Int
  TypeName : String
  PoolID : Int
  PoolName : String
  Snapshot : Bool
  Config : GoMap
  Description : String
  CreationDate : Int
  ExpiryDate : Int
  ProjectID : Int
  ProjectName : String
  ContentType : String
  NodeID : Int
  deriving DecidableEq, Repr

/-- The rows `GetLocalStoragePoolVolumeSnapshotsWithType` selects, before `ORDER BY`: the
snapshots joined to their volume, its project and its pool, for the volume of the identity
on the current member. -/
def snapshotQueryRows (remoteDrivers : List String) (localNodeID : Int) (tx : DB)
    (projectName volumeName : String) (volumeType : Int) (poolID : Int) :
    List (((StorageVolumeSnapshot × StorageVolume) × Project) × StoragePool) :=
  (innerJoin
    (innerJoin
      (innerJoin tx.storage_volumes_snapshots tx.storage_volumes
        (fun s v => decide (s.storage_volume_id = v.id)))
      tx.projects (fun sv p => decide (p.id = sv.2.project_id)))
    tx.storage_pools (fun svp pool => decide (pool.id = svp.1.2.storage_pool_id))).filter
    (fun r => decide (r.1.1.2.storage_pool_id = poolID) && decide (r.1.1.2.type = volumeType)
      && decide (r.1.1.2.name = volumeName) && decide (r.1.2.name = projectName)
      && onMember remoteDrivers localNodeID r.1.1.2 r.2)

/-- The callback of the scan of `GetLocalStoragePoolVolumeSnapshotsWithType` on one row:
the snapshot it appends, or the error of the content type. -/
def scanSnapshotRow (projectName volumeName : String) (poolID : Int)
    (r : ((StorageVolumeSnapshot × StorageVolume) × Project) × StoragePool) :
    Except Error StorageVolumeArgs :=
  match storagePoolVolumeContentTypeToName r.1.1.2.content_type with
  | .error err => .error err
  | .ok contentType =>
    .ok { ID := r.1.1.1.id
          Name := volumeName ++ SnapshotDelimiter ++ r.1.1.1.name
          Type_ := 0
          TypeName := ""
          PoolID := poolID
          PoolName := ""
          Snapshot := true
          Config := []
          Description := r.1.1.1.description
          CreationDate := 0
          ExpiryDate := r.1.1.1.expiry_date.getD 0
          ProjectID := 0
          ProjectName := projectName
          ContentType := contentType
          NodeID := 0 }

/-- The scan over the rows, which ends at the first error of the callback. -/
def scanSnapshotRows (projectName volumeName : String) (poolID : Int) :
    List (((StorageVolumeSnapshot × StorageVolume) × Project) × StoragePool) →
      Except Error (List StorageVolumeArgs)
  | [] => .ok []
  | r :: rows =>
    match scanSnapshotRow projectName volumeName poolID r with
    | .error err => .error err
    | .ok s =>
      match scanSnapshotRows projectName volumeName poolID rows with
      | .error err => .error err
      | .ok snapshots => .ok (s :: snapshots)

/-- The loop `Populate config` of `GetLocalStoragePoolVolumeSnapshotsWithType`. -/
def populateSnapshotConfig (tx : DB) : List StorageVolumeArgs → Except Error (List StorageVolumeArgs)
  | [] => .ok []
  | s :: snapshots =>
    match storageVolumeSnapshotConfig tx s.ID with
    | .error err => .error err
    | .ok config =>
      match populateSnapshotConfig tx snapshots with
      | .error err => .error err
      | .ok rest => .ok ({ s with Config := config } :: rest)

/-- `Cluster.GetLocalStoragePoolVolumeSnapshotsWithType`: all snapshots of a storage volume
attached to a given storage pool of a given volume type, on the local member, ordered by
when they were created, oldest first (`ORDER BY storage_volumes_snapshots.id`). -/
def Cluster.GetLocalStoragePoolVolumeSnapshotsWithType (remoteDrivers : List String)
    (localNodeID : Int) (db : DB) (projectName volumeName : String) (volumeType : Int)
    (poolID : Int) : Except Error (List StorageVolumeArgs) :=
  match scanSnapshotRows projectName volumeName poolID
      ((snapshotQueryRows remoteDrivers localNodeID db projectName volumeName volumeType
        poolID).insertionSort (fun a b => a.1.1.1.id ≤ b.1.1.1.id)) with
  | .error err => .error err
  | .ok snapshots => populateSnapshotConfig db snapshots

/-- The names `GetNextStorageVolumeSnapshotIndex` selects: the short names of the snapshots
of the volumes of that type and name in the pool of that name, on the current member. -/
def snapshotNames (remoteDrivers : List String) (localNodeID : Int) (db : DB)
    (pool name : String) (typ : Int) : List String :=
  ((innerJoin
      (innerJoin db.storage_volumes_snapshots db.storage_volumes
        (fun s v => decide (s.storage_volume_id = v.id)))
      db.storage_pools (fun sv p => decide (sv.2.storage_pool_id = p.id))).filter
    (fun svp => decide (svp.1.2.type = typ) && decide (svp.1.2.name = name)
      && decide (svp.2.name = pool) && onMember remoteDrivers localNodeID svp.1.2 svp.2)).map
    (fun svp => svp.1.1.name)

/-- The loop of `GetNextStorageVolumeSnapshotIndex` over the names, from the value of
`max`.  `none` is the run-time panic of `fields[1]` on a one-element `fields`. -/
def nextIndexLoop (pattern : String) : List String → Int → Option Int
  | [], max => some max
  | substr :: results, max =>
    let fields := stringsSplitN pattern "%d" 2
    match fields[0]?, fields[1]? with
    | some field0, some field1 =>
      let scan := Sscanf substr (field0 ++ "%d" ++ field1)
      if scan.err.isSome || scan.count != 1 then nextIndexLoop pattern results max
      else if scan.num ≥ max then nextIndexLoop pattern results (wrapInt64 (scan.num + 1))
      else nextIndexLoop pattern results max
    | _, _ => none

/-- `Cluster.GetNextStorageVolumeSnapshotIndex`: the index the next snapshot of the storage
volume with the given name should have.  `none` is a run-time panic. -/
def Cluster.GetNextStorageVolumeSnapshotIndex (remoteDrivers : List String)
    (localNodeID : Int) (db : DB) (pool name : String) (typ : Int) (pattern : String) :
    Option Int :=
  nextIndexLoop pattern (snapshotNames remoteDrivers localNodeID db pool name typ) 0

/-! ## Image volumes -/

/-- Modelled from the spec: the helper `exec` of the package, declared outside these source
files: it runs one statement in a transaction of its own. -/
def exec (driver : Driver) (db : DB) (stmt : Stmt) : DB × Option Error :=
  Transaction db (fun tx => Exec driver tx stmt)

/-- `Cluster.RemoveStorageVolumeImages`.  The result is the store after the call and Go's
`err`. -/
def Cluster.RemoveStorageVolumeImages (driver : Driver) (db : DB)
    (fingerprints : List String) : DB × Option Error :=
  exec driver db (.DeleteVolumesNotIn StoragePoolVolumeTypeImage fingerprints)

/-! ## Images (package `cluster`) -/

/-- A row of `images`; a time is its Unix time. -/
structure ImageRow where
  id : Int
  project_id : Int
  fingerprint : String
  type : Int
  filename : String
  size : Int
  isPublic : Bool
  architecture : Int
  creation_date : Int
  expiry_date : Int
  upload_date : Int
  cached : Bool
  last_use_date : Int
  auto_update : Bool
  deriving DecidableEq, Repr

/-- The tables the image statements read. -/
structure ImagesTx where
  projects : List Project
  images : List ImageRow
  deriving Repr

/-- Modelled from the spec: the struct `Image`, declared outside these source files, with
the fields `GetImages` scans a row into, in the order of the selected columns. -/
structure Image where
  ID : Int
  Project : String
  Fingerprint : String
  Type_ : Int
  Filename : String
  Size : Int
  Public : Bool
  Architecture : Int
  CreationDate : Int
  ExpiryDate : Int
  UploadDate : Int
  Cached : Bool
  LastUseDate : Int
  AutoUpdate : Bool
  deriving DecidableEq, Repr

/-- Modelled from the spec: the struct `ImageFilter`, declared outside these source files,
with the criteria `GetImages` tests; `none` is Go's `nil` pointer. -/
structure ImageFilter where
  ID : Option Int := none
  Project : Option String := none
  Fingerprint : Option String := none
  Public : Option Bool := none
  Cached : Option Bool := none
  AutoUpdate : Option Bool := none
  deriving DecidableEq, Repr

/-- The registered statements on `images`, each with its arguments. -/
inductive ImageStmt where
  /-- The statement `imageObjects`. -/
  | imageObjects
  /-- The statement `imageObjectsByID`: `WHERE images.id = ?`. -/
  | imageObjectsByID (id : Int)
  /-- The statement `imageObjectsByProject`: `WHERE project = ?`. -/
  | imageObjectsByProject (project : String)
  /-- The statement `imageObjectsByProjectAndCached`:
  `WHERE project = ? AND images.cached = ?`. -/
  | imageObjectsByProjectAndCached (project : String) (cached : Bool)
  /-- The statement `imageObjectsByProjectAndPublic`:
  `WHERE project = ? AND images.public = ?`. -/
  | imageObjectsByProjectAndPublic (project : String) (isPublic : Bool)
  /-- The statement `imageObjectsByFingerprint`: `WHERE images.fingerprint = ?`. -/
  | imageObjectsByFingerprint (fingerprint : String)
  /-- The statement `imageObjectsByCached`: `WHERE images.cached = ?`. -/
  | imageObjectsByCached (cached : Bool)
  /-- The statement `imageObjectsByAutoUpdate`: `WHERE images.auto_update = ?`. -/
  | imageObjectsByAutoUpdate (autoUpdate : Bool)
  deriving DecidableEq, Repr

/-- The `WHERE` clause of a statement on a joined row. -/
def ImageStmt.matches : ImageStmt → ImageRow × Project → Bool
  | .imageObjects, _ => true
  | .imageObjectsByID id, r => decide (r.1.id = id)
  | .imageObjectsByProject project, r => decide (r.2.name = project)
  | .imageObjectsByProjectAndCached project cached, r =>
    decide (r.2.name = project) && decide (r.1.cached = cached)
  | .imageObjectsByProjectAndPublic project isPublic, r =>
    decide (r.2.name = project) && decide (r.1.isPublic = isPublic)
  | .imageObjectsByFingerprint fingerprint, r => decide (r.1.fingerprint = fingerprint)
  | .imageObjectsByCached cached, r => decide (r.1.cached = cached)
  | .imageObjectsByAutoUpdate autoUpdate, r => decide (r.1.auto_update = autoUpdate)

/-- The object scanned from a joined row, `project` being `projects.name`. -/
def scanImage (r : ImageRow × Project) : Image :=
  { ID := r.1.id
    Project := r.2.name
    Fingerprint := r.1.fingerprint
    Type_ := r.1.type
    Filename := r.1.filename
    Size := r.1.size
    Public := r.1.isPublic
    Architecture := r.1.architecture
    CreationDate := r.1.creation_date
    ExpiryDate := r.1.expiry_date
    UploadDate := r.1.upload_date
    Cached := r.1.cached
    LastUseDate := r.1.last_use_date
    AutoUpdate := r.1.auto_update }

/-- The rows of a statement: `images JOIN projects ON images.project_id = projects.id`
under its `WHERE` clause, `ORDER BY projects.id, images.fingerprint`, each scanned into an
object (`query.SelectObjects`, declared outside these source files). -/
def ImageStmt.select (stmt : ImageStmt) (tx : ImagesTx) : List Image :=
  ((((innerJoin tx.images tx.projects (fun i p => decide (i.project_id = p.id))).filter
      stmt.matches).insertionSort
    (fun a b => a.2.id < b.2.id ∨
      (a.2.id = b.2.id ∧ a.1.fingerprint.data ≤ b.1.fingerprint.data)))).map scanImage

/-- `GetImages`: all available images. -/
def GetImages (tx : ImagesTx) (filter : ImageFilter) : Except Error (List Image) :=
  let sqlStmt : Option ImageStmt :=
    match filter.ID, filter.Project, filter.Fingerprint, filter.Public, filter.Cached,
      filter.AutoUpdate with
    | none, some project, none, some isPublic, none, none =>
      some (.imageObjectsByProjectAndPublic project isPublic)
    | none, some project, none, none, some cached, none =>
      some (.imageObjectsByProjectAndCached project cached)
    | none, some project, none, none, none, none => some (.imageObjectsByProject project)
    | some id, none, none, none, none, none => some (.imageObjectsByID id)
    | none, none, some fingerprint, none, none, none =>
      some (.imageObjectsByFingerprint fingerprint)
    | none, none, none, none, some cached, none => some (.imageObjectsByCached cached)
    | none, none, none, none, none, some autoUpdate =>
      some (.imageObjectsByAutoUpdate autoUpdate)
    | none, none, none, none, none, none => some .imageObjects
    | _, _, _, _, _, _ => none
  match sqlStmt with
  | none => .error (.Errorf "No statement exists for the given Filter" [])
  | some stmt => .ok (stmt.select tx)

/-- `GetImage`: the image with the given key. -/
def GetImage (tx : ImagesTx) (project fingerprint : String) : Except Error Image :=
  let filter : ImageFilter := { Project := some project, Fingerprint := some fingerprint }
  match GetImages tx filter with
  | .error err => .error (.Wrapped "Failed to fetch from \"images\" table" err)
  | .ok objects =>
    match objects with
    | [] => .error (.StatusError StatusNotFound "Image not found")
    | [object] => .ok object
    | _ => .error (.Errorf "More than one \"images\" entry matches" [])

/-! ## Counting rows (package `query`) -/

/-- A store of named tables, each the list of its rows. -/
structure CountTx (Row : Type) where
  tables : List (String × List Row)

/-- Modelled from the spec: the SQL engine, an external collaborator, on a `WHERE` clause
with its arguments: the test the clause makes on a row, or the error of the engine for a
clause it does not accept or arguments that do not fit. -/
abbrev WhereEngine (Row Arg : Type) := String → List Arg → Except Error (Row → Bool)

/-- Modelled from the spec: `query.Count`, declared outside these source files (only its
test `TestCount` is among them): the current number of rows of the table that satisfy
the filter `where_` with its arguments, as the engine reads it; every row of the table
for the empty filter, which takes no argument. -/
def Count {Row Arg : Type} (engine : WhereEngine Row Arg) (tx : CountTx Row)
    (table where_ : String) (args : List Arg) : Except Error Int :=
  match tx.tables.lookup table with
  | none => .error (.Store ("no such table: " ++ table))
  | some rows =>
    if where_ = "" then
      if args.isEmpty then .ok rows.length
      else .error (.Store "sql: expected 0 arguments")
    else
      match engine where_ args with
      | .error err => .error err
      | .ok satisfies => .ok (rows.filter satisfies).length

/-- The input after the blanks at its head. -/
def dropSpaces : List Char → List Char
  | [] => []
  | c :: cs => if c.isWhitespace then dropSpaces cs else c :: cs

/-- The comparison operator at the head of the input and the input after it. -/
def readOperator : List Char → Option ((Int → Int → Bool) × List Char)
  | '=' :: '=' :: rest => some (fun id value => decide (id = value), rest)
  | '!' :: '=' :: rest => some (fun id value => decide (id ≠ value), rest)
  | '<' :: '>' :: rest => some (fun id value => decide (id ≠ value), rest)
  | '<' :: '=' :: rest => some (fun id value => decide (id ≤ value), rest)
  | '>' :: '=' :: rest => some (fun id value => decide (id ≥ value), rest)
  | '=' :: rest => some (fun id value => decide (id = value), rest)
  | '<' :: rest => some (fun id value => decide (id < value), rest)
  | '>' :: rest => some (fun id value => decide (id > value), rest)
  | _ => none

/-- An engine for the tables of the test, whose rows are the values of the one integer
column `id`: it reads the clauses that compare the column with one placeholder, such as
`id=?`, `id = ?` or `id>?`, and refuses any other clause. -/
def idEngine : WhereEngine Int Int := fun clause args =>
  match dropSpaces clause.data with
  | c1 :: c2 :: rest =>
    if c1.toLower = 'i' ∧ c2.toLower = 'd' then
      match readOperator (dropSpaces rest) with
      | none => .error (.Store "syntax error")
      | some (compare, rest1) =>
        match dropSpaces rest1 with
        | '?' :: rest2 =>
          if dropSpaces rest2 = [] then
            match args with
            | [value] => .ok (fun id => compare id value)
            | _ => .error (.Store "sql: expected 1 arguments")
          else .error (.Store "syntax error")
        | _ => .error (.Store "syntax error")
    else .error (.Store "no such column")
  | _ => .error (.Store "syntax error")

/-! ## What the claims speak about -/

/-- The records with the logical identity `(project, pool, type, name)`: the rows of
`storage_volumes_all` of that pool, type and name whose project row has that name. -/
def recordsOf (tx : DB) (project : String) (poolID volumeType : Int) (volumeName : String) :
    List StorageVolume :=
  (storage_volumes_all tx).filter (fun v =>
    decide (v.storage_pool_id = poolID) && decide (v.type = volumeType)
      && decide (v.name = volumeName)
      && tx.projects.any (fun p => decide (p.id = v.project_id) && decide (p.name = project)))

/-- The member filter of the member-aware lookup on a record: `node_id` is the member,
or `node_id` is null and the driver of the record's pool is a remote driver. -/
def memberFilter (remoteDrivers : List String) (tx : DB) (nodeID : Int) (v : StorageVolume) :
    Prop :=
  ∃ pool ∈ tx.storage_pools, pool.id = v.storage_pool_id ∧
    (v.node_id = some nodeID ∨ (v.node_id = none ∧ pool.driver ∈ remoteDrivers))

/-- The member a record resolves to under `LEFT JOIN nodes` and `coalesce`: the node row
its `node_id` names, the zero id and empty strings when it has none. -/
def memberOf (tx : DB) (v : StorageVolume) : NodeInfo :=
  match tx.nodes.filter (fun n => decide (v.node_id = some n.id)) with
  | [] => { ID := 0, Address := "", Name := "" }
  | n :: _ => { ID := n.id, Address := n.address, Name := n.name }

/-- The test `recordsOf` filters the view with. -/
def isRecord (projects : List Project) (project : String) (poolID volumeType : Int)
    (volumeName : String) (v : StorageVolume) : Bool :=
  decide (v.storage_pool_id = poolID) && decide (v.type = volumeType)
    && decide (v.name = volumeName)
    && projects.any (fun p => decide (p.id = v.project_id) && decide (p.name = project))

/-- The snapshot rows of the view, from the two tables. -/
def snapshotRows (volumes : List StorageVolume) (snapshots : List StorageVolumeSnapshot) :
    List StorageVolume :=
  volumes.flatMap (fun v =>
    (snapshots.filter (fun s => s.storage_volume_id = v.id)).map (snapshotRow v))

/-- The target ids of a replicated change: for a local-class pool the single record id
already known to the caller, for a remote-class pool the id of every record sharing the
logical identity, regardless of its `node_id`. -/
def replicationTargets (remoteDrivers : List String) (tx : DB) (driver : String)
    (volumeID : Int) (project : String) (poolID volumeType : Int) (volumeName : String) :
    List Int :=
  if driver ∈ remoteDrivers then
    (recordsOf tx project poolID volumeType volumeName).map (fun v => v.id)
  else [volumeID]

/-- The config rows a record gets from a config map: one per entry with a non-empty
value, in the order of the map. -/
def insertedRows (volumeID : Int) (volumeConfig : GoMap) : List ConfigRow :=
  (volumeConfig.filter (fun e => decide (e.2 ≠ ""))).map
    (fun e => { owner := volumeID, key := e.1, value := e.2 })

/-- A view row with the description replaced when its id is one of `ids`. -/
def describeRow (ids : List Int) (description : String) (v : StorageVolume) : StorageVolume :=
  if v.id ∈ ids then { v with description := description } else v

/-- A snapshot row with the description replaced when its id is one of `ids`. -/
def describeSnapshot (ids : List Int) (description : String) (s : StorageVolumeSnapshot) :
    StorageVolumeSnapshot :=
  if s.id ∈ ids then { s with description := description } else s

/-- The store after the config and the description of one record were replaced: its old
config rows are gone, the rows of the new map are there, and the rows of the record's
table with that id carry the new description. -/
def updatedStore (description : String) (volumeConfig : GoMap) (isSnapshot : Bool)
    (tx : DB) (volumeID : Int) : DB :=
  if isSnapshot then
    { tx with
      storage_volumes_snapshots_config :=
        tx.storage_volumes_snapshots_config.filter (fun r => !decide (r.owner = volumeID)) ++
          insertedRows volumeID volumeConfig
      storage_volumes_snapshots :=
        tx.storage_volumes_snapshots.map (describeSnapshot [volumeID] description) }
  else
    { tx with
      storage_volumes_config :=
        tx.storage_volumes_config.filter (fun r => !decide (r.owner = volumeID)) ++
          insertedRows volumeID volumeConfig
      storage_volumes := tx.storage_volumes.map (describeRow [volumeID] description) }

/-- The number a snapshot name parses to against the pattern in the loop of
`GetNextStorageVolumeSnapshotIndex`: `none` for a name the loop skips. -/
def parsedIndex (pattern name : String) : Option Int :=
  match (stringsSplitN pattern "%d" 2)[0]?, (stringsSplitN pattern "%d" 2)[1]? with
  | some field0, some field1 =>
    if (Sscanf name (field0 ++ "%d" ++ field1)).err.isSome
        || (Sscanf name (field0 ++ "%d" ++ field1)).count != 1 then none
    else some (Sscanf name (field0 ++ "%d" ++ field1)).num
  | _, _ => none

/-- The numbers parsed from a list of names, in the order of the names. -/
def parsedIndexes (pattern : String) (names : List String) : List Int :=
  names.filterMap (parsedIndex pattern)

/-- Whether a row of `storage_volumes` is the volume of the identity on the member
`nodeID`: its pool, type and name are the given ones, its project row has the given name,
and it passes the member filter on its pool row. -/
def isParent (remoteDrivers : List String) (tx : DB) (projectName : String)
    (poolID volumeType : Int) (volumeName : String) (nodeID : Int) (v : StorageVolume) : Bool :=
  decide (v.storage_pool_id = poolID) && decide (v.type = volumeType)
    && decide (v.name = volumeName)
    && tx.projects.any (fun p => decide (p.id = v.project_id) && decide (p.name = projectName))
    && tx.storage_pools.any (fun pool =>
        decide (pool.id = v.storage_pool_id) && onMember remoteDrivers nodeID v pool)

/-- The snapshots of the resolved volume: the rows of `storage_volumes_snapshots` whose
parent is the volume of the identity on the member, in table order. -/
def snapshotsOfVolume (remoteDrivers : List String) (tx : DB) (projectName : String)
    (poolID volumeType : Int) (volumeName : String) (nodeID : Int) :
    List StorageVolumeSnapshot :=
  tx.storage_volumes_snapshots.filter (fun s =>
    tx.storage_volumes.any (fun v =>
      decide (s.storage_volume_id = v.id) &&
        isParent remoteDrivers tx projectName poolID volumeType volumeName nodeID v))

/-- A volume row with the name replaced when its id is one of `ids`. -/
def renameRow (ids : List Int) (name : String) (v : StorageVolume) : StorageVolume :=
  if v.id ∈ ids then { v with name := name } else v

/-- A snapshot row with the short name replaced when its id is one of `ids`. -/
def renameSnapshot (ids : List Int) (name : String) (s : StorageVolumeSnapshot) :
    StorageVolumeSnapshot :=
  if s.id ∈ ids then { s with name := name } else s

/-- The store after the rename went through for the records `ids`: the rows of the
record's table with one of the ids carry the stored name, nothing else differs. -/
def renamedStore (isSnapshot : Bool) (stored : String) (ids : List Int) (tx : DB) : DB :=
  if isSnapshot then
    { tx with storage_volumes_snapshots :=
        tx.storage_volumes_snapshots.map (renameSnapshot ids stored) }
  else
    { tx with storage_volumes := tx.storage_volumes.map (renameRow ids stored) }

/-- The images with the key `(project, fingerprint)`: the rows of `images` with that
fingerprint whose project row has that name, as objects. -/
def imagesWithKey (tx : ImagesTx) (project fingerprint : String) : List Image :=
  ((innerJoin tx.images tx.projects (fun i p => decide (i.project_id = p.id))).filter
    (fun r => decide (r.2.name = project) && decide (r.1.fingerprint = fingerprint))).map
    scanImage

/-- Whether a pattern has exactly one `%d` placeholder: it holds `%d` and no other percent
sign, so the text around the placeholder is literal. -/
def onePlaceholder (pattern : String) : Bool :=
  stringsContains pattern "%d" && decide (pattern.data.count '%' = 1)

/-! ## Example stores -/

/-- The remote driver names of the examples. -/
def exampleRemoteDrivers : List String := ["ceph", "cephfs"]

/-- A store with a remote pool (id 1, driver `ceph`) and a local pool (id 2, driver
`dir`), two members, and in project `default` the custom volumes: `data` on the remote
pool as two legacy records (members 1 and 2), `shared` on the remote pool without a
member, `pinned` on the remote pool with member 1, `vol` on the local pool once per
member, and `solo` on the local pool on member 2; `vol` on member 1 has the snapshot
`snap0`. -/
def exampleDB : DB :=
  { nodes := [⟨1, "n1", "10.0.0.1"⟩, ⟨2, "n2", "10.0.0.2"⟩]
    projects := [⟨1, "default"⟩]
    storage_pools := [⟨1, "remote", "ceph"⟩, ⟨2, "local", "dir"⟩]
    storage_volumes :=
      [⟨1, "data", 1, some 1, 2, "old", 1, 0⟩, ⟨2, "data", 1, some 2, 2, "old", 1, 0⟩,
       ⟨3, "vol", 2, some 1, 2, "", 1, 0⟩, ⟨4, "vol", 2, some 2, 2, "", 1, 0⟩,
       ⟨5, "shared", 1, none, 2, "", 1, 0⟩, ⟨6, "pinned", 1, some 1, 2, "", 1, 0⟩,
       ⟨7, "solo", 2, some 2, 2, "", 1, 0⟩]
    storage_volumes_config := [⟨1, "size", "1GiB"⟩, ⟨2, "size", "1GiB"⟩, ⟨3, "x", "y"⟩]
    storage_volumes_snapshots := [⟨1, 3, "snap0", "first", none⟩]
    storage_volumes_snapshots_config := [⟨1, "x", "y"⟩] }

/-- The example store with the key `a` stored twice for the volume 1 and twice for the
snapshot 1. -/
def duplicateKeyDB : DB :=
  { exampleDB with
    storage_volumes_config := [⟨1, "a", "1"⟩, ⟨1, "a", "2"⟩]
    storage_volumes_snapshots_config := [⟨1, "a", "1"⟩, ⟨1, "a", "2"⟩] }

/-- A driver that refuses the description update, the rename and the deletion of the
volume record 1, and accepts every other statement. -/
def failingDriver : Driver := fun stmt _ =>
  match stmt with
  | .UpdateVolumeDescription _ 1 => some (.Store "disk I/O error")
  | .UpdateVolumeName _ 1 => some (.Store "disk I/O error")
  | .DeleteVolume 1 => some (.Store "disk I/O error")
  | _ => none

/-- The example store with the given short names as the snapshots of `vol` on member 1 of
the local pool, created in that order (ids 1, 2, ...). -/
def snapshotsDB (names : List String) : DB :=
  { exampleDB with
    storage_volumes_snapshots :=
      (names.enumFrom 1).map (fun p => { id := p.1, storage_volume_id := 3, name := p.2,
                                         description := "", expiry_date := none })
    storage_volumes_snapshots_config := [] }

/-- The example store with the snapshots `z`, `a` and `m` of `vol` on member 1, created in
that order (ids 1, 2, 3) and stored in another order. -/
def shuffledSnapshotsDB : DB :=
  { exampleDB with
    storage_volumes_snapshots :=
      [⟨3, 3, "m", "", none⟩, ⟨1, 3, "z", "", none⟩, ⟨2, 3, "a", "", none⟩]
    storage_volumes_snapshots_config := [⟨3, "k", "v"⟩] }

/-- A store with a local pool (id 2) and two projects: the custom volume `a` of project
`default` on member 1 and the custom volume `b` of project `other` on member 2. -/
def listingDB : DB :=
  { nodes := [⟨1, "n1", "10.0.0.1"⟩, ⟨2, "n2", "10.0.0.2"⟩]
    projects := [⟨1, "default"⟩, ⟨2, "other"⟩]
    storage_pools := [⟨2, "local", "dir"⟩]
    storage_volumes :=
      [⟨1, "a", 2, some 1, 2, "", 1, 0⟩, ⟨2, "b", 2, some 2, 2, "", 2, 0⟩]
    storage_volumes_config := []
    storage_volumes_snapshots := []
    storage_volumes_snapshots_config := [] }

/-- The store `listingDB` with the content type of the volume `a` replaced by the code 7,
which is no content type. -/
def brokenListingDB : DB :=
  { listingDB with
    storage_volumes :=
      [⟨1, "a", 2, some 1, 2, "", 1, 7⟩, ⟨2, "b", 2, some 2, 2, "", 2, 0⟩] }

/-- The store `listingDB` without any volume: the pool 2 exists and is empty. -/
def emptyPoolDB : DB :=
  { listingDB with storage_volumes := [] }

/-- A store with a local pool holding, on member 1, the image volumes `fp1` and `fp2` (the
second with a config row) and the custom volumes `fp1` and `data`. -/
def imageVolumesDB : DB :=
  { nodes := [⟨1, "n1", "10.0.0.1"⟩]
    projects := [⟨1, "default"⟩]
    storage_pools := [⟨2, "local", "dir"⟩]
    storage_volumes :=
      [⟨1, "fp1", 2, some 1, 1, "", 1, 0⟩, ⟨2, "fp2", 2, some 1, 1, "", 1, 0⟩,
       ⟨3, "fp1", 2, some 1, 2, "", 1, 0⟩, ⟨4, "data", 2, some 1, 2, "", 1, 0⟩]
    storage_volumes_config := [⟨2, "size", "1GiB"⟩, ⟨4, "size", "2GiB"⟩]
    storage_volumes_snapshots := []
    storage_volumes_snapshots_config := [] }

/-- A store of images: the project `default` with the images `abc` and `def`. -/
def exampleImages : ImagesTx :=
  { projects := [⟨1, "default"⟩]
    images :=
      [⟨1, 1, "abc", 0, "a.tar", 10, true, 2, 100, 0, 100, false, 0, false⟩,
       ⟨2, 1, "def", 0, "d.tar", 20, false, 2, 200, 0, 200, true, 0, true⟩] }

/-- The store `newTxForCount` builds: the table `test` with the rows 1 and 2 and the table
`test2` with the row 1. -/
def newTxForCount : CountTx Int :=
  { tables := [("test", [1, 2]), ("test2", [1])] }

/-! # Properties

## Joins -/

theorem mem_innerJoin {α β : Type} {l : List α} {r : List β} {cond : α → β → Bool}
    {a : α} {b : β} : (a, b) ∈ innerJoin l r cond ↔ a ∈ l ∧ b ∈ r ∧ cond a b = true := by
  unfold innerJoin
  simp only [List.mem_flatMap, List.mem_map, List.mem_filter, Prod.mk.injEq]
  constructor
  · rintro ⟨a1, ha1, b1, ⟨hb1, hc⟩, rfl, rfl⟩
    exact ⟨ha1, hb1, hc⟩
  · rintro ⟨ha, hb, hc⟩
    exact ⟨a, ha, b, ⟨hb, hc⟩, rfl, rfl⟩

theorem mem_recordsOf {tx : DB} {project : String} {poolID volumeType : Int}
    {volumeName : String} {v : StorageVolume} :
    v ∈ recordsOf tx project poolID volumeType volumeName ↔
      v ∈ storage_volumes_all tx ∧ v.storage_pool_id = poolID ∧ v.type = volumeType ∧
        v.name = volumeName ∧ ∃ p ∈ tx.projects, p.id = v.project_id ∧ p.name = project := by
  unfold recordsOf
  simp only [List.mem_filter, Bool.and_eq_true, decide_eq_true_eq, List.any_eq_true]
  tauto

/-- The ids the member-aware lookup selects are those of the records of the identity
that pass the member filter. -/
theorem mem_getTypeID_rows {remoteDrivers : List String} {tx : DB} {project volumeName : String}
    {volumeType poolID nodeID : Int} {id : Int} :
    id ∈ ((innerJoin
        (innerJoin (storage_volumes_all tx) tx.storage_pools
          (fun v pool => decide (v.storage_pool_id = pool.id)))
        tx.projects (fun vp p => decide (vp.1.project_id = p.id))).filter
      (fun vpp => decide (vpp.2.name = project) && decide (vpp.1.1.storage_pool_id = poolID)
        && decide (vpp.1.1.name = volumeName) && decide (vpp.1.1.type = volumeType)
        && onMember remoteDrivers nodeID vpp.1.1 vpp.1.2)).map
      (fun vpp => vpp.1.1.id) ↔
    ∃ v ∈ recordsOf tx project poolID volumeType volumeName,
      memberFilter remoteDrivers tx nodeID v ∧ v.id = id := by
  simp only [List.mem_map, List.mem_filter, Prod.exists, mem_innerJoin, Bool.and_eq_true,
    decide_eq_true_eq, mem_recordsOf, memberFilter, onMember, Bool.or_eq_true, StringInSlice]
  constructor
  · rintro ⟨v, pool, p, ⟨⟨⟨hv, hpool, hvp⟩, hp, hpj⟩, ⟨⟨⟨hn, hpid⟩, hname⟩, hty⟩, hmem⟩, rfl⟩
    exact ⟨v, ⟨hv, hpid, hty, hname, p, hp, hpj.symm, hn⟩, ⟨pool, hpool, hvp.symm, hmem⟩, rfl⟩
  · rintro ⟨v, ⟨hv, hpid, hty, hname, p, hp, hpj, hn⟩, ⟨pool, hpool, hvp, hmem⟩, rfl⟩
    exact ⟨v, pool, p, ⟨⟨⟨hv, hpool, hvp.symm⟩, hp, hpj.symm⟩, ⟨⟨⟨hn, hpid⟩, hname⟩, hty⟩, hmem⟩,
      rfl⟩

/-- C8: the member-aware lookup `ClusterTx.storagePoolVolumeGetTypeID` returns NotFound
with id `-1` if and only if no record of the identity `(project, pool, name, type)` passes
the filter `node_id = member OR (node_id IS NULL AND the pool driver is a remote driver)`;
otherwise it returns, without error, the id of a record that passes it; and
`GetStoragePoolNodeVolumeID` is that lookup for the current member. -/
theorem storagePoolVolumeGetTypeID_member_filter (remoteDrivers : List String) (tx : DB)
    (project volumeName : String) (volumeType poolID nodeID : Int) :
    (ClusterTx.storagePoolVolumeGetTypeID remoteDrivers tx project volumeName volumeType poolID
        nodeID = (-1, some (.StatusError StatusNotFound "Storage pool volume not found")) ↔
      ¬ ∃ v ∈ recordsOf tx project poolID volumeType volumeName,
          memberFilter remoteDrivers tx nodeID v) ∧
    ((¬ ∃ v ∈ recordsOf tx project poolID volumeType volumeName,
          memberFilter remoteDrivers tx nodeID v) ∨
      ∃ v ∈ recordsOf tx project poolID volumeType volumeName,
        memberFilter remoteDrivers tx nodeID v ∧
        ClusterTx.storagePoolVolumeGetTypeID remoteDrivers tx project volumeName volumeType
          poolID nodeID = (v.id, none)) ∧
    Cluster.GetStoragePoolNodeVolumeID remoteDrivers nodeID tx project volumeName volumeType
        poolID =
      ClusterTx.storagePoolVolumeGetTypeID remoteDrivers tx project volumeName volumeType poolID
        nodeID := by
  have key := @mem_getTypeID_rows remoteDrivers tx project volumeName volumeType poolID nodeID
  unfold Cluster.GetStoragePoolNodeVolumeID Cluster.storagePoolVolumeGetTypeID
    ClusterTx.storagePoolVolumeGetTypeID
  simp only []
  generalize ((innerJoin
        (innerJoin (storage_volumes_all tx) tx.storage_pools
          (fun v pool => decide (v.storage_pool_id = pool.id)))
        tx.projects (fun vp p => decide (vp.1.project_id = p.id))).filter
      (fun vpp => decide (vpp.2.name = project) && decide (vpp.1.1.storage_pool_id = poolID)
        && decide (vpp.1.1.name = volumeName) && decide (vpp.1.1.type = volumeType)
        && onMember remoteDrivers nodeID vpp.1.1 vpp.1.2)).map
      (fun vpp => vpp.1.1.id) = result at key
  cases result with
  | nil =>
    have hno : ¬ ∃ v ∈ recordsOf tx project poolID volumeType volumeName,
        memberFilter remoteDrivers tx nodeID v := by
      rintro ⟨v, hv, hm⟩
      exact List.not_mem_nil _ ((@key v.id).mpr ⟨v, hv, hm, rfl⟩)
    exact ⟨⟨fun _ => hno, fun _ => rfl⟩, Or.inl hno, rfl⟩
  | cons id rest =>
    obtain ⟨v, hv, hm, hid⟩ := (@key id).mp (List.mem_cons_self _ _)
    refine ⟨⟨fun h => ?_, fun h => absurd ⟨v, hv, hm⟩ h⟩, Or.inr ⟨v, hv, hm, ?_⟩, rfl⟩
    · simp at h
    · simp [hid]


/-! ## Rows with a unique key -/

/-- In a table whose key column has no repeated value, a filter that only accepts rows
of one key value selects no row or one row. -/
theorem filter_unique_key {α : Type} (key : α → Int) (p : α → Bool)
    (hp : ∀ x y, p x = true → p y = true → key x = key y) :
    ∀ l : List α, (l.map key).Nodup → l.filter p = [] ∨ ∃ x, l.filter p = [x] := by
  intro l
  induction l with
  | nil => intro _; exact Or.inl rfl
  | cons a t ih =>
    intro hnd
    rw [List.map_cons, List.nodup_cons] at hnd
    by_cases hpa : p a = true
    · right
      refine ⟨a, ?_⟩
      have ht : t.filter p = [] := by
        rw [List.filter_eq_nil_iff]
        intro y hy hpy
        exact hnd.1 (List.mem_map.mpr ⟨y, hy, hp y a hpy hpa⟩)
      simp [List.filter_cons, hpa, ht]
    · have : (a :: t).filter p = t.filter p := by simp [List.filter_cons, hpa]
      rw [this]
      exact ih hnd.2

theorem any_and_filter {α : Type} (a b : α → Bool) (l : List α) :
    l.any (fun x => a x && b x) = (l.filter a).any b := by
  induction l with
  | nil => rfl
  | cons x t ih =>
    rw [List.any_cons, ih]
    cases hx : a x
    · simp [List.filter_cons, hx]
    · simp [List.filter_cons, hx]


/-! ## The rows of `GetStorageVolumeNodes` -/

theorem innerJoin_cons {α β : Type} (a : α) (l : List α) (r : List β) (cond : α → β → Bool) :
    innerJoin (a :: l) r cond = (r.filter (cond a)).map (fun b => (a, b)) ++ innerJoin l r cond := by
  simp [innerJoin, List.flatMap_cons]

theorem leftJoin_append {α β : Type} (l1 l2 : List α) (r : List β) (cond : α → β → Bool) :
    leftJoin (l1 ++ l2) r cond = leftJoin l1 r cond ++ leftJoin l2 r cond := by
  simp [leftJoin, List.flatMap_append]

/-- The node rows one view row contributes: its member when it is a record of the
identity, nothing otherwise. -/
theorem nodeRows_single (tx : DB) (poolID : Int) (projectName volumeName : String)
    (volumeType : Int) (hproj : (tx.projects.map Project.id).Nodup)
    (hnode : (tx.nodes.map Node.id).Nodup) (v : StorageVolume) :
    ((leftJoin ((tx.projects.filter (fun p => decide (p.id = v.project_id))).map
          (fun p => (v, p)))
        tx.nodes (fun vp n => decide (vp.1.node_id = some n.id))).filter
      (fun vpn => decide (vpn.1.1.storage_pool_id = poolID)
        && decide (vpn.1.2.name = projectName)
        && decide (vpn.1.1.name = volumeName) && decide (vpn.1.1.type = volumeType))).map
      (fun vpn =>
        match vpn.2 with
        | none => ({ ID := 0, Address := "", Name := "" } : NodeInfo)
        | some n => { ID := n.id, Address := n.address, Name := n.name }) =
    if (decide (v.storage_pool_id = poolID) && decide (v.type = volumeType)
        && decide (v.name = volumeName)
        && tx.projects.any (fun p => decide (p.id = v.project_id) &&
            decide (p.name = projectName))) = true
    then [memberOf tx v] else [] := by
  rw [any_and_filter]
  rcases filter_unique_key Project.id (fun p => decide (p.id = v.project_id))
      (by intro x y hx hy; simp only [decide_eq_true_eq] at hx hy; rw [hx, hy])
      tx.projects hproj with hp | ⟨p, hp⟩
  · rw [hp]; simp [leftJoin]
  · rw [hp]
    rcases filter_unique_key Node.id (fun n => decide (v.node_id = some n.id))
        (by
          intro x y hx hy
          simp only [decide_eq_true_eq] at hx hy
          rw [hx] at hy
          exact Option.some.inj hy)
        tx.nodes hnode with hn | ⟨n, hn⟩
    · simp only [leftJoin, List.map_cons, List.map_nil, List.flatMap_cons, List.flatMap_nil,
        List.append_nil, hn, memberOf, List.any_cons, List.any_nil, Bool.or_false]
      by_cases h : (decide (v.storage_pool_id = poolID) && decide (v.type = volumeType)
          && decide (v.name = volumeName) && decide (p.name = projectName)) = true
      · rw [if_pos h]
        simp only [Bool.and_eq_true, decide_eq_true_eq] at h
        simp [List.filter_cons, h.1.1.1, h.1.1.2, h.1.2, h.2]
      · rw [if_neg h]
        simp only [Bool.and_eq_true, decide_eq_true_eq] at h
        simp only [List.filter_cons, Bool.and_eq_true, decide_eq_true_eq]
        rw [if_neg (by tauto)]
        rfl
    · simp only [leftJoin, List.map_cons, List.map_nil, List.flatMap_cons, List.flatMap_nil,
        List.append_nil, hn, memberOf, List.any_cons, List.any_nil, Bool.or_false]
      by_cases h : (decide (v.storage_pool_id = poolID) && decide (v.type = volumeType)
          && decide (v.name = volumeName) && decide (p.name = projectName)) = true
      · rw [if_pos h]
        simp only [Bool.and_eq_true, decide_eq_true_eq] at h
        simp [List.filter_cons, h.1.1.1, h.1.1.2, h.1.2, h.2]
      · rw [if_neg h]
        simp only [Bool.and_eq_true, decide_eq_true_eq] at h
        simp only [List.filter_cons, Bool.and_eq_true, decide_eq_true_eq]
        rw [if_neg (by tauto)]
        rfl

/-- With the primary keys of `projects` and `nodes`, `GetStorageVolumeNodes` selects one
row per record of the identity: the member that record resolves to. -/
theorem storageVolumeNodeRows_eq (tx : DB) (poolID : Int) (projectName volumeName : String)
    (volumeType : Int) (hproj : (tx.projects.map Project.id).Nodup)
    (hnode : (tx.nodes.map Node.id).Nodup) :
    storageVolumeNodeRows tx poolID projectName volumeName volumeType =
      (recordsOf tx projectName poolID volumeType volumeName).map (memberOf tx) := by
  unfold storageVolumeNodeRows recordsOf
  generalize storage_volumes_all tx = vs
  induction vs with
  | nil => rfl
  | cons v vs ih =>
    rw [innerJoin_cons, leftJoin_append, List.filter_append, List.map_append, ih,
      nodeRows_single tx poolID projectName volumeName volumeType hproj hnode v]
    by_cases h : (decide (v.storage_pool_id = poolID) && decide (v.type = volumeType)
        && decide (v.name = volumeName)
        && tx.projects.any (fun p => decide (p.id = v.project_id) &&
            decide (p.name = projectName))) = true
    · rw [if_pos h, List.filter_cons, if_pos h]; rfl
    · rw [if_neg h, List.filter_cons, if_neg h]; rfl


/-- C6: `GetStorageVolumeNodes` returns `ErrNoClusterMember` if and only if at least one
record has the identity and either some such record resolves to the node id `0` (it has no
cluster member) or more than one record has the identity and the pool's driver is in the
remote-driver set. -/
theorem GetStorageVolumeNodes_ErrNoClusterMember_iff
    (StorageRemoteDriverNames : Option (List String)) (tx : DB) (poolID : Int)
    (projectName volumeName : String) (volumeType : Int)
    (hproj : (tx.projects.map Project.id).Nodup) (hnode : (tx.nodes.map Node.id).Nodup) :
    ClusterTx.GetStorageVolumeNodes StorageRemoteDriverNames tx poolID projectName volumeName
        volumeType = .error .ErrNoClusterMember ↔
      recordsOf tx projectName poolID volumeType volumeName ≠ [] ∧
        ((∃ v ∈ recordsOf tx projectName poolID volumeType volumeName, (memberOf tx v).ID = 0) ∨
          (1 < (recordsOf tx projectName poolID volumeType volumeName).length ∧
            ∃ driver remoteDrivers, ClusterTx.GetStoragePoolDriver tx poolID = .ok driver ∧
              StorageRemoteDriverNames = some remoteDrivers ∧ driver ∈ remoteDrivers)) := by
  unfold ClusterTx.GetStorageVolumeNodes
  rw [storageVolumeNodeRows_eq tx poolID projectName volumeName volumeType hproj hnode]
  generalize recordsOf tx projectName poolID volumeType volumeName = recs
  simp only [List.length_map, List.any_map, List.any_eq_true, Function.comp,
    decide_eq_true_eq, StringInSlice]
  by_cases h0 : recs = []
  · subst h0; simp [StatusNotFound]
  · have hlen : recs.length ≠ 0 := fun h => h0 (List.length_eq_zero.mp h)
    rw [if_neg hlen]
    have hex : (∃ x ∈ List.map (memberOf tx) recs, x.ID = 0) ↔
        ∃ v ∈ recs, (memberOf tx v).ID = 0 := by simp
    by_cases hz' : ∃ x ∈ List.map (memberOf tx) recs, x.ID = 0
    · rw [if_pos hz']
      exact ⟨fun _ => ⟨h0, Or.inl (hex.mp hz')⟩, fun _ => rfl⟩
    · rw [if_neg hz', if_neg hlen]
      have hz : ¬ ∃ v ∈ recs, (memberOf tx v).ID = 0 := fun h => hz' (hex.mpr h)
      by_cases h1 : recs.length > 1
      · rw [if_pos h1]
        cases hd : ClusterTx.GetStoragePoolDriver tx poolID with
        | error err =>
          unfold ClusterTx.GetStoragePoolDriver at hd
          split at hd
          · cases hd
            simp [hz]
          · cases hd
        | ok driver =>
          cases StorageRemoteDriverNames with
          | none => simp [hz]
          | some remoteDrivers =>
            by_cases hin : driver ∈ remoteDrivers
            · simp [hin, h0, h1]
            · simp [hin, hz]
      · rw [if_neg h1]
        simp [hz, h1]


/-- Without a record of the identity `GetStorageVolumeNodes` reports NotFound. -/
theorem GetStorageVolumeNodes_of_nil (StorageRemoteDriverNames : Option (List String))
    (tx : DB) (poolID : Int) (projectName volumeName : String) (volumeType : Int)
    (hproj : (tx.projects.map Project.id).Nodup) (hnode : (tx.nodes.map Node.id).Nodup)
    (h : recordsOf tx projectName poolID volumeType volumeName = []) :
    ClusterTx.GetStorageVolumeNodes StorageRemoteDriverNames tx poolID projectName volumeName
        volumeType = .error (.StatusError StatusNotFound "Storage pool volume not found") := by
  unfold ClusterTx.GetStorageVolumeNodes
  rw [storageVolumeNodeRows_eq tx poolID projectName volumeName volumeType hproj hnode, h]
  rfl

/-- With records of the identity that all resolve to a member: one record gives its
member, several give what the driver class decides. -/
theorem GetStorageVolumeNodes_of_members (StorageRemoteDriverNames : Option (List String))
    (tx : DB) (poolID : Int) (projectName volumeName : String) (volumeType : Int)
    (hproj : (tx.projects.map Project.id).Nodup) (hnode : (tx.nodes.map Node.id).Nodup)
    (h0 : recordsOf tx projectName poolID volumeType volumeName ≠ [])
    (hz : ∀ v ∈ recordsOf tx projectName poolID volumeType volumeName, (memberOf tx v).ID ≠ 0) :
    ClusterTx.GetStorageVolumeNodes StorageRemoteDriverNames tx poolID projectName volumeName
        volumeType =
      if 1 < (recordsOf tx projectName poolID volumeType volumeName).length then
        match ClusterTx.GetStoragePoolDriver tx poolID with
        | .error err => .error err
        | .ok driver =>
          match StorageRemoteDriverNames with
          | none => .error (.Errorf "No remote storage drivers function defined" [])
          | some remoteDrivers =>
            if driver ∈ remoteDrivers then .error .ErrNoClusterMember
            else .ok ((recordsOf tx projectName poolID volumeType volumeName).map (memberOf tx))
      else .ok ((recordsOf tx projectName poolID volumeType volumeName).map (memberOf tx)) := by
  unfold ClusterTx.GetStorageVolumeNodes
  rw [storageVolumeNodeRows_eq tx poolID projectName volumeName volumeType hproj hnode]
  revert h0 hz
  generalize recordsOf tx projectName poolID volumeType volumeName = recs
  intro h0 hz
  have hlen : recs.length ≠ 0 := fun h => h0 (List.length_eq_zero.mp h)
  have hz' : ¬ ∃ x ∈ List.map (memberOf tx) recs, x.ID = 0 := by
    rintro ⟨x, hx, hx0⟩
    obtain ⟨v, hv, rfl⟩ := List.mem_map.mp hx
    exact hz v hv hx0
  simp only [List.length_map, List.any_eq_true, decide_eq_true_eq, StringInSlice]
  rw [if_neg hlen, if_neg hz', if_neg hlen]


/-- A record that resolves to the node id `0` makes `GetStorageVolumeNodes` report
`ErrNoClusterMember`. -/
theorem GetStorageVolumeNodes_of_zero (StorageRemoteDriverNames : Option (List String))
    (tx : DB) (poolID : Int) (projectName volumeName : String) (volumeType : Int)
    (hproj : (tx.projects.map Project.id).Nodup) (hnode : (tx.nodes.map Node.id).Nodup)
    (hz : ∃ v ∈ recordsOf tx projectName poolID volumeType volumeName, (memberOf tx v).ID = 0) :
    ClusterTx.GetStorageVolumeNodes StorageRemoteDriverNames tx poolID projectName volumeName
        volumeType = .error .ErrNoClusterMember := by
  unfold ClusterTx.GetStorageVolumeNodes
  rw [storageVolumeNodeRows_eq tx poolID projectName volumeName volumeType hproj hnode]
  revert hz
  generalize recordsOf tx projectName poolID volumeType volumeName = recs
  rintro ⟨v, hv, hv0⟩
  have hlen : recs.length ≠ 0 := by
    intro h
    rw [List.length_eq_zero.mp h] at hv
    exact List.not_mem_nil _ hv
  have hz' : ∃ x ∈ List.map (memberOf tx) recs, x.ID = 0 :=
    ⟨memberOf tx v, List.mem_map.mpr ⟨v, hv, rfl⟩, hv0⟩
  simp only [List.length_map, List.any_eq_true, decide_eq_true_eq]
  rw [if_neg hlen, if_pos hz']

/-- A record without a `node_id` resolves to the node id `0`. -/
theorem memberOf_null (tx : DB) (v : StorageVolume) (h : v.node_id = none) :
    (memberOf tx v).ID = 0 := by
  unfold memberOf
  have : tx.nodes.filter (fun n => decide (v.node_id = some n.id)) = [] := by
    rw [List.filter_eq_nil_iff]
    intro n _
    simp [h]
  rw [this]

/-- C7: given that the pool's driver can be read, `GetStorageVolumeNodes` returns a
NotFound status error if and only if no record has the identity `(pool, project, name,
type)`; and a node list returned without error is non-empty and has one entry per record
of the identity, the member of that record, each with a non-zero node id. -/
theorem GetStorageVolumeNodes_NotFound_iff (StorageRemoteDriverNames : Option (List String))
    (tx : DB) (poolID : Int) (projectName volumeName : String) (volumeType : Int)
    (hproj : (tx.projects.map Project.id).Nodup) (hnode : (tx.nodes.map Node.id).Nodup)
    (hpool : ∃ driver, ClusterTx.GetStoragePoolDriver tx poolID = .ok driver) :
    ((∃ msg, ClusterTx.GetStorageVolumeNodes StorageRemoteDriverNames tx poolID projectName
          volumeName volumeType = .error (.StatusError StatusNotFound msg)) ↔
      recordsOf tx projectName poolID volumeType volumeName = []) ∧
    ∀ nodes, ClusterTx.GetStorageVolumeNodes StorageRemoteDriverNames tx poolID projectName
          volumeName volumeType = .ok nodes →
      nodes ≠ [] ∧
        nodes = (recordsOf tx projectName poolID volumeType volumeName).map (memberOf tx) ∧
        nodes.length = (recordsOf tx projectName poolID volumeType volumeName).length ∧
        ∀ n ∈ nodes, n.ID ≠ 0 := by
  obtain ⟨driver, hdrv⟩ := hpool
  by_cases h0 : recordsOf tx projectName poolID volumeType volumeName = []
  · have hres := GetStorageVolumeNodes_of_nil StorageRemoteDriverNames tx poolID projectName
      volumeName volumeType hproj hnode h0
    rw [hres]
    refine ⟨⟨fun _ => h0, fun _ => ⟨_, rfl⟩⟩, ?_⟩
    intro nodes h; cases h
  · by_cases hz : ∃ v ∈ recordsOf tx projectName poolID volumeType volumeName,
        (memberOf tx v).ID = 0
    · have hres := GetStorageVolumeNodes_of_zero StorageRemoteDriverNames tx poolID projectName
        volumeName volumeType hproj hnode hz
      rw [hres]
      refine ⟨⟨?_, fun h => absurd h h0⟩, ?_⟩
      · rintro ⟨msg, h⟩; cases h
      · intro nodes h; cases h
    · have hz' : ∀ v ∈ recordsOf tx projectName poolID volumeType volumeName,
          (memberOf tx v).ID ≠ 0 := fun v hv h => hz ⟨v, hv, h⟩
      have hres := GetStorageVolumeNodes_of_members StorageRemoteDriverNames tx poolID
        projectName volumeName volumeType hproj hnode h0 hz'
      rw [hres, hdrv]
      have hok : ∀ nodes,
          (Except.ok ((recordsOf tx projectName poolID volumeType volumeName).map (memberOf tx)) :
            Except Error (List NodeInfo)) = .ok nodes →
          nodes ≠ [] ∧
            nodes = (recordsOf tx projectName poolID volumeType volumeName).map (memberOf tx) ∧
            nodes.length = (recordsOf tx projectName poolID volumeType volumeName).length ∧
            ∀ n ∈ nodes, n.ID ≠ 0 := by
        intro nodes h
        cases h
        refine ⟨by simpa using h0, rfl, by simp, ?_⟩
        intro n hn
        obtain ⟨v, hv, rfl⟩ := List.mem_map.mp hn
        exact hz' v hv
      split
      · cases StorageRemoteDriverNames with
        | none =>
          refine ⟨⟨?_, fun h => absurd h h0⟩, ?_⟩
          · rintro ⟨msg, h⟩; cases h
          · intro nodes h; cases h
        | some remoteDrivers =>
          by_cases hin : driver ∈ remoteDrivers
          · simp only [hin, if_true]
            refine ⟨⟨?_, fun h => absurd h h0⟩, ?_⟩
            · rintro ⟨msg, h⟩; cases h
            · intro nodes h; cases h
          · simp only [hin, if_false]
            refine ⟨⟨?_, fun h => absurd h h0⟩, hok⟩
            rintro ⟨msg, h⟩; cases h
      · refine ⟨⟨?_, fun h => absurd h h0⟩, hok⟩
        rintro ⟨msg, h⟩; cases h


/-- C6 at the remote pool of the example store: the two legacy records of `data`
(`node_id` 1 and 2) give `ErrNoClusterMember`, not a two-member list and not NotFound. -/
theorem GetStorageVolumeNodes_ErrNoClusterMember_witness :
    (exampleDB.projects.map Project.id).Nodup ∧ (exampleDB.nodes.map Node.id).Nodup ∧
      (recordsOf exampleDB "default" 1 2 "data").map (fun v => v.node_id) = [some 1, some 2] ∧
      ClusterTx.GetStorageVolumeNodes (some exampleRemoteDrivers) exampleDB 1 "default" "data" 2 =
        .error .ErrNoClusterMember :=
  ⟨by decide, by decide, by rfl,
    (GetStorageVolumeNodes_ErrNoClusterMember_iff (some exampleRemoteDrivers) exampleDB 1
      "default" "data" 2 (by decide) (by decide)).mpr
      ⟨by decide, Or.inr ⟨by decide, "ceph", exampleRemoteDrivers, rfl, rfl, by decide⟩⟩⟩

/-- C7 at the example store: `nope` has no record on the local pool, and the lookup
reports NotFound. -/
theorem GetStorageVolumeNodes_NotFound_witness :
    (exampleDB.projects.map Project.id).Nodup ∧ (exampleDB.nodes.map Node.id).Nodup ∧
      ClusterTx.GetStoragePoolDriver exampleDB 2 = .ok "dir" ∧
      recordsOf exampleDB "default" 2 2 "nope" = [] ∧
      ∃ msg, ClusterTx.GetStorageVolumeNodes (some exampleRemoteDrivers) exampleDB 2 "default"
        "nope" 2 = .error (.StatusError StatusNotFound msg) :=
  ⟨by decide, by decide, rfl, by decide,
    (GetStorageVolumeNodes_NotFound_iff (some exampleRemoteDrivers) exampleDB 2 "default" "nope" 2
      (by decide) (by decide) ⟨"dir", rfl⟩).1.mpr (by decide)⟩

/-- C4, refuted as stated: on the local pool of the example store the two records of `vol`
both carry a member id, and the lookup returns the two members without error instead of an
integrity fault. -/
theorem GetStorageVolumeNodes_local_counterexample :
    ClusterTx.GetStoragePoolDriver exampleDB 2 = .ok "dir" ∧ "dir" ∉ exampleRemoteDrivers ∧
      (recordsOf exampleDB "default" 2 2 "vol").map (fun v => v.node_id) = [some 1, some 2] ∧
      ClusterTx.GetStorageVolumeNodes (some exampleRemoteDrivers) exampleDB 2 "default" "vol" 2 =
        .ok [{ ID := 1, Address := "10.0.0.1", Name := "n1" },
             { ID := 2, Address := "10.0.0.2", Name := "n2" }] :=
  ⟨rfl, by decide, by rfl, by rfl⟩

/-- C4, amended: for a local-class pool whose records of the identity all resolve to a
member, `GetStorageVolumeNodes` returns NotFound when no record has the identity and
otherwise, without error, the members of all records of the identity, one entry per
record: the single member for one record, the list of all of them for several. -/
theorem GetStorageVolumeNodes_local_class (remoteDrivers : List String) (tx : DB)
    (poolID : Int) (projectName volumeName : String) (volumeType : Int)
    (hproj : (tx.projects.map Project.id).Nodup) (hnode : (tx.nodes.map Node.id).Nodup)
    (driver : String) (hdrv : ClusterTx.GetStoragePoolDriver tx poolID = .ok driver)
    (hlocal : driver ∉ remoteDrivers)
    (hmem : ∀ v ∈ recordsOf tx projectName poolID volumeType volumeName,
      (memberOf tx v).ID ≠ 0) :
    ClusterTx.GetStorageVolumeNodes (some remoteDrivers) tx poolID projectName volumeName
        volumeType =
      if recordsOf tx projectName poolID volumeType volumeName = [] then
        .error (.StatusError StatusNotFound "Storage pool volume not found")
      else .ok ((recordsOf tx projectName poolID volumeType volumeName).map (memberOf tx)) := by
  by_cases h0 : recordsOf tx projectName poolID volumeType volumeName = []
  · rw [if_pos h0]
    exact GetStorageVolumeNodes_of_nil _ tx poolID projectName volumeName volumeType hproj hnode h0
  · rw [if_neg h0, GetStorageVolumeNodes_of_members _ tx poolID projectName volumeName volumeType
      hproj hnode h0 hmem, hdrv]
    simp only [hlocal, if_false]
    split <;> rfl

/-- C4, amended, at the example store: `solo` has one record on the local pool and the
lookup returns its member. -/
theorem GetStorageVolumeNodes_local_class_witness :
    (exampleDB.projects.map Project.id).Nodup ∧ (exampleDB.nodes.map Node.id).Nodup ∧
      ClusterTx.GetStoragePoolDriver exampleDB 2 = .ok "dir" ∧ "dir" ∉ exampleRemoteDrivers ∧
      (∀ v ∈ recordsOf exampleDB "default" 2 2 "solo", (memberOf exampleDB v).ID ≠ 0) ∧
      ClusterTx.GetStorageVolumeNodes (some exampleRemoteDrivers) exampleDB 2 "default" "solo" 2 =
        .ok [{ ID := 2, Address := "10.0.0.2", Name := "n2" }] :=
  ⟨by decide, by decide, rfl, by decide, by decide,
    GetStorageVolumeNodes_local_class exampleRemoteDrivers exampleDB 2 "default" "solo" 2
      (by decide) (by decide) "dir" rfl (by decide) (by decide)⟩

/-- C5, refuted as stated: on the remote pool of the example store `shared` has exactly
one record, whose member id is null, and the lookup returns `ErrNoClusterMember` instead
of that record. -/
theorem GetStorageVolumeNodes_remote_counterexample :
    ClusterTx.GetStoragePoolDriver exampleDB 1 = .ok "ceph" ∧ "ceph" ∈ exampleRemoteDrivers ∧
      (recordsOf exampleDB "default" 1 2 "shared").map (fun v => v.node_id) = [none] ∧
      ClusterTx.GetStorageVolumeNodes (some exampleRemoteDrivers) exampleDB 1 "default" "shared" 2 =
        .error .ErrNoClusterMember :=
  ⟨rfl, by decide, by rfl, by rfl⟩

/-- C5, amended: for a remote-class pool, `GetStorageVolumeNodes` returns the member of the
single record when exactly one record has the identity and it resolves to a member,
`ErrNoClusterMember` when that single record has a null member id, and
`ErrNoClusterMember` when more than one record has the identity. -/
theorem GetStorageVolumeNodes_remote_class (remoteDrivers : List String) (tx : DB)
    (poolID : Int) (projectName volumeName : String) (volumeType : Int)
    (hproj : (tx.projects.map Project.id).Nodup) (hnode : (tx.nodes.map Node.id).Nodup)
    (driver : String) (hdrv : ClusterTx.GetStoragePoolDriver tx poolID = .ok driver)
    (hremote : driver ∈ remoteDrivers) :
    (∀ v, recordsOf tx projectName poolID volumeType volumeName = [v] →
      (memberOf tx v).ID ≠ 0 →
      ClusterTx.GetStorageVolumeNodes (some remoteDrivers) tx poolID projectName volumeName
        volumeType = .ok [memberOf tx v]) ∧
    (∀ v, recordsOf tx projectName poolID volumeType volumeName = [v] → v.node_id = none →
      ClusterTx.GetStorageVolumeNodes (some remoteDrivers) tx poolID projectName volumeName
        volumeType = .error .ErrNoClusterMember) ∧
    (1 < (recordsOf tx projectName poolID volumeType volumeName).length →
      ClusterTx.GetStorageVolumeNodes (some remoteDrivers) tx poolID projectName volumeName
        volumeType = .error .ErrNoClusterMember) := by
  refine ⟨?_, ?_, ?_⟩
  · intro v hv hv0
    have h0 : recordsOf tx projectName poolID volumeType volumeName ≠ [] := by simp [hv]
    rw [GetStorageVolumeNodes_of_members _ tx poolID projectName volumeName volumeType
      hproj hnode h0 (by rw [hv]; simpa using hv0), hv]
    simp
  · intro v hv hnull
    exact GetStorageVolumeNodes_of_zero _ tx poolID projectName volumeName volumeType hproj hnode
      ⟨v, by rw [hv]; exact List.mem_singleton.mpr rfl, memberOf_null tx v hnull⟩
  · intro hlen
    by_cases hz : ∃ v ∈ recordsOf tx projectName poolID volumeType volumeName,
        (memberOf tx v).ID = 0
    · exact GetStorageVolumeNodes_of_zero _ tx poolID projectName volumeName volumeType hproj
        hnode hz
    · have h0 : recordsOf tx projectName poolID volumeType volumeName ≠ [] := by
        intro h; rw [h] at hlen; simp at hlen
      rw [GetStorageVolumeNodes_of_members _ tx poolID projectName volumeName volumeType
        hproj hnode h0 (fun v hv h => hz ⟨v, hv, h⟩), if_pos hlen, hdrv]
      simp [hremote]

/-- C5, amended, at the example store: `pinned` has one record on the remote pool, on
member 1, and the lookup returns that member. -/
theorem GetStorageVolumeNodes_remote_class_witness :
    (exampleDB.projects.map Project.id).Nodup ∧ (exampleDB.nodes.map Node.id).Nodup ∧
      ClusterTx.GetStoragePoolDriver exampleDB 1 = .ok "ceph" ∧ "ceph" ∈ exampleRemoteDrivers ∧
      ClusterTx.GetStorageVolumeNodes (some exampleRemoteDrivers) exampleDB 1 "default" "pinned" 2 =
        .ok [{ ID := 1, Address := "10.0.0.1", Name := "n1" }] :=
  ⟨by decide, by decide, rfl, by decide,
    (GetStorageVolumeNodes_remote_class exampleRemoteDrivers exampleDB 1 "default" "pinned" 2
      (by decide) (by decide) "ceph" rfl (by decide)).1
      ⟨6, "pinned", 1, some 1, 2, "", 1, 0⟩ (by rfl) (by decide)⟩


/-! ## The targets of a replicated change -/

/-- With the primary key of `projects`, `storageVolumeIDsGet` returns the ids of the
records of the identity, one per record. -/
theorem storageVolumeIDsGet_eq (tx : DB) (project volumeName : String)
    (volumeType poolID : Int) (hproj : (tx.projects.map Project.id).Nodup) :
    storageVolumeIDsGet tx project volumeName volumeType poolID =
      (recordsOf tx project poolID volumeType volumeName).map (fun v => v.id) := by
  unfold storageVolumeIDsGet recordsOf
  generalize storage_volumes_all tx = vs
  induction vs with
  | nil => rfl
  | cons v vs ih =>
    rw [innerJoin_cons, List.filter_append, List.map_append, ih]
    have hv : (((tx.projects.filter (fun p => decide (p.id = v.project_id))).map
          (fun p => (v, p))).filter
        (fun vp => decide (vp.2.name = project) && decide (vp.1.name = volumeName)
          && decide (vp.1.type = volumeType) && decide (vp.1.storage_pool_id = poolID))).map
        (fun vp => vp.1.id) =
        if (decide (v.storage_pool_id = poolID) && decide (v.type = volumeType)
          && decide (v.name = volumeName)
          && tx.projects.any (fun p => decide (p.id = v.project_id) &&
              decide (p.name = project))) = true
        then [v.id] else [] := by
      rw [any_and_filter]
      rcases filter_unique_key Project.id (fun p => decide (p.id = v.project_id))
          (by intro x y hx hy; simp only [decide_eq_true_eq] at hx hy; rw [hx, hy])
          tx.projects hproj with hp | ⟨p, hp⟩
      · rw [hp]; simp
      · rw [hp]
        simp only [List.map_cons, List.map_nil, List.any_cons, List.any_nil, Bool.or_false]
        by_cases h : (decide (v.storage_pool_id = poolID) && decide (v.type = volumeType)
            && decide (v.name = volumeName) && decide (p.name = project)) = true
        · rw [if_pos h]
          simp only [Bool.and_eq_true, decide_eq_true_eq] at h
          simp [List.filter_cons, h.1.1.1, h.1.1.2, h.1.2, h.2]
        · rw [if_neg h]
          simp only [Bool.and_eq_true, decide_eq_true_eq] at h
          simp only [List.filter_cons, Bool.and_eq_true, decide_eq_true_eq]
          rw [if_neg (by tauto)]
          rfl
    rw [hv]
    by_cases h : (decide (v.storage_pool_id = poolID) && decide (v.type = volumeType)
        && decide (v.name = volumeName)
        && tx.projects.any (fun p => decide (p.id = v.project_id) &&
            decide (p.name = project))) = true
    · rw [if_pos h, List.filter_cons, if_pos h]; rfl
    · rw [if_neg h, List.filter_cons, if_neg h]; rfl

/-- A loop whose every application succeeds is the fold of the change over the ids. -/
theorem replicateLoop_of_success (f : Int → DB → DB × Option Error) :
    ∀ (ids : List Int) (tx : DB), (∀ id ∈ ids, ∀ s, (f id s).2 = none) →
      replicateLoop f ids tx = (ids.foldl (fun s id => (f id s).1) tx, none) := by
  intro ids
  induction ids with
  | nil => intro tx _; rfl
  | cons id ids ih =>
    intro tx h
    have h1 := h id (List.mem_cons_self _ _) tx
    rw [replicateLoop]
    cases hf : f id tx with
    | mk tx1 err =>
      rw [hf] at h1
      simp only at h1
      subst h1
      simp only [List.foldl_cons, hf]
      exact ih tx1 (fun id' hid' s => h id' (List.mem_cons_of_mem _ hid') s)

/-- A qualified snapshot name contains the delimiter. -/
theorem snapshotRow_name_contains (v : StorageVolume) (s : StorageVolumeSnapshot) :
    stringsContains (snapshotRow v s).name SnapshotDelimiter = true := by
  unfold stringsContains snapshotRow
  simp only [decide_eq_true_eq, String.data_append]
  exact ⟨v.name.data, s.name.data, rfl⟩


/-- The ids of the snapshot rows of the view are pairwise distinct when the ids of the
volume table and of the snapshot table are. -/
theorem snapshotRows_ids_nodup (tx : DB)
    (hvol : (tx.storage_volumes.map (fun v => v.id)).Nodup)
    (hsnap : (tx.storage_volumes_snapshots.map (fun s => s.id)).Nodup) :
    ((tx.storage_volumes.flatMap (fun v =>
        (tx.storage_volumes_snapshots.filter (fun s => s.storage_volume_id = v.id)).map
          (snapshotRow v))).map (fun r => r.id)).Nodup := by
  rw [List.map_flatMap, List.nodup_flatMap]
  constructor
  · intro v _
    rw [List.map_map]
    exact List.Nodup.sublist (List.Sublist.map _ (List.filter_sublist _)) hsnap
  · have hpw : List.Pairwise (fun a b : StorageVolume => a.id ≠ b.id) tx.storage_volumes :=
      (List.pairwise_map).mp hvol
    refine List.Pairwise.imp ?_ hpw
    intro a b hab
    show List.Disjoint _ _
    intro x hxa hxb
    simp only [List.mem_map, List.mem_filter, decide_eq_true_eq] at hxa hxb
    obtain ⟨ra, ⟨sa, ⟨hsa, hva⟩, rfl⟩, hra⟩ := hxa
    obtain ⟨rb, ⟨sb, ⟨hsb, hvb⟩, rfl⟩, hrb⟩ := hxb
    have hid : sa.id = sb.id := by
      have h1 : (snapshotRow a sa).id = sa.id := rfl
      have h2 : (snapshotRow b sb).id = sb.id := rfl
      rw [← h1, ← h2, hra, hrb]
    have hs : sa = sb := List.inj_on_of_nodup_map hsnap hsa hsb hid
    apply hab
    rw [← hva, ← hvb, hs]

/-- Under the primary keys of the volume and snapshot tables, and with no volume named
like a snapshot, the records of an identity have pairwise distinct ids. -/
theorem recordsOf_ids_nodup (tx : DB) (project : String) (poolID volumeType : Int)
    (volumeName : String)
    (hvol : (tx.storage_volumes.map (fun v => v.id)).Nodup)
    (hsnap : (tx.storage_volumes_snapshots.map (fun s => s.id)).Nodup)
    (hnames : ∀ v ∈ tx.storage_volumes, stringsContains v.name SnapshotDelimiter = false) :
    ((recordsOf tx project poolID volumeType volumeName).map (fun v => v.id)).Nodup := by
  unfold recordsOf storage_volumes_all
  rw [List.filter_append, List.map_append]
  by_cases hc : stringsContains volumeName SnapshotDelimiter = true
  · have hnil : tx.storage_volumes.filter (fun v =>
        decide (v.storage_pool_id = poolID) && decide (v.type = volumeType)
          && decide (v.name = volumeName)
          && tx.projects.any (fun p => decide (p.id = v.project_id) &&
              decide (p.name = project))) = [] := by
      rw [List.filter_eq_nil_iff]
      intro v hv hidp
      simp only [Bool.and_eq_true, decide_eq_true_eq] at hidp
      have := hnames v hv
      rw [hidp.1.2, hc] at this
      cases this
    rw [hnil, List.map_nil, List.nil_append]
    exact List.Nodup.sublist (List.Sublist.map _ (List.filter_sublist _))
      (snapshotRows_ids_nodup tx hvol hsnap)
  · have hnil : (tx.storage_volumes.flatMap (fun v =>
        (tx.storage_volumes_snapshots.filter (fun s => s.storage_volume_id = v.id)).map
          (snapshotRow v))).filter (fun v =>
        decide (v.storage_pool_id = poolID) && decide (v.type = volumeType)
          && decide (v.name = volumeName)
          && tx.projects.any (fun p => decide (p.id = v.project_id) &&
              decide (p.name = project))) = [] := by
      rw [List.filter_eq_nil_iff]
      intro r hr hidp
      simp only [Bool.and_eq_true, decide_eq_true_eq] at hidp
      simp only [List.mem_flatMap, List.mem_map] at hr
      obtain ⟨v, _, s, _, rfl⟩ := hr
      apply hc
      rw [← hidp.1.2]
      exact snapshotRow_name_contains v s
    rw [hnil, List.map_nil, List.append_nil]
    exact List.Nodup.sublist (List.Sublist.map _ (List.filter_sublist _)) hvol


/-- C1: `storagePoolVolumeReplicateIfCeph` applies the change `f`, in turn, to the target
ids: the one record id passed by the caller when the pool's driver is not a remote driver
(the call is then the single application `f volumeID`), the ids of all records sharing
`(project, pool, type, name)`, whatever their node id, when it is.  When every application
succeeds the call returns no error and its store is the fold of `f` over the targets, one
application per target; under the primary keys of the volume and snapshot tables, with no
volume named like a snapshot, no target id occurs twice. -/
theorem storagePoolVolumeReplicateIfCeph_targets (remoteDrivers : List String) (tx : DB)
    (volumeID : Int) (project volumeName : String) (volumeType poolID : Int)
    (f : Int → DB → DB × Option Error) (driver : String)
    (hdrv : storagePoolDriverGet tx poolID = .ok driver)
    (hproj : (tx.projects.map Project.id).Nodup) :
    storagePoolVolumeReplicateIfCeph remoteDrivers tx volumeID project volumeName volumeType
        poolID f =
      replicateLoop f
        (replicationTargets remoteDrivers tx driver volumeID project poolID volumeType volumeName)
        tx ∧
    (driver ∉ remoteDrivers →
      storagePoolVolumeReplicateIfCeph remoteDrivers tx volumeID project volumeName volumeType
        poolID f = f volumeID tx) ∧
    ((∀ id ∈ replicationTargets remoteDrivers tx driver volumeID project poolID volumeType
          volumeName, ∀ s, (f id s).2 = none) →
      storagePoolVolumeReplicateIfCeph remoteDrivers tx volumeID project volumeName volumeType
        poolID f =
        ((replicationTargets remoteDrivers tx driver volumeID project poolID volumeType
          volumeName).foldl (fun s id => (f id s).1) tx, none)) ∧
    ((tx.storage_volumes.map (fun v => v.id)).Nodup →
      (tx.storage_volumes_snapshots.map (fun s => s.id)).Nodup →
      (∀ v ∈ tx.storage_volumes, stringsContains v.name SnapshotDelimiter = false) →
      (replicationTargets remoteDrivers tx driver volumeID project poolID volumeType
        volumeName).Nodup) := by
  have h1 : storagePoolVolumeReplicateIfCeph remoteDrivers tx volumeID project volumeName
      volumeType poolID f =
      replicateLoop f
        (replicationTargets remoteDrivers tx driver volumeID project poolID volumeType volumeName)
        tx := by
    unfold storagePoolVolumeReplicateIfCeph replicationTargets
    rw [hdrv]
    simp only [StringInSlice, decide_eq_true_eq]
    rw [storageVolumeIDsGet_eq tx project volumeName volumeType poolID hproj]
  refine ⟨h1, ?_, ?_, ?_⟩
  · intro hlocal
    rw [h1]
    unfold replicationTargets
    rw [if_neg hlocal]
    simp only [replicateLoop]
    rcases f volumeID tx with ⟨tx1, _ | err⟩ <;> rfl
  · intro hall
    rw [h1]
    exact replicateLoop_of_success f _ tx hall
  · intro hvol hsnap hnames
    unfold replicationTargets
    split
    · exact recordsOf_ids_nodup tx project poolID volumeType volumeName hvol hsnap hnames
    · exact List.nodup_singleton _

/-- C1 at the remote pool of the example store: a change replicated for `data` is applied
to the records 1 and 2, in turn. -/
theorem storagePoolVolumeReplicateIfCeph_targets_witness :
    storagePoolDriverGet exampleDB 1 = .ok "ceph" ∧
      (exampleDB.projects.map Project.id).Nodup ∧
      storagePoolVolumeReplicateIfCeph exampleRemoteDrivers exampleDB 1 "default" "data" 2 1
          (removeVolume Driver.accepting false) =
        replicateLoop (removeVolume Driver.accepting false) [1, 2] exampleDB :=
  ⟨rfl, by decide,
    (storagePoolVolumeReplicateIfCeph_targets exampleRemoteDrivers exampleDB 1 "default" "data"
      2 1 (removeVolume Driver.accepting false) "ceph" rfl (by decide)).1⟩


/-! ## Reading a config -/

/-- C10, at the failing input: with the key `a` stored twice for a record,
`ClusterTx.storageVolumeConfigGet` returns a map without error, for a volume as for a
snapshot, keeping the value of the later row, while `storageVolumeSnapshotConfig` reports
the duplicate key on the same snapshot rows. -/
theorem storageVolumeConfigGet_duplicate_key :
    ClusterTx.storageVolumeConfigGet duplicateKeyDB 1 false = .ok [("a", "2")] ∧
      ClusterTx.storageVolumeConfigGet duplicateKeyDB 1 true = .ok [("a", "2")] ∧
      storageVolumeSnapshotConfig duplicateKeyDB 1 =
        .error (.Errorf
          "Duplicate config row found for key %q for storage volume snapshot ID %d" ["a", "1"]) :=
  ⟨by rfl, by rfl, by rfl⟩


/-! ## Failure of a replicated change -/

/-- A loop stops at the first application that fails: its store is the one that
application left, and the ids after it play no part. -/
theorem replicateLoop_fail (f : Int → DB → DB × Option Error) (x : Int) (post : List Int)
    (tx1 tx2 : DB) (err : Error) (hx : f x tx1 = (tx2, some err)) :
    ∀ (pre : List Int) (tx : DB), replicateLoop f pre tx = (tx1, none) →
      replicateLoop f (pre ++ x :: post) tx = (tx2, some err) := by
  intro pre
  induction pre with
  | nil =>
    intro tx h
    simp only [replicateLoop, Prod.mk.injEq, and_true] at h
    subst h
    simp only [List.nil_append, replicateLoop, hx]
  | cons id pre ih =>
    intro tx h
    rw [List.cons_append, replicateLoop]
    rw [replicateLoop] at h
    rcases hf : f id tx with ⟨tx', _ | err'⟩
    · rw [hf] at h
      exact ih tx' h
    · rw [hf] at h
      cases h

/-- A transaction whose body fails leaves the store as it was and returns the error. -/
theorem Transaction_of_error (db tx : DB) (err : Error) (f : DB → DB × Option Error)
    (h : f db = (tx, some err)) : Transaction db f = (db, some err) := by
  unfold Transaction
  rw [h]

/-- A transaction that returns an error returns the store it started from. -/
theorem Transaction_rollback (db : DB) (f : DB → DB × Option Error)
    (h : (Transaction db f).2 ≠ none) : (Transaction db f).1 = db := by
  unfold Transaction at h ⊢
  rcases hf : f db with ⟨tx, _ | err⟩
  · rw [hf] at h
    exact absurd rfl h
  · rfl

/-- C2: for a remote-class pool whose records of the identity have the ids
`pre ++ x :: post`, if the change run by `UpdateStoragePoolVolume` (likewise by
`RemoveStoragePoolVolume` and `RenameStoragePoolVolume`) succeeds on the records `pre` and
fails on the record `x` with the error `err`, then the replicated change stops there with
`err` in the store the failed application left, without an application to the records
`post`, and the operation returns `err` with the store rolled back to the one it started
from; and whenever one of the three operations returns an error its store is the one it
started from. -/
theorem replicated_failure_rolls_back (driver : Driver) (remoteDrivers : List String)
    (localNodeID : Int) (db : DB) (project volumeName : String) (volumeType poolID : Int)
    (poolDriver : String) (volumeID : Int) (vol : ApiStorageVolume) (pre post : List Int)
    (x : Int)
    (hdrv : storagePoolDriverGet db poolID = .ok poolDriver)
    (hremote : poolDriver ∈ remoteDrivers)
    (hproj : (db.projects.map Project.id).Nodup)
    (hlocal : Cluster.GetLocalStoragePoolVolume remoteDrivers localNodeID db project volumeName
      volumeType poolID = .ok (volumeID, vol))
    (htargets : (recordsOf db project poolID volumeType volumeName).map (fun v => v.id) =
      pre ++ x :: post) :
    (∀ (description : String) (config : GoMap) (tx1 tx2 : DB) (err : Error),
      replicateLoop (updateVolume driver description config
          (stringsContains volumeName SnapshotDelimiter)) pre db = (tx1, none) →
      updateVolume driver description config (stringsContains volumeName SnapshotDelimiter)
          x tx1 = (tx2, some err) →
      storagePoolVolumeReplicateIfCeph remoteDrivers db volumeID project volumeName volumeType
          poolID (updateVolume driver description config
            (stringsContains volumeName SnapshotDelimiter)) = (tx2, some err) ∧
        Cluster.UpdateStoragePoolVolume driver remoteDrivers localNodeID db project volumeName
          volumeType poolID description config = (db, some err)) ∧
    (∀ (tx1 tx2 : DB) (err : Error),
      replicateLoop (removeVolume driver (stringsContains volumeName SnapshotDelimiter)) pre db =
          (tx1, none) →
      removeVolume driver (stringsContains volumeName SnapshotDelimiter) x tx1 =
          (tx2, some err) →
      storagePoolVolumeReplicateIfCeph remoteDrivers db volumeID project volumeName volumeType
          poolID (removeVolume driver (stringsContains volumeName SnapshotDelimiter)) =
          (tx2, some err) ∧
        Cluster.RemoveStoragePoolVolume driver remoteDrivers localNodeID db project volumeName
          volumeType poolID = (db, some err)) ∧
    (∀ (newVolumeName stored : String) (tx1 tx2 : DB) (err : Error),
      (if stringsContains volumeName SnapshotDelimiter = true then
          (stringsSplit newVolumeName SnapshotDelimiter)[1]?
        else some newVolumeName) = some stored →
      replicateLoop (renameVolume driver (stringsContains volumeName SnapshotDelimiter) stored)
          pre db = (tx1, none) →
      renameVolume driver (stringsContains volumeName SnapshotDelimiter) stored x tx1 =
          (tx2, some err) →
      storagePoolVolumeReplicateIfCeph remoteDrivers db volumeID project volumeName volumeType
          poolID (renameVolume driver (stringsContains volumeName SnapshotDelimiter) stored) =
          (tx2, some err) ∧
        Cluster.RenameStoragePoolVolume driver remoteDrivers localNodeID db project volumeName
          newVolumeName volumeType poolID = some (db, some err)) ∧
    (∀ (description : String) (config : GoMap),
      (Cluster.UpdateStoragePoolVolume driver remoteDrivers localNodeID db project volumeName
          volumeType poolID description config).2 ≠ none →
      (Cluster.UpdateStoragePoolVolume driver remoteDrivers localNodeID db project volumeName
          volumeType poolID description config).1 = db) ∧
    ((Cluster.RemoveStoragePoolVolume driver remoteDrivers localNodeID db project volumeName
          volumeType poolID).2 ≠ none →
      (Cluster.RemoveStoragePoolVolume driver remoteDrivers localNodeID db project volumeName
          volumeType poolID).1 = db) ∧
    (∀ (newVolumeName : String) (result : DB × Option Error),
      Cluster.RenameStoragePoolVolume driver remoteDrivers localNodeID db project volumeName
          newVolumeName volumeType poolID = some result →
      result.2 ≠ none → result.1 = db) := by
  have hrep : ∀ (f : Int → DB → DB × Option Error) (tx1 tx2 : DB) (err : Error),
      replicateLoop f pre db = (tx1, none) → f x tx1 = (tx2, some err) →
      storagePoolVolumeReplicateIfCeph remoteDrivers db volumeID project volumeName volumeType
        poolID f = (tx2, some err) := by
    intro f tx1 tx2 err hpre hx
    unfold storagePoolVolumeReplicateIfCeph
    rw [hdrv]
    simp only [StringInSlice, decide_eq_true_eq, hremote, if_true]
    rw [storageVolumeIDsGet_eq db project volumeName volumeType poolID hproj, htargets]
    exact replicateLoop_fail f x post tx1 tx2 err hx pre db hpre
  refine ⟨?_, ?_, ?_, ?_, ?_, ?_⟩
  · intro description config tx1 tx2 err hpre hx
    have h := hrep _ tx1 tx2 err hpre hx
    refine ⟨h, ?_⟩
    unfold Cluster.UpdateStoragePoolVolume
    rw [hlocal]
    exact Transaction_of_error db tx2 err _ h
  · intro tx1 tx2 err hpre hx
    have h := hrep _ tx1 tx2 err hpre hx
    refine ⟨h, ?_⟩
    unfold Cluster.RemoveStoragePoolVolume
    rw [hlocal]
    exact Transaction_of_error db tx2 err _ h
  · intro newVolumeName stored tx1 tx2 err hstored hpre hx
    have h := hrep _ tx1 tx2 err hpre hx
    refine ⟨h, ?_⟩
    unfold Cluster.RenameStoragePoolVolume
    rw [hlocal]
    simp only [hstored]
    exact congrArg some (Transaction_of_error db tx2 err _ h)
  · intro description config herr
    unfold Cluster.UpdateStoragePoolVolume at herr ⊢
    rw [hlocal] at herr ⊢
    exact Transaction_rollback db _ herr
  · intro herr
    unfold Cluster.RemoveStoragePoolVolume at herr ⊢
    rw [hlocal] at herr ⊢
    exact Transaction_rollback db _ herr
  · intro newVolumeName result hres herr
    unfold Cluster.RenameStoragePoolVolume at hres
    rw [hlocal] at hres
    simp only at hres
    split at hres
    · cases hres
    · simp only [Option.some.injEq] at hres
      subst hres
      exact Transaction_rollback db _ herr


/-- C2 at the remote pool of the example store: the driver refuses the description update
of the record 1, the first of the two legacy records of `data`; the update returns that
error and the store is the one it started from. -/
theorem replicated_failure_rolls_back_witness :
    storagePoolDriverGet exampleDB 1 = .ok "ceph" ∧ "ceph" ∈ exampleRemoteDrivers ∧
      (exampleDB.projects.map Project.id).Nodup ∧
      (recordsOf exampleDB "default" 1 2 "data").map (fun v => v.id) = [] ++ 1 :: [2] ∧
      Cluster.UpdateStoragePoolVolume failingDriver exampleRemoteDrivers 1 exampleDB "default"
          "data" 2 1 "new desc" [("a", "1")] =
        (exampleDB, some (.Store "disk I/O error")) :=
  ⟨rfl, by decide, by decide, by rfl,
    ((replicated_failure_rolls_back failingDriver exampleRemoteDrivers 1 exampleDB "default"
      "data" 2 1 "ceph" 1
      { Type_ := "custom", Name := "data", Description := "old", Config := [("size", "1GiB")],
        Location := "", ContentType := "filesystem" }
      [] [2] 1 rfl (by decide) (by decide) (by rfl) (by rfl)).1
      "new desc" [("a", "1")] exampleDB _ _ rfl rfl).2⟩


/-! ## The change of `UpdateStoragePoolVolume` on one record -/

theorem Exec_success (driver : Driver) (tx tx1 : DB) (stmt : Stmt)
    (h : Exec driver tx stmt = (tx1, none)) : tx1 = stmt.run tx := by
  unfold Exec at h
  split at h
  · cases h
  · split at h
    · cases h
    · cases h; rfl

theorem storageVolumeConfigAdd_success (driver : Driver) (volumeID : Int) (isSnapshot : Bool) :
    ∀ (volumeConfig : GoMap) (tx tx1 : DB),
      storageVolumeConfigAdd driver tx volumeID volumeConfig isSnapshot = (tx1, none) →
      tx1 = if isSnapshot then
          { tx with storage_volumes_snapshots_config :=
              tx.storage_volumes_snapshots_config ++ insertedRows volumeID volumeConfig }
        else
          { tx with storage_volumes_config :=
              tx.storage_volumes_config ++ insertedRows volumeID volumeConfig } := by
  intro volumeConfig
  induction volumeConfig with
  | nil =>
    intro tx tx1 h
    simp only [storageVolumeConfigAdd, Prod.mk.injEq, and_true] at h
    subst h
    cases isSnapshot <;> simp [insertedRows]
  | cons e rest ih =>
    intro tx tx1 h
    obtain ⟨k, v⟩ := e
    rw [storageVolumeConfigAdd] at h
    by_cases hv : v = ""
    · rw [if_pos hv] at h
      have := ih tx tx1 h
      rw [this]
      simp [insertedRows, hv]
    · rw [if_neg hv] at h
      rcases hx : Exec driver tx
          (if isSnapshot = true then Stmt.InsertSnapshotConfig volumeID k v
           else Stmt.InsertVolumeConfig volumeID k v) with ⟨tx2, _ | err⟩
      · rw [hx] at h
        simp only at h
        have h2 := Exec_success driver tx tx2 _ hx
        have := ih tx2 tx1 h
        rw [this, h2]
        cases isSnapshot <;> simp [insertedRows, hv, Stmt.run]
      · rw [hx] at h
        cases h

/-- When the change of `UpdateStoragePoolVolume` succeeds on a record, the store it leaves
is `updatedStore`, whatever the driver. -/
theorem updateVolume_success (driver : Driver) (description : String) (volumeConfig : GoMap)
    (isSnapshot : Bool) (volumeID : Int) (tx tx1 : DB)
    (h : updateVolume driver description volumeConfig isSnapshot volumeID tx = (tx1, none)) :
    tx1 = updatedStore description volumeConfig isSnapshot tx volumeID := by
  unfold updateVolume storageVolumeConfigClear at h
  rcases hc : Exec driver tx
      (if isSnapshot = true then Stmt.DeleteSnapshotConfig volumeID
       else Stmt.DeleteVolumeConfig volumeID) with ⟨txa, _ | err⟩
  · rw [hc] at h
    simp only at h
    have ha := Exec_success driver tx txa _ hc
    rcases hadd : storageVolumeConfigAdd driver txa volumeID volumeConfig isSnapshot with
      ⟨txb, _ | err⟩
    · rw [hadd] at h
      simp only at h
      have hb := storageVolumeConfigAdd_success driver volumeID isSnapshot volumeConfig txa txb hadd
      unfold storageVolumeDescriptionUpdate at h
      cases isSnapshot
      · simp only [Bool.false_eq_true, if_false] at h ha hb
        have hd := Exec_success driver txb tx1 _ h
        rw [hd, hb, ha]
        simp [updatedStore, Stmt.run, describeRow]
      · simp only [if_true] at h ha hb
        have hd := Exec_success driver txb tx1 _ h
        rw [hd, hb, ha]
        simp [updatedStore, Stmt.run, describeSnapshot]
    · rw [hadd] at h
      cases h
  · rw [hc] at h
    cases h

/-- A successful loop of the change of `UpdateStoragePoolVolume` leaves the fold of
`updatedStore` over the ids. -/
theorem updateLoop_success (driver : Driver) (description : String) (volumeConfig : GoMap)
    (isSnapshot : Bool) :
    ∀ (ids : List Int) (tx tx1 : DB),
      replicateLoop (updateVolume driver description volumeConfig isSnapshot) ids tx =
        (tx1, none) →
      tx1 = ids.foldl (updatedStore description volumeConfig isSnapshot) tx := by
  intro ids
  induction ids with
  | nil =>
    intro tx tx1 h
    simp only [replicateLoop, Prod.mk.injEq, and_true] at h
    exact h.symm
  | cons id ids ih =>
    intro tx tx1 h
    rw [replicateLoop] at h
    rcases hf : updateVolume driver description volumeConfig isSnapshot id tx with
      ⟨tx2, _ | err⟩
    · rw [hf] at h
      simp only at h
      rw [List.foldl_cons, ← updateVolume_success driver description volumeConfig isSnapshot id
        tx tx2 hf]
      exact ih tx2 tx1 h
    · rw [hf] at h
      cases h


theorem insertedRows_owner (volumeID : Int) (volumeConfig : GoMap) :
    ∀ r ∈ insertedRows volumeID volumeConfig, r.owner = volumeID := by
  intro r hr
  simp only [insertedRows, List.mem_map] at hr
  obtain ⟨e, _, rfl⟩ := hr
  rfl

theorem filter_owner_insertedRows (volumeID : Int) (volumeConfig : GoMap) :
    (insertedRows volumeID volumeConfig).filter (fun r => decide (r.owner = volumeID)) =
      insertedRows volumeID volumeConfig := by
  rw [List.filter_eq_self]
  intro r hr
  simp [insertedRows_owner volumeID volumeConfig r hr]

theorem filter_owner_insertedRows_other (volumeID other : Int) (volumeConfig : GoMap)
    (h : other ≠ volumeID) :
    (insertedRows volumeID volumeConfig).filter (fun r => decide (r.owner = other)) = [] := by
  rw [List.filter_eq_nil_iff]
  intro r hr
  simp only [decide_eq_true_eq]
  rw [insertedRows_owner volumeID volumeConfig r hr]
  exact fun h' => h h'.symm

/-- After the change on a record, its config rows are the rows of the new map. -/
theorem configRows_updatedStore_self (description : String) (volumeConfig : GoMap)
    (isSnapshot : Bool) (tx : DB) (volumeID : Int) :
    configRows (updatedStore description volumeConfig isSnapshot tx volumeID) volumeID isSnapshot =
      insertedRows volumeID volumeConfig := by
  cases isSnapshot
  · simp only [configRows, updatedStore, Bool.false_eq_true, if_false, List.filter_append,
      filter_owner_insertedRows, List.filter_filter]
    simp
  · simp only [configRows, updatedStore, if_true, List.filter_append,
      filter_owner_insertedRows, List.filter_filter]
    simp

/-- The change on a record leaves the config rows of every other record as they were. -/
theorem configRows_updatedStore_other (description : String) (volumeConfig : GoMap)
    (isSnapshot : Bool) (tx : DB) (volumeID other : Int) (h : other ≠ volumeID) :
    configRows (updatedStore description volumeConfig isSnapshot tx volumeID) other isSnapshot =
      configRows tx other isSnapshot := by
  cases isSnapshot
  · simp only [configRows, updatedStore, Bool.false_eq_true, if_false, List.filter_append,
      filter_owner_insertedRows_other volumeID other volumeConfig h, List.filter_filter,
      List.append_nil]
    apply List.filter_congr
    intro r _
    by_cases hr : r.owner = other
    · simp [hr, h]
    · simp [hr]
  · simp only [configRows, updatedStore, if_true, List.filter_append,
      filter_owner_insertedRows_other volumeID other volumeConfig h, List.filter_filter,
      List.append_nil]
    apply List.filter_congr
    intro r _
    by_cases hr : r.owner = other
    · simp [hr, h]
    · simp [hr]

theorem configRows_fold_not_mem (description : String) (volumeConfig : GoMap)
    (isSnapshot : Bool) (other : Int) :
    ∀ (ids : List Int) (tx : DB), other ∉ ids →
      configRows (ids.foldl (updatedStore description volumeConfig isSnapshot) tx) other
        isSnapshot = configRows tx other isSnapshot := by
  intro ids
  induction ids with
  | nil => intro tx _; rfl
  | cons id ids ih =>
    intro tx h
    rw [List.foldl_cons, ih _ (fun h' => h (List.mem_cons_of_mem _ h')),
      configRows_updatedStore_other _ _ _ _ _ _
        (fun h' : other = id => h (by rw [h']; exact List.mem_cons_self _ _))]

/-- After the change went through for all of `ids`, each of them has the rows of the new
map as its config rows. -/
theorem configRows_fold_mem (description : String) (volumeConfig : GoMap)
    (isSnapshot : Bool) (target : Int) :
    ∀ (ids : List Int) (tx : DB), target ∈ ids →
      configRows (ids.foldl (updatedStore description volumeConfig isSnapshot) tx) target
        isSnapshot = insertedRows target volumeConfig := by
  intro ids
  induction ids with
  | nil => intro tx h; exact absurd h (List.not_mem_nil _)
  | cons id ids ih =>
    intro tx h
    rw [List.foldl_cons]
    by_cases hin : target ∈ ids
    · exact ih _ hin
    · have : target = id := by
        rcases List.mem_cons.mp h with h' | h'
        · exact h'
        · exact absurd h' hin
      subst this
      rw [configRows_fold_not_mem _ _ _ _ _ _ hin, configRows_updatedStore_self]

/-! ## Reading the rows of a map back -/

theorem mapSet_fresh : ∀ (m : GoMap) (key value : String), key ∉ m.map Prod.fst →
    mapSet m key value = m ++ [(key, value)] := by
  intro m
  induction m with
  | nil => intro key value _; rfl
  | cons e m ih =>
    intro key value h
    obtain ⟨k, v⟩ := e
    simp only [List.map_cons, List.mem_cons, not_or] at h
    rw [mapSet, if_neg (fun h' => h.1 h'.symm), ih key value h.2]
    rfl

theorem foldl_mapSet_rows (volumeID : Int) :
    ∀ (l acc : GoMap), (∀ e ∈ l, e.1 ∉ acc.map Prod.fst) → (l.map Prod.fst).Nodup →
      (l.map (fun e => ({ owner := volumeID, key := e.1, value := e.2 } : ConfigRow))).foldl
        (fun config r => mapSet config r.key r.value) acc = acc ++ l := by
  intro l
  induction l with
  | nil => intro acc _ _; simp
  | cons e l ih =>
    intro acc hfresh hnd
    rw [List.map_cons, List.nodup_cons] at hnd
    rw [List.map_cons, List.foldl_cons]
    simp only
    rw [mapSet_fresh acc e.1 e.2 (hfresh e (List.mem_cons_self _ _)), ih _ ?_ hnd.2]
    · simp
    · intro e' he' hmem
      simp only [List.map_append, List.map_cons, List.map_nil, List.mem_append,
        List.mem_singleton] at hmem
      rcases hmem with hmem | hmem
      · exact hfresh e' (List.mem_cons_of_mem _ he') hmem
      · exact hnd.1 (hmem ▸ List.mem_map_of_mem Prod.fst he')

/-- A record whose config rows are the rows of a map reads back the entries of the map
with a non-empty value. -/
theorem storageVolumeConfigGet_of_insertedRows (tx : DB) (volumeID : Int) (isSnapshot : Bool)
    (volumeConfig : GoMap) (hkeys : (volumeConfig.map Prod.fst).Nodup)
    (h : configRows tx volumeID isSnapshot = insertedRows volumeID volumeConfig) :
    ClusterTx.storageVolumeConfigGet tx volumeID isSnapshot =
      .ok (volumeConfig.filter (fun e => decide (e.2 ≠ ""))) := by
  unfold ClusterTx.storageVolumeConfigGet
  rw [h, insertedRows, foldl_mapSet_rows volumeID _ [] (by simp)
    (List.Nodup.sublist (List.Sublist.map _ (List.filter_sublist _)) hkeys)]
  rfl


/-! ## A successful update -/

/-- The ids `storageVolumeIDsGet` returns are the ids of the records of the identity. -/
theorem mem_storageVolumeIDsGet {tx : DB} {project volumeName : String}
    {volumeType poolID : Int} {id : Int} :
    id ∈ storageVolumeIDsGet tx project volumeName volumeType poolID ↔
      ∃ v ∈ recordsOf tx project poolID volumeType volumeName, v.id = id := by
  unfold storageVolumeIDsGet
  simp only [List.mem_map, List.mem_filter, Prod.exists, mem_innerJoin, Bool.and_eq_true,
    decide_eq_true_eq, mem_recordsOf]
  constructor
  · rintro ⟨v, p, ⟨⟨hv, hp, hpv⟩, ⟨⟨hn, hname⟩, hty⟩, hpool⟩, rfl⟩
    exact ⟨v, ⟨hv, hpool, hty, hname, p, hp, hpv, hn⟩, rfl⟩
  · rintro ⟨v, ⟨hv, hpool, hty, hname, p, hp, hpv, hn⟩, rfl⟩
    exact ⟨v, p, ⟨⟨hv, hp, hpv⟩, ⟨⟨hn, hname⟩, hty⟩, hpool⟩, rfl⟩

/-- The id `GetLocalStoragePoolVolume` resolves is the id of a record of the identity. -/
theorem GetLocalStoragePoolVolume_id (remoteDrivers : List String) (localNodeID : Int)
    (db : DB) (project volumeName : String) (volumeType poolID : Int) (volumeID : Int)
    (vol : ApiStorageVolume)
    (h : Cluster.GetLocalStoragePoolVolume remoteDrivers localNodeID db project volumeName
      volumeType poolID = .ok (volumeID, vol)) :
    ∃ v ∈ recordsOf db project poolID volumeType volumeName, v.id = volumeID := by
  unfold Cluster.GetLocalStoragePoolVolume Cluster.storagePoolVolumeGetType
    Cluster.storagePoolVolumeGetTypeID ClusterTx.storagePoolVolumeGetTypeID at h
  have key := @mem_getTypeID_rows remoteDrivers db project volumeName volumeType poolID
    localNodeID
  simp only [] at h
  generalize ((innerJoin
        (innerJoin (storage_volumes_all db) db.storage_pools
          (fun v pool => decide (v.storage_pool_id = pool.id)))
        db.projects (fun vp p => decide (vp.1.project_id = p.id))).filter
      (fun vpp => decide (vpp.2.name = project) && decide (vpp.1.1.storage_pool_id = poolID)
        && decide (vpp.1.1.name = volumeName) && decide (vpp.1.1.type = volumeType)
        && onMember remoteDrivers localNodeID vpp.1.1 vpp.1.2)).map
      (fun vpp => vpp.1.1.id) = result at key h
  cases result with
  | nil => simp at h
  | cons id rest =>
    obtain ⟨v, hv, _, hid⟩ := (@key id).mp (List.mem_cons_self _ _)
    simp only at h
    repeat' split at h
    all_goals first
      | (cases h; exact ⟨v, hv, hid⟩)
      | (cases h)

theorem Transaction_success (db tx : DB) (f : DB → DB × Option Error)
    (h : Transaction db f = (tx, none)) : f db = (tx, none) := by
  unfold Transaction at h
  rcases hf : f db with ⟨tx1, _ | err⟩
  · rw [hf] at h
    simp only [Prod.mk.injEq, and_true] at h
    rw [h]
  · rw [hf] at h
    cases h

/-- A replicated change that returns no error ran its loop, without error, over the
record id of the caller or over the ids `storageVolumeIDsGet` returns. -/
theorem storagePoolVolumeReplicateIfCeph_success (remoteDrivers : List String) (tx tx1 : DB)
    (volumeID : Int) (project volumeName : String) (volumeType poolID : Int)
    (f : Int → DB → DB × Option Error)
    (h : storagePoolVolumeReplicateIfCeph remoteDrivers tx volumeID project volumeName volumeType
      poolID f = (tx1, none)) :
    ∃ driver, storagePoolDriverGet tx poolID = .ok driver ∧
      replicateLoop f
        (if driver ∈ remoteDrivers then storageVolumeIDsGet tx project volumeName volumeType poolID
         else [volumeID]) tx = (tx1, none) := by
  unfold storagePoolVolumeReplicateIfCeph at h
  cases hd : storagePoolDriverGet tx poolID with
  | error err => rw [hd] at h; cases h
  | ok driver =>
    rw [hd] at h
    simp only [StringInSlice, decide_eq_true_eq] at h
    exact ⟨driver, rfl, h⟩

/-- C9: config updates replace: after a successful `UpdateStoragePoolVolume` with the
config map `m`, whatever config the resolved record had before, reading that record's
config yields exactly the entries of `m` whose value is non-empty. -/
theorem UpdateStoragePoolVolume_config_replace (driver : Driver) (remoteDrivers : List String)
    (localNodeID : Int) (db db1 : DB) (project volumeName : String) (volumeType poolID : Int)
    (description : String) (m : GoMap) (volumeID : Int) (vol : ApiStorageVolume)
    (hkeys : (m.map Prod.fst).Nodup)
    (hlocal : Cluster.GetLocalStoragePoolVolume remoteDrivers localNodeID db project volumeName
      volumeType poolID = .ok (volumeID, vol))
    (hupd : Cluster.UpdateStoragePoolVolume driver remoteDrivers localNodeID db project
      volumeName volumeType poolID description m = (db1, none)) :
    ClusterTx.storageVolumeConfigGet db1 volumeID (stringsContains volumeName SnapshotDelimiter) =
      .ok (m.filter (fun e => decide (e.2 ≠ ""))) := by
  unfold Cluster.UpdateStoragePoolVolume at hupd
  rw [hlocal] at hupd
  obtain ⟨poolDriver, _, hloop⟩ := storagePoolVolumeReplicateIfCeph_success _ _ _ _ _ _ _ _ _
    (Transaction_success db db1 _ hupd)
  have hfold := updateLoop_success driver description m _ _ db db1 hloop
  apply storageVolumeConfigGet_of_insertedRows db1 volumeID _ m hkeys
  rw [hfold]
  apply configRows_fold_mem
  split
  · obtain ⟨v, hv, hid⟩ := GetLocalStoragePoolVolume_id _ _ _ _ _ _ _ _ _ hlocal
    exact mem_storageVolumeIDsGet.mpr ⟨v, hv, hid⟩
  · exact List.mem_singleton.mpr rfl


/-- C9 at the example store: the record 1 of `data` has the config `size`; after an update
with the map `a = "1", b = ""` its config reads back as `a = "1"` alone, and after a second
update with the map `c = "3"` as `c = "3"` alone. -/
theorem UpdateStoragePoolVolume_config_replace_witness :
    ([("a", "1"), ("b", "")].map Prod.fst).Nodup ∧
      ClusterTx.storageVolumeConfigGet exampleDB 1 false = .ok [("size", "1GiB")] ∧
      ClusterTx.storageVolumeConfigGet
          (Cluster.UpdateStoragePoolVolume Driver.accepting exampleRemoteDrivers 1 exampleDB
            "default" "data" 2 1 "new desc" [("a", "1"), ("b", "")]).1 1
          (stringsContains "data" SnapshotDelimiter) = .ok [("a", "1")] ∧
      ClusterTx.storageVolumeConfigGet
          (Cluster.UpdateStoragePoolVolume Driver.accepting exampleRemoteDrivers 1
            (Cluster.UpdateStoragePoolVolume Driver.accepting exampleRemoteDrivers 1 exampleDB
              "default" "data" 2 1 "new desc" [("a", "1"), ("b", "")]).1
            "default" "data" 2 1 "new desc" [("c", "3")]).1 1 false = .ok [("c", "3")] :=
  ⟨by decide, by rfl,
    UpdateStoragePoolVolume_config_replace Driver.accepting exampleRemoteDrivers 1 exampleDB _
      "default" "data" 2 1 "new desc" [("a", "1"), ("b", "")] 1
      { Type_ := "custom", Name := "data", Description := "old", Config := [("size", "1GiB")],
        Location := "", ContentType := "filesystem" }
      (by decide) (by rfl) (by rfl),
    by rfl⟩


/-! ## The records after a replicated update -/

theorem describeRow_nil (description : String) (v : StorageVolume) :
    describeRow [] description v = v := by
  simp [describeRow]

theorem describeRow_cons (id : Int) (ids : List Int) (description : String)
    (v : StorageVolume) :
    describeRow ids description (describeRow [id] description v) =
      describeRow (id :: ids) description v := by
  unfold describeRow
  by_cases h1 : v.id = id <;> by_cases h2 : v.id ∈ ids <;> simp [h1, h2]

theorem describeSnapshot_nil (description : String) (s : StorageVolumeSnapshot) :
    describeSnapshot [] description s = s := by
  simp [describeSnapshot]

theorem describeSnapshot_cons (id : Int) (ids : List Int) (description : String)
    (s : StorageVolumeSnapshot) :
    describeSnapshot ids description (describeSnapshot [id] description s) =
      describeSnapshot (id :: ids) description s := by
  unfold describeSnapshot
  by_cases h1 : s.id = id <;> by_cases h2 : s.id ∈ ids <;> simp [h1, h2]

/-- The tables after the change went through for all of `ids`, for a volume name: only
descriptions of volume rows with one of the ids, and config rows, differ. -/
theorem fold_updatedStore_volume (description : String) (volumeConfig : GoMap) :
    ∀ (ids : List Int) (tx : DB),
      (ids.foldl (updatedStore description volumeConfig false) tx).storage_volumes =
          tx.storage_volumes.map (describeRow ids description) ∧
        (ids.foldl (updatedStore description volumeConfig false) tx).storage_volumes_snapshots =
          tx.storage_volumes_snapshots ∧
        (ids.foldl (updatedStore description volumeConfig false) tx).projects = tx.projects := by
  intro ids
  induction ids with
  | nil =>
    intro tx
    refine ⟨?_, rfl, rfl⟩
    simp only [List.foldl_nil]
    rw [List.map_congr_left (fun v _ => describeRow_nil description v), List.map_id']
  | cons id ids ih =>
    intro tx
    rw [List.foldl_cons]
    obtain ⟨h1, h2, h3⟩ := ih (updatedStore description volumeConfig false tx id)
    refine ⟨?_, ?_, ?_⟩
    · rw [h1]
      simp only [updatedStore, Bool.false_eq_true, if_false, List.map_map]
      exact List.map_congr_left (fun v _ => describeRow_cons id ids description v)
    · rw [h2]; rfl
    · rw [h3]; rfl

/-- The tables after the change went through for all of `ids`, for a snapshot name: only
descriptions of snapshot rows with one of the ids, and config rows, differ. -/
theorem fold_updatedStore_snapshot (description : String) (volumeConfig : GoMap) :
    ∀ (ids : List Int) (tx : DB),
      (ids.foldl (updatedStore description volumeConfig true) tx).storage_volumes_snapshots =
          tx.storage_volumes_snapshots.map (describeSnapshot ids description) ∧
        (ids.foldl (updatedStore description volumeConfig true) tx).storage_volumes =
          tx.storage_volumes ∧
        (ids.foldl (updatedStore description volumeConfig true) tx).projects = tx.projects := by
  intro ids
  induction ids with
  | nil =>
    intro tx
    refine ⟨?_, rfl, rfl⟩
    simp only [List.foldl_nil]
    rw [List.map_congr_left (fun s _ => describeSnapshot_nil description s), List.map_id']
  | cons id ids ih =>
    intro tx
    rw [List.foldl_cons]
    obtain ⟨h1, h2, h3⟩ := ih (updatedStore description volumeConfig true tx id)
    refine ⟨?_, ?_, ?_⟩
    · rw [h1]
      simp only [updatedStore, if_true, List.map_map]
      exact List.map_congr_left (fun s _ => describeSnapshot_cons id ids description s)
    · rw [h2]; rfl
    · rw [h3]; rfl


theorem recordsOf_tables (tx : DB) (project : String) (poolID volumeType : Int)
    (volumeName : String) :
    recordsOf tx project poolID volumeType volumeName =
      tx.storage_volumes.filter (isRecord tx.projects project poolID volumeType volumeName) ++
        (snapshotRows tx.storage_volumes tx.storage_volumes_snapshots).filter
          (isRecord tx.projects project poolID volumeType volumeName) := by
  rw [← List.filter_append]
  rfl

theorem isRecord_describeRow (projects : List Project) (project : String)
    (poolID volumeType : Int) (volumeName : String) (ids : List Int) (description : String)
    (v : StorageVolume) :
    isRecord projects project poolID volumeType volumeName (describeRow ids description v) =
      isRecord projects project poolID volumeType volumeName v := by
  unfold describeRow
  split <;> rfl

theorem filter_isRecord_describeRow (projects : List Project) (project : String)
    (poolID volumeType : Int) (volumeName : String) (ids : List Int) (description : String)
    (rows : List StorageVolume) :
    (rows.map (describeRow ids description)).filter
        (isRecord projects project poolID volumeType volumeName) =
      (rows.filter (isRecord projects project poolID volumeType volumeName)).map
        (describeRow ids description) := by
  rw [List.filter_map]
  congr 1
  apply List.filter_congr
  intro v _
  exact isRecord_describeRow projects project poolID volumeType volumeName ids description v

/-- No snapshot row of the view is a record of a name without the delimiter. -/
theorem filter_isRecord_snapshotRows (projects : List Project) (project : String)
    (poolID volumeType : Int) (volumeName : String)
    (hc : stringsContains volumeName SnapshotDelimiter = false)
    (volumes : List StorageVolume) (snapshots : List StorageVolumeSnapshot) :
    (snapshotRows volumes snapshots).filter
        (isRecord projects project poolID volumeType volumeName) = [] := by
  rw [List.filter_eq_nil_iff]
  intro r hr hrec
  simp only [snapshotRows, List.mem_flatMap, List.mem_map] at hr
  obtain ⟨v, _, s, _, rfl⟩ := hr
  simp only [isRecord, Bool.and_eq_true, decide_eq_true_eq] at hrec
  have := snapshotRow_name_contains v s
  rw [hrec.1.2, hc] at this
  cases this

/-- No volume row is a record of a name with the delimiter, when no volume is named like
a snapshot. -/
theorem filter_isRecord_volumes (projects : List Project) (project : String)
    (poolID volumeType : Int) (volumeName : String)
    (hc : stringsContains volumeName SnapshotDelimiter = true)
    (volumes : List StorageVolume)
    (hnames : ∀ v ∈ volumes, stringsContains v.name SnapshotDelimiter = false) :
    volumes.filter (isRecord projects project poolID volumeType volumeName) = [] := by
  rw [List.filter_eq_nil_iff]
  intro v hv hrec
  simp only [isRecord, Bool.and_eq_true, decide_eq_true_eq] at hrec
  have := hnames v hv
  rw [hrec.1.2, hc] at this
  cases this

theorem snapshotRow_volume_described (ids : List Int) (description : String)
    (v : StorageVolume) (s : StorageVolumeSnapshot) :
    snapshotRow (describeRow ids description v) s = snapshotRow v s := by
  unfold describeRow
  split <;> rfl

theorem snapshotRow_snapshot_described (ids : List Int) (description : String)
    (v : StorageVolume) (s : StorageVolumeSnapshot) :
    snapshotRow v (describeSnapshot ids description s) =
      describeRow ids description (snapshotRow v s) := by
  unfold describeRow describeSnapshot
  have : (snapshotRow v s).id = s.id := rfl
  rw [this]
  split <;> rfl

theorem snapshotRows_volumes_described (ids : List Int) (description : String)
    (volumes : List StorageVolume) (snapshots : List StorageVolumeSnapshot) :
    snapshotRows (volumes.map (describeRow ids description)) snapshots =
      snapshotRows volumes snapshots := by
  unfold snapshotRows
  rw [List.flatMap_map]
  congr 1
  funext v
  have hid : (describeRow ids description v).id = v.id := by
    unfold describeRow; split <;> rfl
  rw [hid]
  exact List.map_congr_left (fun s _ => snapshotRow_volume_described ids description v s)

theorem snapshotRows_snapshots_described (ids : List Int) (description : String)
    (volumes : List StorageVolume) (snapshots : List StorageVolumeSnapshot) :
    snapshotRows volumes (snapshots.map (describeSnapshot ids description)) =
      (snapshotRows volumes snapshots).map (describeRow ids description) := by
  unfold snapshotRows
  rw [List.map_flatMap]
  congr 1
  funext v
  rw [List.filter_map, List.map_map, List.map_map]
  have hf : (fun s : StorageVolumeSnapshot => decide (s.storage_volume_id = v.id)) ∘
      describeSnapshot ids description =
      fun s : StorageVolumeSnapshot => decide (s.storage_volume_id = v.id) := by
    funext s
    simp only [Function.comp, describeSnapshot]
    split <;> rfl
  rw [hf]
  exact List.map_congr_left (fun s _ => snapshotRow_snapshot_described ids description v s)


/-- The records of the identity after the change went through for all of `ids`: the
records before, those with one of the ids now carrying the new description. -/
theorem recordsOf_fold_updatedStore (description : String) (volumeConfig : GoMap)
    (ids : List Int) (tx : DB) (project : String) (poolID volumeType : Int)
    (volumeName : String)
    (hnames : ∀ v ∈ tx.storage_volumes, stringsContains v.name SnapshotDelimiter = false) :
    recordsOf (ids.foldl (updatedStore description volumeConfig
        (stringsContains volumeName SnapshotDelimiter)) tx) project poolID volumeType volumeName =
      (recordsOf tx project poolID volumeType volumeName).map (describeRow ids description) := by
  rw [recordsOf_tables, recordsOf_tables]
  cases hc : stringsContains volumeName SnapshotDelimiter
  · obtain ⟨h1, h2, h3⟩ := fold_updatedStore_volume description volumeConfig ids tx
    rw [h1, h2, h3, snapshotRows_volumes_described, filter_isRecord_describeRow,
      filter_isRecord_snapshotRows _ _ _ _ _ hc, List.append_nil, List.append_nil]
  · obtain ⟨h1, h2, h3⟩ := fold_updatedStore_snapshot description volumeConfig ids tx
    rw [h1, h2, h3, snapshotRows_snapshots_described, filter_isRecord_describeRow,
      filter_isRecord_volumes _ _ _ _ _ hc _ hnames, List.nil_append, List.nil_append]

/-- C3: for a remote-class pool, after a successful `UpdateStoragePoolVolume` with the
description `d` and the config `m`, the records sharing the identity `(project, pool, type,
name)` are the same `N >= 1` records as before (same ids, in the same order), every one of
them has the description `d`, and every one of them reads back the same config, the
non-empty entries of `m`. -/
theorem UpdateStoragePoolVolume_remote_consistent (driver : Driver)
    (remoteDrivers : List String) (localNodeID : Int) (db db1 : DB)
    (project volumeName : String) (volumeType poolID : Int) (d : String) (m : GoMap)
    (poolDriver : String)
    (hkeys : (m.map Prod.fst).Nodup)
    (hdrv : storagePoolDriverGet db poolID = .ok poolDriver)
    (hremote : poolDriver ∈ remoteDrivers)
    (hnames : ∀ v ∈ db.storage_volumes, stringsContains v.name SnapshotDelimiter = false)
    (hupd : Cluster.UpdateStoragePoolVolume driver remoteDrivers localNodeID db project
      volumeName volumeType poolID d m = (db1, none)) :
    (recordsOf db1 project poolID volumeType volumeName).map (fun v => v.id) =
        (recordsOf db project poolID volumeType volumeName).map (fun v => v.id) ∧
    recordsOf db1 project poolID volumeType volumeName ≠ [] ∧
    ∀ v ∈ recordsOf db1 project poolID volumeType volumeName,
      v.description = d ∧
        ClusterTx.storageVolumeConfigGet db1 v.id (stringsContains volumeName SnapshotDelimiter) =
          .ok (m.filter (fun e => decide (e.2 ≠ ""))) := by
  unfold Cluster.UpdateStoragePoolVolume at hupd
  cases hlocal : Cluster.GetLocalStoragePoolVolume remoteDrivers localNodeID db project
      volumeName volumeType poolID with
  | error err => rw [hlocal] at hupd; cases hupd
  | ok res =>
    obtain ⟨volumeID, vol⟩ := res
    rw [hlocal] at hupd
    obtain ⟨poolDriver', hdrv', hloop⟩ := storagePoolVolumeReplicateIfCeph_success _ _ _ _ _ _ _
      _ _ (Transaction_success db db1 _ hupd)
    rw [hdrv] at hdrv'
    cases hdrv'
    rw [if_pos hremote] at hloop
    have hfold := updateLoop_success driver d m _ _ db db1 hloop
    have hrec := recordsOf_fold_updatedStore d m
      (storageVolumeIDsGet db project volumeName volumeType poolID) db project poolID volumeType
      volumeName hnames
    rw [← hfold] at hrec
    have hid : ∀ v : StorageVolume,
        (describeRow (storageVolumeIDsGet db project volumeName volumeType poolID) d v).id =
          v.id := by
      intro v; unfold describeRow; split <;> rfl
    refine ⟨?_, ?_, ?_⟩
    · rw [hrec, List.map_map]
      exact List.map_congr_left (fun v _ => hid v)
    · obtain ⟨v, hv, _⟩ := GetLocalStoragePoolVolume_id _ _ _ _ _ _ _ _ _ hlocal
      rw [hrec]
      intro h
      rw [List.map_eq_nil_iff] at h
      rw [h] at hv
      exact List.not_mem_nil _ hv
    · intro v1 hv1
      rw [hrec] at hv1
      obtain ⟨v, hv, rfl⟩ := List.mem_map.mp hv1
      have hmem : v.id ∈ storageVolumeIDsGet db project volumeName volumeType poolID :=
        mem_storageVolumeIDsGet.mpr ⟨v, hv, rfl⟩
      constructor
      · unfold describeRow
        rw [if_pos hmem]
      · rw [hid v]
        apply storageVolumeConfigGet_of_insertedRows db1 v.id _ m hkeys
        rw [hfold]
        exact configRows_fold_mem d m _ v.id _ db hmem

/-- C3 at the example store: `data` has two legacy records on the remote pool, on the
members 1 and 2; after the update both carry the description `new desc`, a direct read of
either record's description shows it, and both read back the config `a = "1"`. -/
theorem UpdateStoragePoolVolume_remote_consistent_witness :
    ([("a", "1"), ("b", "")].map Prod.fst).Nodup ∧
      storagePoolDriverGet exampleDB 1 = .ok "ceph" ∧ "ceph" ∈ exampleRemoteDrivers ∧
      (∀ v ∈ exampleDB.storage_volumes, stringsContains v.name SnapshotDelimiter = false) ∧
      (recordsOf exampleDB "default" 1 2 "data").map (fun v => v.node_id) = [some 1, some 2] ∧
      (∀ v ∈ recordsOf (Cluster.UpdateStoragePoolVolume Driver.accepting exampleRemoteDrivers 1
            exampleDB "default" "data" 2 1 "new desc" [("a", "1"), ("b", "")]).1
          "default" 1 2 "data",
        v.description = "new desc" ∧
          ClusterTx.storageVolumeConfigGet
            (Cluster.UpdateStoragePoolVolume Driver.accepting exampleRemoteDrivers 1 exampleDB
              "default" "data" 2 1 "new desc" [("a", "1"), ("b", "")]).1 v.id
            (stringsContains "data" SnapshotDelimiter) =
            .ok ([("a", "1"), ("b", "")].filter (fun e => decide (e.2 ≠ "")))) ∧
      Cluster.GetStorageVolumeDescription
          (Cluster.UpdateStoragePoolVolume Driver.accepting exampleRemoteDrivers 1 exampleDB
            "default" "data" 2 1 "new desc" [("a", "1"), ("b", "")]).1 1 = .ok "new desc" ∧
      Cluster.GetStorageVolumeDescription
          (Cluster.UpdateStoragePoolVolume Driver.accepting exampleRemoteDrivers 1 exampleDB
            "default" "data" 2 1 "new desc" [("a", "1"), ("b", "")]).1 2 = .ok "new desc" :=
  ⟨by decide, rfl, by decide, by decide, by rfl,
    (UpdateStoragePoolVolume_remote_consistent Driver.accepting exampleRemoteDrivers 1 exampleDB
      _ "default" "data" 2 1 "new desc" [("a", "1"), ("b", "")] "ceph" (by decide) rfl
      (by decide) (by decide) (by rfl)).2.2,
    by rfl, by rfl⟩



/-! ## The scan of `fmt.Sscanf`

The space test is kept folded while the scan is unfolded. -/

section

attribute [local irreducible] isSpace

theorem advance_length_aux : ∀ (n : Nat) (format : List Char), format.length ≤ n →
    ∀ (run : Option (Nat × Bool)) (input format1 input1 : List Char),
    advance format run input = .stopped format1 input1 → format1.length ≤ format.length := by
  intro n
  induction n with
  | zero =>
    intro format hn run input format1 input1 h
    have hnil : format = [] := List.length_eq_zero.mp (Nat.le_zero.mp hn)
    subst hnil
    unfold advance at h
    split at h
    · cases h
    · cases h; exact le_refl _
  | succ n ih =>
    intro format hn run input format1 input1 h
    cases format with
    | nil =>
      unfold advance at h
      split at h
      · cases h
      · cases h; exact le_refl _
    | cons c format =>
      have hlen : format.length ≤ n := by
        simp only [List.length_cons] at hn
        omega
      unfold advance at h
      split at h
      · exact Nat.le_succ_of_le (ih format hlen _ _ _ _ h)
      · split at h
        · cases h
        · split at h
          · split at h
            · cases h
            · rename_i next format2
              split at h
              · split at h
                · cases h
                · split at h
                  · have := ih format2 (by simp only [List.length_cons] at hlen; omega) _ _ _ _ h
                    simp only [List.length_cons]
                    omega
                  · cases h
              · cases h; exact le_refl _
          · split at h
            · cases h
            · split at h
              · exact Nat.le_succ_of_le (ih format hlen _ _ _ _ h)
              · cases h

/-- What `advance` leaves of the format is not longer than the format. -/
theorem advance_length (format : List Char) (run : Option (Nat × Bool))
    (input format1 input1 : List Char)
    (h : advance format run input = .stopped format1 input1) :
    format1.length ≤ format.length :=
  advance_length_aux format.length format (le_refl _) run input format1 input1 h

/-- A verb takes at least its own character off the format. -/
theorem scanVerb_length (rest input : List Char) (count : Nat) (num : Int)
    (format1 input1 : List Char) (count1 : Nat) (num1 : Int)
    (h : scanVerb rest input count num = .next format1 input1 count1 num1) :
    format1.length < rest.length := by
  unfold scanVerb at h
  split at h
  · cases h
  · rename_i c rest1
    split at h
    · cases h
    · split at h
      · cases h
      · split at h
        · split at h
          · cases h
          · cases h
          · split at h
            · cases h; simp
            · cases h
        · split at h
          · cases h
          · split at h
            · split at h
              · cases h
              · cases h; simp
            · split at h <;> cases h

/-- More fuel than the format has characters is never used up: the scan is the same for
any two such amounts of fuel. -/
theorem doScanf_fuel : ∀ (fuel1 fuel2 : Nat) (format input : List Char) (count : Nat)
    (num : Int), format.length < fuel1 → format.length < fuel2 →
    doScanf fuel1 format input count num = doScanf fuel2 format input count num := by
  intro fuel1
  induction fuel1 with
  | zero => intro fuel2 format input count num h1; exact absurd h1 (Nat.not_lt_zero _)
  | succ fuel1 ih =>
    intro fuel2 format input count num h1 h2
    cases fuel2 with
    | zero => exact absurd h2 (Nat.not_lt_zero _)
    | succ fuel2 =>
      cases format with
      | nil => rfl
      | cons f rest =>
        simp only [List.length_cons] at h1 h2
        rw [doScanf, doScanf]
        cases hadv : advance (f :: rest) none input with
        | failed err => rfl
        | stopped format1 input1 =>
          have hle := advance_length (f :: rest) none input format1 input1 hadv
          simp only [List.length_cons] at hle
          cases format1 with
          | nil => rfl
          | cons c rest1 =>
            simp only
            by_cases hc : c = '%'
            · simp only [hc, if_true]
              cases hv : scanVerb rest1 input1 count num with
              | done result => rfl
              | next format2 input2 count2 num2 =>
                have hlt := scanVerb_length rest1 input1 count num format2 input2 count2 num2 hv
                simp only [List.length_cons] at hle
                exact ih fuel2 format2 input2 count2 num2 (by omega) (by omega)
            · simp only [hc, if_false]
        | mismatch input1 =>
          simp only
          by_cases hf : f = '%'
          · simp only [hf, if_true]
            cases hv : scanVerb rest input1 count num with
            | done result => rfl
            | next format2 input2 count2 num2 =>
              have hlt := scanVerb_length rest input1 count num format2 input2 count2 num2 hv
              exact ih fuel2 format2 input2 count2 num2 (by omega) (by omega)
          · simp only [hf, if_false]

/-- The scan of `Sscanf` is the scan with any fuel above the length of the format. -/
theorem Sscanf_fuel (str format : String) (fuel : Nat) (h : format.data.length < fuel) :
    doScanf fuel format.data str.data 0 0 = Sscanf str format :=
  doScanf_fuel fuel (format.data.length + 1) format.data str.data 0 0 h (Nat.lt_succ_self _)

end


/-! ## The next snapshot index -/

theorem wrapInt64_of_range (n : Int) (h0 : -9223372036854775808 ≤ n)
    (h1 : n < 9223372036854775808) : wrapInt64 n = n := by
  unfold wrapInt64
  omega

/-- A separator that occurs in a string is found by `cutAt`. -/
theorem cutAt_of_infix (sep : List Char) :
    ∀ s : List Char, sep <:+: s → sep ≠ [] → ∃ p, cutAt sep s = some p := by
  intro s
  induction s with
  | nil =>
    intro h hne
    exact absurd (List.eq_nil_of_infix_nil h) hne
  | cons c cs ih =>
    intro h hne
    rw [cutAt]
    by_cases hp : sep <+: (c :: cs)
    · rw [if_pos hp]; exact ⟨_, rfl⟩
    · rw [if_neg hp]
      rcases List.infix_cons_iff.mp h with h' | h'
      · exact absurd h' hp
      · obtain ⟨p, hp'⟩ := ih h' hne
        exact ⟨_, by rw [hp']; rfl⟩

/-- A pattern that holds `%d` splits into the two fields around its first `%d`. -/
theorem stringsSplitN_of_contains (pattern : String)
    (h : stringsContains pattern "%d" = true) :
    ∃ field0 field1, stringsSplitN pattern "%d" 2 = [field0, field1] := by
  unfold stringsContains at h
  simp only [decide_eq_true_eq] at h
  obtain ⟨p, hp⟩ := cutAt_of_infix "%d".data pattern.data h (by decide)
  unfold stringsSplitN
  rw [if_neg (by decide)]
  simp only [splitNFields, hp]
  exact ⟨_, _, rfl⟩

/-- The loop of `GetNextStorageVolumeSnapshotIndex` from a value of `max` that is not
negative, when no parsed number is the largest `int`: it returns, and what it returns is
`max` or one more than a parsed number, and is above every parsed number. -/
theorem nextIndexLoop_spec (pattern field0 field1 : String)
    (hfields : stringsSplitN pattern "%d" 2 = [field0, field1]) :
    ∀ (names : List String) (max : Int), 0 ≤ max → max < 9223372036854775808 →
      (∀ n ∈ parsedIndexes pattern names, n < 9223372036854775807) →
      ∃ r, nextIndexLoop pattern names max = some r ∧ max ≤ r ∧ r < 9223372036854775808 ∧
        (∀ n ∈ parsedIndexes pattern names, n < r) ∧
        (r = max ∨ r - 1 ∈ parsedIndexes pattern names) := by
  intro names
  induction names with
  | nil =>
    intro max _ hmax _
    exact ⟨max, rfl, le_refl _, hmax, by simp [parsedIndexes], Or.inl rfl⟩
  | cons name names ih =>
    intro max h0 hmax hbound
    have hstep : nextIndexLoop pattern (name :: names) max =
        match parsedIndex pattern name with
        | none => nextIndexLoop pattern names max
        | some n =>
          if n ≥ max then nextIndexLoop pattern names (wrapInt64 (n + 1))
          else nextIndexLoop pattern names max := by
      rw [nextIndexLoop]
      simp only [parsedIndex, hfields, List.getElem?_cons_zero, List.getElem?_cons_succ]
      split <;> rfl
    rw [hstep]
    cases hp : parsedIndex pattern name with
    | none =>
      have hpi : parsedIndexes pattern (name :: names) = parsedIndexes pattern names := by
        simp [parsedIndexes, List.filterMap_cons, hp]
      rw [hpi] at hbound ⊢
      exact ih max h0 hmax hbound
    | some n =>
      have hpi : parsedIndexes pattern (name :: names) = n :: parsedIndexes pattern names := by
        simp [parsedIndexes, List.filterMap_cons, hp]
      rw [hpi] at hbound ⊢
      have hn := hbound n (List.mem_cons_self _ _)
      have hrest : ∀ k ∈ parsedIndexes pattern names, k < 9223372036854775807 :=
        fun k hk => hbound k (List.mem_cons_of_mem _ hk)
      simp only
      by_cases hge : n ≥ max
      · rw [if_pos hge, wrapInt64_of_range (n + 1) (by omega) (by omega)]
        obtain ⟨r, hr, hle, hlt, hall, hor⟩ := ih (n + 1) (by omega) (by omega) hrest
        refine ⟨r, hr, by omega, hlt, ?_, ?_⟩
        · intro k hk
          rcases List.mem_cons.mp hk with rfl | hk
          · omega
          · exact hall k hk
        · rcases hor with rfl | hmem
          · right; simp
          · right; exact List.mem_cons_of_mem _ hmem
      · rw [if_neg hge]
        obtain ⟨r, hr, hle, hlt, hall, hor⟩ := ih max h0 hmax hrest
        refine ⟨r, hr, hle, hlt, ?_, ?_⟩
        · intro k hk
          rcases List.mem_cons.mp hk with rfl | hk
          · omega
          · exact hall k hk
        · rcases hor with rfl | hmem
          · left; rfl
          · right; exact List.mem_cons_of_mem _ hmem

/-- C12, refuted as stated: the only snapshot of `vol` is named `snap-5`, which parses
against `snap%d` to the number `-5`; the index returned is `0`, not one more than the
largest number parsed. -/
theorem GetNextStorageVolumeSnapshotIndex_negative_counterexample :
    parsedIndexes "snap%d" (snapshotNames exampleRemoteDrivers 1 (snapshotsDB ["snap-5"]) "local"
        "vol" 2) = [-5] ∧
      Cluster.GetNextStorageVolumeSnapshotIndex exampleRemoteDrivers 1 (snapshotsDB ["snap-5"])
        "local" "vol" 2 "snap%d" = some 0 :=
  ⟨by rfl, by rfl⟩

/-- C12, amended: for a pattern with exactly one `%d` placeholder, its only percent sign,
and any existing snapshot names none of which parses to the largest `int`,
`GetNextStorageVolumeSnapshotIndex` returns the larger of `0` and one more than the largest
number parsed: the result is not negative, is above every parsed number, and is `0` or one
more than a parsed number; names that do not parse play no part, and it is `0` when no
name parses. -/
theorem GetNextStorageVolumeSnapshotIndex_max (remoteDrivers : List String)
    (localNodeID : Int) (db : DB) (pool name : String) (typ : Int) (pattern : String)
    (hpattern : onePlaceholder pattern = true)
    (hbound : ∀ n ∈ parsedIndexes pattern
        (snapshotNames remoteDrivers localNodeID db pool name typ), n < 9223372036854775807) :
    ∃ r, Cluster.GetNextStorageVolumeSnapshotIndex remoteDrivers localNodeID db pool name typ
          pattern = some r ∧
      0 ≤ r ∧
      (∀ n ∈ parsedIndexes pattern (snapshotNames remoteDrivers localNodeID db pool name typ),
        n < r) ∧
      (r = 0 ∨ r - 1 ∈ parsedIndexes pattern
        (snapshotNames remoteDrivers localNodeID db pool name typ)) ∧
      (parsedIndexes pattern (snapshotNames remoteDrivers localNodeID db pool name typ) = [] →
        r = 0) := by
  have hcontains : stringsContains pattern "%d" = true := by
    unfold onePlaceholder at hpattern
    rw [Bool.and_eq_true] at hpattern
    exact hpattern.1
  obtain ⟨field0, field1, hfields⟩ := stringsSplitN_of_contains pattern hcontains
  obtain ⟨r, hr, hle, _, hall, hor⟩ := nextIndexLoop_spec pattern field0 field1 hfields
    (snapshotNames remoteDrivers localNodeID db pool name typ) 0 (le_refl _) (by decide) hbound
  refine ⟨r, hr, hle, hall, hor, ?_⟩
  intro hnil
  rcases hor with h | h
  · exact h
  · rw [hnil] at h
    exact absurd h (List.not_mem_nil _)

/-- C12, amended, at the example of the claim: with the snapshots `snap0`, `snap2` and
`other` and the pattern `snap%d` the index is `3`.  A name goes on after its number:
`snap1_old` parses to `1`, so with `snap0` and `snap1_old` the index is `2`. -/
theorem GetNextStorageVolumeSnapshotIndex_max_witness :
    onePlaceholder "snap%d" = true ∧
      parsedIndexes "snap%d" (snapshotNames exampleRemoteDrivers 1
        (snapshotsDB ["snap0", "snap2", "other"]) "local" "vol" 2) = [0, 2] ∧
      Cluster.GetNextStorageVolumeSnapshotIndex exampleRemoteDrivers 1
        (snapshotsDB ["snap0", "snap2", "other"]) "local" "vol" 2 "snap%d" = some 3 ∧
      parsedIndexes "snap%d" (snapshotNames exampleRemoteDrivers 1
        (snapshotsDB ["snap0", "snap1_old"]) "local" "vol" 2) = [0, 1] ∧
      Cluster.GetNextStorageVolumeSnapshotIndex exampleRemoteDrivers 1
        (snapshotsDB ["snap0", "snap1_old"]) "local" "vol" 2 "snap%d" = some 2 ∧
      ∃ r, Cluster.GetNextStorageVolumeSnapshotIndex exampleRemoteDrivers 1
          (snapshotsDB ["snap0", "snap2", "other"]) "local" "vol" 2 "snap%d" = some r ∧ 0 ≤ r :=
  ⟨by decide, by rfl, by rfl, by rfl, by rfl,
    (GetNextStorageVolumeSnapshotIndex_max exampleRemoteDrivers 1
      (snapshotsDB ["snap0", "snap2", "other"]) "local" "vol" 2 "snap%d" (by decide)
      (by
        have h : parsedIndexes "snap%d" (snapshotNames exampleRemoteDrivers 1
            (snapshotsDB ["snap0", "snap2", "other"]) "local" "vol" 2) = [0, 2] := by rfl
        rw [h]
        decide)).imp (fun _ h => ⟨h.1, h.2.1⟩)⟩

/-- C13, at the failing input: the only snapshot of `vol` is named
`snap9223372036854775807`, which parses against `snap%d` to the largest `int`; `num + 1`
wraps and the index returned is negative, `-9223372036854775808`. -/
theorem GetNextStorageVolumeSnapshotIndex_overflow :
    parsedIndexes "snap%d" (snapshotNames exampleRemoteDrivers 1
        (snapshotsDB ["snap9223372036854775807"]) "local" "vol" 2) = [9223372036854775807] ∧
      Cluster.GetNextStorageVolumeSnapshotIndex exampleRemoteDrivers 1
        (snapshotsDB ["snap9223372036854775807"]) "local" "vol" 2 "snap%d" =
        some (-9223372036854775808) :=
  ⟨by rfl, by rfl⟩

/-- C14, at the failing input: the pattern `snap` holds no `%d`, so `strings.SplitN` returns
the one field `snap`, and with the one snapshot `snap0` to scan the access `fields[1]` is
out of range: the call panics instead of returning an integer. -/
theorem GetNextStorageVolumeSnapshotIndex_no_placeholder :
    stringsSplitN "snap" "%d" 2 = ["snap"] ∧
      snapshotNames exampleRemoteDrivers 1 (snapshotsDB ["snap0"]) "local" "vol" 2 = ["snap0"] ∧
      Cluster.GetNextStorageVolumeSnapshotIndex exampleRemoteDrivers 1 (snapshotsDB ["snap0"])
        "local" "vol" 2 "snap" = none :=
  ⟨by rfl, by rfl, by rfl⟩


/-! ## The snapshots of a volume, in creation order -/

theorem innerJoin_append {α β : Type} (l1 l2 : List α) (r : List β) (cond : α → β → Bool) :
    innerJoin (l1 ++ l2) r cond = innerJoin l1 r cond ++ innerJoin l2 r cond := by
  simp [innerJoin, List.flatMap_append]

theorem innerJoin_nil {α β : Type} (r : List β) (cond : α → β → Bool) :
    innerJoin ([] : List α) r cond = [] := rfl

theorem innerJoin_singleton {α β : Type} (a : α) (r : List β) (cond : α → β → Bool) :
    innerJoin [a] r cond = (r.filter (cond a)).map (fun b => (a, b)) := by
  simp [innerJoin]

/-- The rows one snapshot contributes to the query of
`GetLocalStoragePoolVolumeSnapshotsWithType`: itself when its parent is the volume of the
identity on the member, nothing otherwise. -/
theorem snapshotQueryRows_single (remoteDrivers : List String) (localNodeID : Int) (tx : DB)
    (projectName volumeName : String) (volumeType poolID : Int)
    (hvol : (tx.storage_volumes.map (fun v => v.id)).Nodup)
    (hproj : (tx.projects.map Project.id).Nodup)
    (hpool : (tx.storage_pools.map StoragePool.id).Nodup) (s : StorageVolumeSnapshot) :
    (((innerJoin
        (innerJoin
          ((tx.storage_volumes.filter (fun v => decide (s.storage_volume_id = v.id))).map
            (fun v => (s, v)))
          tx.projects (fun sv p => decide (p.id = sv.2.project_id)))
        tx.storage_pools (fun svp pool => decide (pool.id = svp.1.2.storage_pool_id))).filter
      (fun r => decide (r.1.1.2.storage_pool_id = poolID) && decide (r.1.1.2.type = volumeType)
        && decide (r.1.1.2.name = volumeName) && decide (r.1.2.name = projectName)
        && onMember remoteDrivers localNodeID r.1.1.2 r.2)).map (fun r => r.1.1.1)) =
    if tx.storage_volumes.any (fun v =>
        decide (s.storage_volume_id = v.id) &&
          isParent remoteDrivers tx projectName poolID volumeType volumeName localNodeID v) = true
    then [s] else [] := by
  rw [any_and_filter]
  rcases filter_unique_key (fun v : StorageVolume => v.id)
      (fun v => decide (s.storage_volume_id = v.id))
      (by intro x y hx hy; simp only [decide_eq_true_eq] at hx hy; exact hx.symm.trans hy)
      tx.storage_volumes hvol with hV | ⟨v, hV⟩
  · rw [hV]; simp [innerJoin_nil]
  · rw [hV]
    simp only [List.map_cons, List.map_nil, innerJoin_singleton, List.any_cons, List.any_nil,
      Bool.or_false, isParent]
    rw [any_and_filter, any_and_filter]
    rcases filter_unique_key Project.id (fun p => decide (p.id = v.project_id))
        (by intro x y hx hy; simp only [decide_eq_true_eq] at hx hy; rw [hx, hy])
        tx.projects hproj with hP | ⟨p, hP⟩
    · rw [hP]; simp [innerJoin_nil]
    · rw [hP]
      simp only [List.map_cons, List.map_nil, innerJoin_singleton]
      rcases filter_unique_key StoragePool.id (fun pool => decide (pool.id = v.storage_pool_id))
          (by intro x y hx hy; simp only [decide_eq_true_eq] at hx hy; rw [hx, hy])
          tx.storage_pools hpool with hQ | ⟨pool, hQ⟩
      · rw [hQ]; simp
      · rw [hQ]
        simp only [List.map_cons, List.map_nil, List.any_cons, List.any_nil, Bool.or_false]
        by_cases h : (decide (v.storage_pool_id = poolID) && decide (v.type = volumeType)
            && decide (v.name = volumeName) && decide (p.name = projectName)
            && onMember remoteDrivers localNodeID v pool) = true
        · rw [List.filter_cons, if_pos h]
          simp only [Bool.and_eq_true, decide_eq_true_eq] at h
          simp [h.1.1.1.1, h.1.1.1.2, h.1.1.2, h.1.2, h.2]
        · rw [List.filter_cons, if_neg h]
          simp only [Bool.and_eq_true, decide_eq_true_eq] at h
          simp only [List.filter_nil, List.map_nil, Bool.and_eq_true, decide_eq_true_eq]
          rw [if_neg (by tauto)]

/-- Under the primary keys of the volume, project and pool tables, the query of
`GetLocalStoragePoolVolumeSnapshotsWithType` selects the snapshots of the resolved volume,
one row per snapshot. -/
theorem snapshotQueryRows_eq (remoteDrivers : List String) (localNodeID : Int) (tx : DB)
    (projectName volumeName : String) (volumeType poolID : Int)
    (hvol : (tx.storage_volumes.map (fun v => v.id)).Nodup)
    (hproj : (tx.projects.map Project.id).Nodup)
    (hpool : (tx.storage_pools.map StoragePool.id).Nodup) :
    (snapshotQueryRows remoteDrivers localNodeID tx projectName volumeName volumeType
        poolID).map (fun r => r.1.1.1) =
      snapshotsOfVolume remoteDrivers tx projectName poolID volumeType volumeName localNodeID := by
  unfold snapshotQueryRows snapshotsOfVolume
  generalize tx.storage_volumes_snapshots = snaps
  induction snaps with
  | nil => rfl
  | cons s snaps ih =>
    rw [innerJoin_cons, innerJoin_append, innerJoin_append, List.filter_append, List.map_append,
      ih, snapshotQueryRows_single remoteDrivers localNodeID tx projectName volumeName volumeType
        poolID hvol hproj hpool s]
    by_cases h : tx.storage_volumes.any (fun v =>
        decide (s.storage_volume_id = v.id) &&
          isParent remoteDrivers tx projectName poolID volumeType volumeName localNodeID v) = true
    · rw [if_pos h, List.filter_cons, if_pos h]; rfl
    · rw [if_neg h, List.filter_cons, if_neg h]; rfl


/-- The scan keeps the rows in their order: each snapshot it returns has the id of its row
and the name `volumeName + delimiter + short name`. -/
theorem scanSnapshotRows_ok (projectName volumeName : String) (poolID : Int) :
    ∀ (rows : List (((StorageVolumeSnapshot × StorageVolume) × Project) × StoragePool))
      (snapshots : List StorageVolumeArgs),
      scanSnapshotRows projectName volumeName poolID rows = .ok snapshots →
      snapshots.map (fun s => (s.ID, s.Name)) =
        rows.map (fun r => (r.1.1.1.id, volumeName ++ SnapshotDelimiter ++ r.1.1.1.name)) := by
  intro rows
  induction rows with
  | nil =>
    intro snapshots h
    simp only [scanSnapshotRows, Except.ok.injEq] at h
    subst h
    rfl
  | cons r rows ih =>
    intro snapshots h
    rw [scanSnapshotRows] at h
    cases hr : scanSnapshotRow projectName volumeName poolID r with
    | error err => rw [hr] at h; cases h
    | ok s =>
      rw [hr] at h
      cases hrest : scanSnapshotRows projectName volumeName poolID rows with
      | error err => rw [hrest] at h; cases h
      | ok rest =>
        rw [hrest] at h
        simp only [Except.ok.injEq] at h
        subst h
        have hs : (s.ID, s.Name) =
            (r.1.1.1.id, volumeName ++ SnapshotDelimiter ++ r.1.1.1.name) := by
          unfold scanSnapshotRow at hr
          split at hr
          · cases hr
          · cases hr; rfl
        rw [List.map_cons, List.map_cons, hs, ih rest hrest]

/-- The scan returns when the content type of every row is a valid one. -/
theorem scanSnapshotRows_returns (projectName volumeName : String) (poolID : Int) :
    ∀ (rows : List (((StorageVolumeSnapshot × StorageVolume) × Project) × StoragePool)),
      (∀ r ∈ rows, r.1.1.2.content_type = 0 ∨ r.1.1.2.content_type = 1) →
      ∃ snapshots, scanSnapshotRows projectName volumeName poolID rows = .ok snapshots := by
  intro rows
  induction rows with
  | nil => intro _; exact ⟨[], rfl⟩
  | cons r rows ih =>
    intro h
    obtain ⟨rest, hrest⟩ := ih (fun r' hr' => h r' (List.mem_cons_of_mem _ hr'))
    have hr : ∃ s, scanSnapshotRow projectName volumeName poolID r = .ok s := by
      unfold scanSnapshotRow storagePoolVolumeContentTypeToName
      rcases h r (List.mem_cons_self _ _) with h0 | h1
      · rw [h0]; exact ⟨_, rfl⟩
      · rw [h1]; exact ⟨_, rfl⟩
    obtain ⟨s, hs⟩ := hr
    exact ⟨s :: rest, by rw [scanSnapshotRows, hs, hrest]⟩

/-- The config loop keeps the snapshots, their ids and their names. -/
theorem populateSnapshotConfig_ok (tx : DB) :
    ∀ (snapshots populated : List StorageVolumeArgs),
      populateSnapshotConfig tx snapshots = .ok populated →
      populated.map (fun s => (s.ID, s.Name)) = snapshots.map (fun s => (s.ID, s.Name)) := by
  intro snapshots
  induction snapshots with
  | nil =>
    intro populated h
    simp only [populateSnapshotConfig, Except.ok.injEq] at h
    subst h
    rfl
  | cons s snapshots ih =>
    intro populated h
    rw [populateSnapshotConfig] at h
    cases hc : storageVolumeSnapshotConfig tx s.ID with
    | error err => rw [hc] at h; cases h
    | ok config =>
      rw [hc] at h
      cases hrest : populateSnapshotConfig tx snapshots with
      | error err => rw [hrest] at h; cases h
      | ok rest =>
        rw [hrest] at h
        simp only [Except.ok.injEq] at h
        subst h
        rw [List.map_cons, List.map_cons, ih rest hrest]

theorem mapFound_fresh (m : GoMap) (key : String) (h : key ∉ m.map Prod.fst) :
    mapFound m key = false := by
  unfold mapFound
  rw [Bool.eq_false_iff]
  intro hany
  rw [List.any_eq_true] at hany
  obtain ⟨e, he, hk⟩ := hany
  simp only [decide_eq_true_eq] at hk
  exact h (hk ▸ List.mem_map_of_mem Prod.fst he)

/-- The scan of `storageVolumeSnapshotConfig` returns on rows with pairwise distinct keys
that are not in the map read so far. -/
theorem snapshotConfigScan_returns (volumeSnapshotID : Int) :
    ∀ (rows : List ConfigRow) (config : GoMap),
      (rows.map (fun r => r.key)).Nodup →
      (∀ r ∈ rows, r.key ∉ config.map Prod.fst) →
      ∃ m, snapshotConfigScan volumeSnapshotID config rows = .ok m := by
  intro rows
  induction rows with
  | nil => intro config _ _; exact ⟨config, rfl⟩
  | cons r rows ih =>
    intro config hnd hfresh
    rw [List.map_cons, List.nodup_cons] at hnd
    have hr := hfresh r (List.mem_cons_self _ _)
    rw [snapshotConfigScan, snapshotConfigStep, mapFound_fresh config r.key hr]
    simp only [Bool.false_eq_true, if_false]
    apply ih _ hnd.2
    intro r' hr' hmem
    rw [mapSet_fresh config r.key r.value hr] at hmem
    simp only [List.map_append, List.map_cons, List.map_nil, List.mem_append,
      List.mem_singleton] at hmem
    rcases hmem with hmem | hmem
    · exact hfresh r' (List.mem_cons_of_mem _ hr') hmem
    · exact hnd.1 (hmem ▸ List.mem_map_of_mem (fun r => r.key) hr')

/-- The config loop returns when none of the snapshots has a key stored twice. -/
theorem populateSnapshotConfig_returns (tx : DB) :
    ∀ snapshots : List StorageVolumeArgs,
      (∀ s ∈ snapshots, ((tx.storage_volumes_snapshots_config.filter
        (fun r => decide (r.owner = s.ID))).map (fun r => r.key)).Nodup) →
      ∃ populated, populateSnapshotConfig tx snapshots = .ok populated := by
  intro snapshots
  induction snapshots with
  | nil => intro _; exact ⟨[], rfl⟩
  | cons s snapshots ih =>
    intro hkeys
    obtain ⟨rest, hrest⟩ := ih (fun s' hs' => hkeys s' (List.mem_cons_of_mem _ hs'))
    obtain ⟨m, hm⟩ := snapshotConfigScan_returns s.ID _ []
      (hkeys s (List.mem_cons_self _ _)) (by simp)
    refine ⟨{ s with Config := m } :: rest, ?_⟩
    rw [populateSnapshotConfig]
    unfold storageVolumeSnapshotConfig
    rw [hm, hrest]

/-- C11: under the primary keys of the snapshot, volume, project and pool tables, the
snapshots `GetLocalStoragePoolVolumeSnapshotsWithType` returns are the snapshots of the
resolved volume, each once, in strictly ascending order of their snapshot ids (creation
order, oldest first) whatever their names, each named `volumeName + delimiter + short
name`; and the call returns them whenever the content types stored are valid and no
snapshot has a config key stored twice. -/
theorem GetLocalStoragePoolVolumeSnapshotsWithType_ordered (remoteDrivers : List String)
    (localNodeID : Int) (db : DB) (projectName volumeName : String) (volumeType poolID : Int)
    (hsnap : (db.storage_volumes_snapshots.map (fun s => s.id)).Nodup)
    (hvol : (db.storage_volumes.map (fun v => v.id)).Nodup)
    (hproj : (db.projects.map Project.id).Nodup)
    (hpool : (db.storage_pools.map StoragePool.id).Nodup) :
    (∀ snapshots,
      Cluster.GetLocalStoragePoolVolumeSnapshotsWithType remoteDrivers localNodeID db projectName
          volumeName volumeType poolID = .ok snapshots →
      (snapshots.map (fun s => s.ID)).Sorted (· < ·) ∧
        (snapshots.map (fun s => s.ID)).Perm
          ((snapshotsOfVolume remoteDrivers db projectName poolID volumeType volumeName
            localNodeID).map (fun s => s.id)) ∧
        ∀ s ∈ snapshots,
          ∃ row ∈ snapshotsOfVolume remoteDrivers db projectName poolID volumeType volumeName
              localNodeID,
            row.id = s.ID ∧ s.Name = volumeName ++ SnapshotDelimiter ++ row.name) ∧
    ((∀ v ∈ db.storage_volumes, v.content_type = 0 ∨ v.content_type = 1) →
      (∀ s ∈ db.storage_volumes_snapshots, ((db.storage_volumes_snapshots_config.filter
        (fun r => decide (r.owner = s.id))).map (fun r => r.key)).Nodup) →
      ∃ snapshots,
        Cluster.GetLocalStoragePoolVolumeSnapshotsWithType remoteDrivers localNodeID db
          projectName volumeName volumeType poolID = .ok snapshots) := by
  have hrows := snapshotQueryRows_eq remoteDrivers localNodeID db projectName volumeName
    volumeType poolID hvol hproj hpool
  letI : IsTotal (((StorageVolumeSnapshot × StorageVolume) × Project) × StoragePool)
      (fun a b => a.1.1.1.id ≤ b.1.1.1.id) := ⟨fun a b => le_total _ _⟩
  letI : IsTrans (((StorageVolumeSnapshot × StorageVolume) × Project) × StoragePool)
      (fun a b => a.1.1.1.id ≤ b.1.1.1.id) := ⟨fun a b c hab hbc => le_trans hab hbc⟩
  have hsorted := List.sorted_insertionSort (fun a b => a.1.1.1.id ≤ b.1.1.1.id)
    (snapshotQueryRows remoteDrivers localNodeID db projectName volumeName volumeType poolID)
  have hperm := List.perm_insertionSort (fun a b => a.1.1.1.id ≤ b.1.1.1.id)
    (snapshotQueryRows remoteDrivers localNodeID db projectName volumeName volumeType poolID)
  constructor
  · intro snapshots h
    unfold Cluster.GetLocalStoragePoolVolumeSnapshotsWithType at h
    cases hscan : scanSnapshotRows projectName volumeName poolID
        ((snapshotQueryRows remoteDrivers localNodeID db projectName volumeName volumeType
          poolID).insertionSort (fun a b => a.1.1.1.id ≤ b.1.1.1.id)) with
    | error err => rw [hscan] at h; cases h
    | ok scanned =>
      rw [hscan] at h
      simp only at h
      have h1 := scanSnapshotRows_ok projectName volumeName poolID _ scanned hscan
      have h2 := populateSnapshotConfig_ok db scanned snapshots h
      rw [h1] at h2
      have hids : snapshots.map (fun s => s.ID) =
          ((snapshotQueryRows remoteDrivers localNodeID db projectName volumeName volumeType
            poolID).insertionSort (fun a b => a.1.1.1.id ≤ b.1.1.1.id)).map
            (fun r => r.1.1.1.id) := by
        have := congrArg (List.map Prod.fst) h2
        simpa only [List.map_map, Function.comp] using this
      have hpermIDs : (snapshots.map (fun s => s.ID)).Perm
          ((snapshotsOfVolume remoteDrivers db projectName poolID volumeType volumeName
            localNodeID).map (fun s => s.id)) := by
        rw [hids, ← hrows, List.map_map]
        exact hperm.map _
      have hnodup : (snapshots.map (fun s => s.ID)).Nodup := by
        rw [hpermIDs.nodup_iff]
        exact List.Nodup.sublist (List.Sublist.map _ (List.filter_sublist _)) hsnap
      have hle : (snapshots.map (fun s => s.ID)).Sorted (· ≤ ·) := by
        rw [hids]
        exact List.pairwise_map.mpr hsorted
      refine ⟨hle.lt_of_le hnodup, hpermIDs, ?_⟩
      intro s hs
      have hmem : (s.ID, s.Name) ∈ snapshots.map (fun s => (s.ID, s.Name)) :=
        List.mem_map_of_mem _ hs
      rw [h2] at hmem
      obtain ⟨r, hr, hrs⟩ := List.mem_map.mp hmem
      have hr' : r ∈ snapshotQueryRows remoteDrivers localNodeID db projectName volumeName
          volumeType poolID := hperm.mem_iff.mp hr
      have hrow : r.1.1.1 ∈ snapshotsOfVolume remoteDrivers db projectName poolID volumeType
          volumeName localNodeID := by
        rw [← hrows]
        exact List.mem_map_of_mem (fun r => r.1.1.1) hr'
      simp only [Prod.mk.injEq] at hrs
      exact ⟨r.1.1.1, hrow, hrs.1, hrs.2.symm⟩
  · intro hct hkeys
    have hvalid : ∀ r ∈ (snapshotQueryRows remoteDrivers localNodeID db projectName volumeName
        volumeType poolID).insertionSort (fun a b => a.1.1.1.id ≤ b.1.1.1.id),
        r.1.1.2.content_type = 0 ∨ r.1.1.2.content_type = 1 := by
      intro r hr
      have hr' := hperm.mem_iff.mp hr
      unfold snapshotQueryRows at hr'
      have hj := (List.mem_filter.mp hr').1
      obtain ⟨⟨⟨s, v⟩, p⟩, pool⟩ := r
      have hj1 := (mem_innerJoin.mp hj).1
      have hj2 := (mem_innerJoin.mp hj1).1
      exact hct v (mem_innerJoin.mp hj2).2.1
    obtain ⟨scanned, hscan⟩ := scanSnapshotRows_returns projectName volumeName poolID _ hvalid
    have h1 := scanSnapshotRows_ok projectName volumeName poolID _ scanned hscan
    have hscanned : ∀ s ∈ scanned, ((db.storage_volumes_snapshots_config.filter
        (fun r => decide (r.owner = s.ID))).map (fun r => r.key)).Nodup := by
      intro s hs
      have hmem : (s.ID, s.Name) ∈ scanned.map (fun s => (s.ID, s.Name)) :=
        List.mem_map_of_mem _ hs
      rw [h1] at hmem
      obtain ⟨r, hr, hrs⟩ := List.mem_map.mp hmem
      have hr' := hperm.mem_iff.mp hr
      unfold snapshotQueryRows at hr'
      have hj := (List.mem_filter.mp hr').1
      obtain ⟨⟨⟨s0, v⟩, p⟩, pool⟩ := r
      have hj1 := (mem_innerJoin.mp hj).1
      have hj2 := (mem_innerJoin.mp hj1).1
      simp only [Prod.mk.injEq] at hrs
      rw [← hrs.1]
      exact hkeys s0 (mem_innerJoin.mp hj2).1
    obtain ⟨populated, hpop⟩ := populateSnapshotConfig_returns db scanned hscanned
    refine ⟨populated, ?_⟩
    unfold Cluster.GetLocalStoragePoolVolumeSnapshotsWithType
    rw [hscan]
    exact hpop


/-- C11 at the example of the claim: the snapshots `z`, `a` and `m` of `vol`, created in
that order and stored in another, are listed as `vol/z`, `vol/a`, `vol/m`. -/
theorem GetLocalStoragePoolVolumeSnapshotsWithType_ordered_witness :
    (shuffledSnapshotsDB.storage_volumes_snapshots.map (fun s => s.id)).Nodup ∧
      (shuffledSnapshotsDB.storage_volumes.map (fun v => v.id)).Nodup ∧
      (shuffledSnapshotsDB.projects.map Project.id).Nodup ∧
      (shuffledSnapshotsDB.storage_pools.map StoragePool.id).Nodup ∧
      shuffledSnapshotsDB.storage_volumes_snapshots.map (fun s => (s.id, s.name)) =
        [(3, "m"), (1, "z"), (2, "a")] ∧
      (Cluster.GetLocalStoragePoolVolumeSnapshotsWithType exampleRemoteDrivers 1
          shuffledSnapshotsDB "default" "vol" 2 2).map
          (fun snapshots => snapshots.map (fun s => (s.ID, s.Name))) =
        .ok [(1, "vol/z"), (2, "vol/a"), (3, "vol/m")] ∧
      ∃ snapshots,
        Cluster.GetLocalStoragePoolVolumeSnapshotsWithType exampleRemoteDrivers 1
          shuffledSnapshotsDB "default" "vol" 2 2 = .ok snapshots :=
  ⟨by decide, by decide, by decide, by decide, by rfl, by rfl,
    (GetLocalStoragePoolVolumeSnapshotsWithType_ordered exampleRemoteDrivers 1
      shuffledSnapshotsDB "default" "vol" 2 2 (by decide) (by decide) (by decide)
      (by decide)).2 (by decide) (by decide)⟩


/-! ## Creating a volume -/

theorem le_foldl_max : ∀ (l : List Int) (init : Int),
    init ≤ l.foldl max init ∧ ∀ x ∈ l, x ≤ l.foldl max init := by
  intro l
  induction l with
  | nil => intro init; exact ⟨le_refl _, fun x hx => absurd hx (List.not_mem_nil _)⟩
  | cons a l ih =>
    intro init
    obtain ⟨h1, h2⟩ := ih (max init a)
    rw [List.foldl_cons]
    refine ⟨le_trans (le_max_left _ _) h1, ?_⟩
    intro x hx
    rcases List.mem_cons.mp hx with rfl | hx
    · exact le_trans (le_max_right _ _) h1
    · exact h2 x hx

/-- The id of the next volume row is above the id of every volume row of the store. -/
theorem nextVolumeID_fresh (tx : DB) : ∀ v ∈ tx.storage_volumes, v.id < nextVolumeID tx := by
  intro v hv
  unfold nextVolumeID
  have h := (le_foldl_max (tx.storage_volumes.map (fun v => v.id) ++
      tx.storage_volumes_snapshots.map (fun s => s.id)) 0).2 v.id
    (List.mem_append_left _ (List.mem_map_of_mem (fun v => v.id) hv))
  omega

theorem Exec_success_check (driver : Driver) (tx tx1 : DB) (stmt : Stmt)
    (h : Exec driver tx stmt = (tx1, none)) : stmt.check tx = none := by
  unfold Exec at h
  split at h
  · cases h
  · split at h
    · cases h
    · assumption

/-- A driver that accepts every statement lets `storageVolumeConfigAdd` succeed. -/
theorem storageVolumeConfigAdd_accepted (driver : Driver)
    (haccept : ∀ stmt tx, driver stmt tx = none) (volumeID : Int) :
    ∀ (volumeConfig : GoMap) (tx : DB),
      ∃ tx1, storageVolumeConfigAdd driver tx volumeID volumeConfig false = (tx1, none) := by
  intro volumeConfig
  induction volumeConfig with
  | nil => intro tx; exact ⟨tx, rfl⟩
  | cons e rest ih =>
    intro tx
    obtain ⟨k, v⟩ := e
    rw [storageVolumeConfigAdd]
    by_cases hv : v = ""
    · rw [if_pos hv]; exact ih tx
    · rw [if_neg hv]
      simp only [Exec, haccept, Stmt.check, Bool.false_eq_true, if_false]
      exact ih _

/-- What a successful run of the body of `CreateStoragePoolVolume` leaves: the new record
after the volume rows, the rows of the config map after the config rows. -/
theorem createVolume_success (driver : Driver) (remoteDrivers : List String)
    (localNodeID : Int) (project volumeName volumeDescription : String) (volumeType : Int)
    (poolID : Int) (volumeConfig : GoMap) (contentType : Int) (tx tx2 : DB) (volumeID : Int)
    (h : createVolume driver remoteDrivers localNodeID project volumeName volumeDescription
      volumeType poolID volumeConfig contentType tx = (tx2, volumeID, none)) :
    volumeID = nextVolumeID tx ∧
      ∃ projectID poolDriver, projectIDOf tx project = some projectID ∧
        ClusterTx.GetStoragePoolDriver tx poolID = .ok poolDriver ∧
        tx2 = { tx with
          storage_volumes := tx.storage_volumes ++
            [{ id := nextVolumeID tx
               name := volumeName
               storage_pool_id := poolID
               node_id := if poolDriver ∈ remoteDrivers then none else some localNodeID
               type := volumeType
               description := volumeDescription
               project_id := projectID
               content_type := contentType }]
          storage_volumes_config :=
            tx.storage_volumes_config ++ insertedRows (nextVolumeID tx) volumeConfig } := by
  unfold createVolume at h
  cases hd : ClusterTx.GetStoragePoolDriver tx poolID with
  | error err => rw [hd] at h; cases h
  | ok poolDriver =>
    rw [hd] at h
    simp only [StringInSlice, decide_eq_true_eq] at h
    rcases hx : Exec driver tx
        (if poolDriver ∈ remoteDrivers then
          Stmt.InsertVolume poolID none volumeType volumeName volumeDescription project
            contentType
         else
          Stmt.InsertVolume poolID (some localNodeID) volumeType volumeName volumeDescription
            project contentType) with ⟨tx1, _ | err⟩
    · rw [hx] at h
      simp only at h
      have hrun := Exec_success driver tx tx1 _ hx
      have hcheck := Exec_success_check driver tx tx1 _ hx
      rcases hadd : storageVolumeConfigAdd driver tx1 (nextVolumeID tx) volumeConfig false with
        ⟨tx3, _ | err⟩
      · rw [hadd] at h
        simp only [Prod.mk.injEq, and_true] at h
        obtain ⟨h1, h2⟩ := h
        subst h1
        have hcfg := storageVolumeConfigAdd_success driver (nextVolumeID tx) false volumeConfig
          tx1 tx3 hadd
        simp only [Bool.false_eq_true, if_false] at hcfg
        refine ⟨h2.symm, ?_⟩
        cases hp : projectIDOf tx project with
        | none =>
          by_cases hr : poolDriver ∈ remoteDrivers
          · simp [hr, Stmt.check, hp] at hcheck
          · simp [hr, Stmt.check, hp] at hcheck
        | some projectID =>
          refine ⟨projectID, poolDriver, rfl, rfl, ?_⟩
          rw [hcfg, hrun]
          by_cases hr : poolDriver ∈ remoteDrivers
          · simp [hr, Stmt.run, hp]
          · simp [hr, Stmt.run, hp]
      · rw [hadd] at h
        cases h
    · rw [hx] at h
      cases h

/-- The key of the record an insert on a local pool would add is taken exactly when a
record of the store has it. -/
theorem keyTaken_local (tx : DB) (poolID nodeID projectID : Int) (name : String)
    (volumeType : Int) :
    keyTaken tx poolID (some nodeID) projectID name volumeType none = true ↔
      ∃ v ∈ tx.storage_volumes, v.storage_pool_id = poolID ∧ v.node_id = some nodeID ∧
        v.project_id = projectID ∧ v.name = name ∧ v.type = volumeType := by
  unfold keyTaken
  simp only [List.any_eq_true, Option.isSome_some, Bool.true_and, Bool.and_eq_true,
    decide_eq_true_eq, Bool.not_eq_true', decide_eq_false_iff_not]
  constructor
  · rintro ⟨v, hv, ⟨⟨⟨⟨hn, hpool⟩, hproj⟩, hname⟩, htype⟩, _⟩
    exact ⟨v, hv, hpool, hn, hproj, hname, htype⟩
  · rintro ⟨v, hv, hpool, hn, hproj, hname, htype⟩
    exact ⟨v, hv, ⟨⟨⟨⟨hn, hpool⟩, hproj⟩, hname⟩, htype⟩, by simp⟩

/-- A record without a member takes no key. -/
theorem keyTaken_remote (tx : DB) (poolID projectID : Int) (name : String)
    (volumeType : Int) : keyTaken tx poolID none projectID name volumeType none = false := by
  unfold keyTaken
  simp

/-- C15, refuted as stated: `vol` holds no delimiter and the local pool 2 and the project
`default` exist, but the custom volume `vol` of the project already has a record on
member 1 of the pool, so the insert violates the unique key of the volume records and
`CreateStoragePoolVolume` returns the id `-1` with the error, the store unchanged. -/
theorem CreateStoragePoolVolume_existing_counterexample :
    stringsContains "vol" SnapshotDelimiter = false ∧
    ClusterTx.GetStoragePoolDriver exampleDB 2 = .ok "dir" ∧
    projectIDOf exampleDB "default" = some 1 ∧
    Cluster.CreateStoragePoolVolume Driver.accepting exampleRemoteDrivers 1 exampleDB "default"
        "vol" "" 2 2 [] 0 =
      (exampleDB, -1, some (.Store "UNIQUE constraint failed: storage_volumes.storage_pool_id, storage_volumes.node_id, storage_volumes.project_id, storage_volumes.name, storage_volumes.type")) :=
  ⟨by decide, by rfl, by rfl, by rfl⟩

/-- C15, amended: `CreateStoragePoolVolume` called with a name that holds the snapshot
delimiter fails: it returns the id `-1` with an error and the store is unchanged, so no
volume record and no config row is inserted.  With a name without the delimiter, on an
existing pool and project, it succeeds and returns the id of the newly inserted record, an
id no record had before, when the pool's driver is a remote driver or no record of the
project, pool, type and name exists on the current member (the store's driver reporting
no fault of its own); and when the pool's driver is no remote driver and such a record
exists it fails: it returns the id `-1` with an error and the store is unchanged. -/
theorem CreateStoragePoolVolume_snapshot_name (driver : Driver) (remoteDrivers : List String)
    (localNodeID : Int) (db : DB) (project volumeName volumeDescription : String)
    (volumeType : Int) (poolID : Int) (volumeConfig : GoMap) (contentType : Int) :
    (stringsContains volumeName SnapshotDelimiter = true →
      Cluster.CreateStoragePoolVolume driver remoteDrivers localNodeID db project volumeName
          volumeDescription volumeType poolID volumeConfig contentType =
        (db, -1, some (.Errorf "Volume name may not be a snapshot" []))) ∧
    (stringsContains volumeName SnapshotDelimiter = false →
      ∀ poolDriver projectID, ClusterTx.GetStoragePoolDriver db poolID = .ok poolDriver →
      projectIDOf db project = some projectID →
      ((poolDriver ∈ remoteDrivers ∨
          ¬ ∃ v ∈ db.storage_volumes, v.storage_pool_id = poolID ∧
            v.node_id = some localNodeID ∧ v.project_id = projectID ∧ v.name = volumeName ∧
            v.type = volumeType) →
        ∃ db1 volumeID,
          Cluster.CreateStoragePoolVolume Driver.accepting remoteDrivers localNodeID db project
              volumeName volumeDescription volumeType poolID volumeConfig contentType =
            (db1, volumeID, none) ∧
          (∀ v ∈ db.storage_volumes, v.id ≠ volumeID) ∧
          ∃ v ∈ db1.storage_volumes, v.id = volumeID ∧ v.name = volumeName) ∧
      (poolDriver ∉ remoteDrivers →
        (∃ v ∈ db.storage_volumes, v.storage_pool_id = poolID ∧
          v.node_id = some localNodeID ∧ v.project_id = projectID ∧ v.name = volumeName ∧
          v.type = volumeType) →
        ∃ err,
          Cluster.CreateStoragePoolVolume driver remoteDrivers localNodeID db project
              volumeName volumeDescription volumeType poolID volumeConfig contentType =
            (db, -1, some err))) := by
  constructor
  · intro hsnap
    unfold Cluster.CreateStoragePoolVolume IsSnapshot
    rw [if_pos hsnap]
  · intro hplain poolDriver projectID hd hp
    constructor
    · intro hfree
      obtain ⟨tx2, hadd⟩ := storageVolumeConfigAdd_accepted Driver.accepting
        (fun _ _ => rfl) (nextVolumeID db) volumeConfig
        ((if poolDriver ∈ remoteDrivers then
            Stmt.InsertVolume poolID none volumeType volumeName volumeDescription project
              contentType
           else
            Stmt.InsertVolume poolID (some localNodeID) volumeType volumeName
              volumeDescription project contentType).run db)
      have hbody : createVolume Driver.accepting remoteDrivers localNodeID project volumeName
          volumeDescription volumeType poolID volumeConfig contentType db =
          (tx2, nextVolumeID db, none) := by
        unfold createVolume
        rw [hd]
        simp only [StringInSlice, decide_eq_true_eq]
        have hx : Exec Driver.accepting db
            (if poolDriver ∈ remoteDrivers then
              Stmt.InsertVolume poolID none volumeType volumeName volumeDescription project
                contentType
             else
              Stmt.InsertVolume poolID (some localNodeID) volumeType volumeName
                volumeDescription project contentType) =
            ((if poolDriver ∈ remoteDrivers then
              Stmt.InsertVolume poolID none volumeType volumeName volumeDescription project
                contentType
             else
              Stmt.InsertVolume poolID (some localNodeID) volumeType volumeName
                volumeDescription project contentType).run db, none) := by
          unfold Exec Driver.accepting
          by_cases hr : poolDriver ∈ remoteDrivers
          · simp [hr, Stmt.check, hp, keyTaken_remote]
          · have hnot : keyTaken db poolID (some localNodeID) projectID volumeName volumeType
                none = false := by
              rw [← Bool.not_eq_true, keyTaken_local]
              exact hfree.resolve_left hr
            simp [hr, Stmt.check, hp, hnot]
        rw [hx]
        simp only
        rw [hadd]
      obtain ⟨_, projectID1, poolDriver1, _, _, htx2⟩ := createVolume_success Driver.accepting
        remoteDrivers localNodeID project volumeName volumeDescription volumeType poolID
        volumeConfig contentType db tx2 (nextVolumeID db) hbody
      refine ⟨tx2, nextVolumeID db, ?_, ?_, ?_⟩
      · unfold Cluster.CreateStoragePoolVolume IsSnapshot Transaction
        rw [if_neg (by rw [hplain]; decide)]
        simp only [hbody]
      · intro v hv h
        have := nextVolumeID_fresh db v hv
        omega
      · rw [htx2]
        exact ⟨_, List.mem_append_right _ (List.mem_singleton.mpr rfl), rfl, rfl⟩
    · intro hr htaken
      have hkey : keyTaken db poolID (some localNodeID) projectID volumeName volumeType
          none = true := (keyTaken_local db poolID localNodeID projectID volumeName
            volumeType).mpr htaken
      have hx : ∃ err, Exec driver db
          (Stmt.InsertVolume poolID (some localNodeID) volumeType volumeName volumeDescription
            project contentType) = (db, some err) := by
        unfold Exec
        cases hdrv : driver (Stmt.InsertVolume poolID (some localNodeID) volumeType volumeName
          volumeDescription project contentType) db with
        | some err => exact ⟨err, rfl⟩
        | none =>
          simp only [Stmt.check, hp, hkey, if_true]
          exact ⟨_, rfl⟩
      obtain ⟨err, hx⟩ := hx
      have hbody : createVolume driver remoteDrivers localNodeID project volumeName
          volumeDescription volumeType poolID volumeConfig contentType db =
          (db, 0, some err) := by
        unfold createVolume
        rw [hd]
        simp only [StringInSlice, decide_eq_true_eq, hr, if_false, hx]
      refine ⟨err, ?_⟩
      unfold Cluster.CreateStoragePoolVolume IsSnapshot Transaction
      rw [if_neg (by rw [hplain]; decide)]
      simp only [hbody]


/-- C15, amended, at the example store: `vol/x` is refused with the id `-1` and the store
unchanged; `newvol`, of which the local pool has no record on member 1, is created with the
id 8; `vol`, of which it has one, is refused with the id `-1` and the store unchanged. -/
theorem CreateStoragePoolVolume_snapshot_name_witness :
    Cluster.CreateStoragePoolVolume Driver.accepting exampleRemoteDrivers 1 exampleDB "default"
        "vol/x" "" 2 2 [] 0 =
      (exampleDB, -1, some (.Errorf "Volume name may not be a snapshot" [])) ∧
    (Cluster.CreateStoragePoolVolume Driver.accepting exampleRemoteDrivers 1 exampleDB "default"
        "newvol" "" 2 2 [] 0).2 = (8, none) ∧
    (∃ db1 volumeID,
      Cluster.CreateStoragePoolVolume Driver.accepting exampleRemoteDrivers 1 exampleDB
          "default" "newvol" "" 2 2 [] 0 = (db1, volumeID, none) ∧
        (∀ v ∈ exampleDB.storage_volumes, v.id ≠ volumeID) ∧
        ∃ v ∈ db1.storage_volumes, v.id = volumeID ∧ v.name = "newvol") ∧
    (∃ err,
      Cluster.CreateStoragePoolVolume Driver.accepting exampleRemoteDrivers 1 exampleDB
          "default" "vol" "" 2 2 [] 0 = (exampleDB, -1, some err)) :=
  ⟨(CreateStoragePoolVolume_snapshot_name Driver.accepting exampleRemoteDrivers 1 exampleDB
      "default" "vol/x" "" 2 2 [] 0).1 (by decide),
    by rfl,
    ((CreateStoragePoolVolume_snapshot_name Driver.accepting exampleRemoteDrivers 1 exampleDB
      "default" "newvol" "" 2 2 [] 0).2 (by decide) "dir" 1 (by rfl) (by rfl)).1
      (Or.inr (by decide)),
    ((CreateStoragePoolVolume_snapshot_name Driver.accepting exampleRemoteDrivers 1 exampleDB
      "default" "vol" "" 2 2 [] 0).2 (by decide) "dir" 1 (by rfl) (by rfl)).2
      (by decide) (by decide)⟩

/-- C16: a successful `CreateStoragePoolVolume` inserts exactly one volume record, with the
given pool, type, name, description, project and content type, whose node id is null when
the pool's driver is a remote driver and the current member's id otherwise; it inserts as
config rows of that record the non-empty entries of the config map and changes nothing
else; and in a store whose config rows all belong to a volume record, the record's config
reads back as exactly those entries. -/
theorem CreateStoragePoolVolume_record (driver : Driver) (remoteDrivers : List String)
    (localNodeID : Int) (db db1 : DB) (project volumeName volumeDescription : String)
    (volumeType : Int) (poolID : Int) (volumeConfig : GoMap) (contentType : Int)
    (volumeID : Int)
    (hcreate : Cluster.CreateStoragePoolVolume driver remoteDrivers localNodeID db project
      volumeName volumeDescription volumeType poolID volumeConfig contentType =
      (db1, volumeID, none)) :
    ∃ projectID poolDriver, projectIDOf db project = some projectID ∧
      ClusterTx.GetStoragePoolDriver db poolID = .ok poolDriver ∧
      (∀ v ∈ db.storage_volumes, v.id ≠ volumeID) ∧
      db1.storage_volumes = db.storage_volumes ++
        [{ id := volumeID
           name := volumeName
           storage_pool_id := poolID
           node_id := if poolDriver ∈ remoteDrivers then none else some localNodeID
           type := volumeType
           description := volumeDescription
           project_id := projectID
           content_type := contentType }] ∧
      db1.storage_volumes_config =
        db.storage_volumes_config ++ insertedRows volumeID volumeConfig ∧
      db1.storage_volumes_snapshots = db.storage_volumes_snapshots ∧
      db1.storage_volumes_snapshots_config = db.storage_volumes_snapshots_config ∧
      db1.nodes = db.nodes ∧ db1.projects = db.projects ∧
      db1.storage_pools = db.storage_pools ∧
      ((volumeConfig.map Prod.fst).Nodup →
        (∀ r ∈ db.storage_volumes_config, ∃ v ∈ db.storage_volumes, v.id = r.owner) →
        ClusterTx.storageVolumeConfigGet db1 volumeID false =
          .ok (volumeConfig.filter (fun e => decide (e.2 ≠ "")))) := by
  unfold Cluster.CreateStoragePoolVolume at hcreate
  split at hcreate
  · cases hcreate
  · split at hcreate
    · cases hcreate
    · rename_i db1' htx
      simp only [Prod.mk.injEq, and_true] at hcreate
      obtain ⟨hdb, hid⟩ := hcreate
      subst hdb
      have hbody := Transaction_success db db1' _ htx
      simp only [Prod.mk.injEq] at hbody
      have hfull : createVolume driver remoteDrivers localNodeID project volumeName
          volumeDescription volumeType poolID volumeConfig contentType db =
          (db1', volumeID, none) := by
        rw [← hbody.1, ← hbody.2, ← hid]
      obtain ⟨hvid, projectID, poolDriver, hp, hd, htx2⟩ := createVolume_success driver
        remoteDrivers localNodeID project volumeName volumeDescription volumeType poolID
        volumeConfig contentType db db1' volumeID hfull
      refine ⟨projectID, poolDriver, hp, hd, ?_, ?_, ?_, ?_, ?_, ?_, ?_, ?_, ?_⟩
      · intro v hv h
        have := nextVolumeID_fresh db v hv
        omega
      · rw [htx2, hvid]
      · rw [htx2, hvid]
      · rw [htx2]
      · rw [htx2]
      · rw [htx2]
      · rw [htx2]
      · rw [htx2]
      · intro hkeys hfk
        apply storageVolumeConfigGet_of_insertedRows db1' volumeID false volumeConfig hkeys
        rw [htx2, hvid]
        simp only [configRows, Bool.false_eq_true, if_false, List.filter_append,
          filter_owner_insertedRows]
        have hnil : db.storage_volumes_config.filter
            (fun r => decide (r.owner = nextVolumeID db)) = [] := by
          rw [List.filter_eq_nil_iff]
          intro r hr hown
          simp only [decide_eq_true_eq] at hown
          obtain ⟨v, hv, hvr⟩ := hfk r hr
          have := nextVolumeID_fresh db v hv
          omega
        rw [hnil, List.nil_append]

/-- C16 at the example store: `newvol` created on the local pool from member 1 is the one
new record, bound to member 1, and reads back the one non-empty entry of its config;
`newshared` created on the remote pool has a null node id. -/
theorem CreateStoragePoolVolume_record_witness :
    (Cluster.CreateStoragePoolVolume Driver.accepting exampleRemoteDrivers 1 exampleDB "default"
        "newvol" "a volume" 2 2 [("size", "5GiB"), ("empty", "")] 1).2 = (8, none) ∧
      (Cluster.CreateStoragePoolVolume Driver.accepting exampleRemoteDrivers 1 exampleDB
          "default" "newvol" "a volume" 2 2 [("size", "5GiB"), ("empty", "")] 1).1.storage_volumes =
        exampleDB.storage_volumes ++ [⟨8, "newvol", 2, some 1, 2, "a volume", 1, 1⟩] ∧
      ClusterTx.storageVolumeConfigGet
          (Cluster.CreateStoragePoolVolume Driver.accepting exampleRemoteDrivers 1 exampleDB
            "default" "newvol" "a volume" 2 2 [("size", "5GiB"), ("empty", "")] 1).1 8 false =
        .ok [("size", "5GiB")] ∧
      (Cluster.CreateStoragePoolVolume Driver.accepting exampleRemoteDrivers 1 exampleDB
          "default" "newshared" "" 2 1 [] 0).1.storage_volumes =
        exampleDB.storage_volumes ++ [⟨8, "newshared", 1, none, 2, "", 1, 0⟩] ∧
      ∃ projectID poolDriver, projectIDOf exampleDB "default" = some projectID ∧
        ClusterTx.GetStoragePoolDriver exampleDB 2 = .ok poolDriver :=
  ⟨by rfl, by rfl, by rfl, by rfl,
    (CreateStoragePoolVolume_record Driver.accepting exampleRemoteDrivers 1 exampleDB _
      "default" "newvol" "a volume" 2 2 [("size", "5GiB"), ("empty", "")] 1 8 (by rfl)).imp
      (fun _ h => h.imp (fun _ h' => ⟨h'.1, h'.2.1⟩))⟩


/-! ## Renaming -/

theorem singleton_infix_iff (c : Char) (l : List Char) : [c] <:+: l ↔ c ∈ l := by
  constructor
  · rintro ⟨s, t, h⟩
    rw [← h]
    simp
  · intro h
    obtain ⟨s, t, rfl⟩ := List.append_of_mem h
    exact ⟨s, t, by simp⟩

/-- A name holds the snapshot delimiter exactly when it holds the character `/`. -/
theorem stringsContains_delimiter (name : String) :
    stringsContains name SnapshotDelimiter = true ↔ '/' ∈ name.data := by
  unfold stringsContains SnapshotDelimiter
  rw [decide_eq_true_eq]
  exact singleton_infix_iff '/' name.data

theorem splitScan_no_delimiter : ∀ (l cur : List Char), '/' ∉ l →
    splitScan ['/'] 0 cur l = [cur.reverse ++ l] := by
  intro l
  induction l with
  | nil => intro cur _; simp [splitScan]
  | cons c cs ih =>
    intro cur h
    simp only [List.mem_cons, not_or] at h
    have hp : ¬ (['/'] <+: (c :: cs)) := by
      rw [List.cons_prefix_cons]
      exact fun h' => h.1 h'.1
    rw [splitScan, if_neg hp, ih (c :: cur) h.2]
    simp

theorem splitScan_first_delimiter : ∀ (a cur b : List Char), '/' ∉ a →
    splitScan ['/'] 0 cur (a ++ '/' :: b) = (cur.reverse ++ a) :: splitScan ['/'] 0 [] b := by
  intro a
  induction a with
  | nil =>
    intro cur b _
    have hp : ['/'] <+: ('/' :: b) := by
      rw [List.cons_prefix_cons]
      exact ⟨rfl, List.nil_prefix⟩
    rw [List.nil_append, splitScan, if_pos hp]
    simp
  | cons c cs ih =>
    intro cur b h
    simp only [List.mem_cons, not_or] at h
    have hp : ¬ (['/'] <+: (c :: (cs ++ '/' :: b))) := by
      rw [List.cons_prefix_cons]
      exact fun h' => h.1 h'.1
    rw [List.cons_append, splitScan, if_neg hp, ih (c :: cur) b h.2]
    simp

/-- The fields of a name `parent + delimiter + short` whose two parts hold no delimiter
are the two parts. -/
theorem stringsSplit_qualified (parent short : String)
    (hparent : stringsContains parent SnapshotDelimiter = false)
    (hshort : stringsContains short SnapshotDelimiter = false) :
    stringsSplit (parent ++ SnapshotDelimiter ++ short) SnapshotDelimiter = [parent, short] := by
  have hp : '/' ∉ parent.data := by
    intro h
    rw [(stringsContains_delimiter parent).mpr h] at hparent
    cases hparent
  have hs : '/' ∉ short.data := by
    intro h
    rw [(stringsContains_delimiter short).mpr h] at hshort
    cases hshort
  unfold stringsSplit
  have hsep : SnapshotDelimiter.data = ['/'] := rfl
  rw [if_neg (by rw [hsep]; simp), hsep]
  have hdata : (parent ++ SnapshotDelimiter ++ short).data = parent.data ++ '/' :: short.data := by
    simp [String.data_append, hsep]
  rw [hdata, splitScan_first_delimiter parent.data [] short.data hp,
    splitScan_no_delimiter short.data [] hs]
  simp

theorem renameRow_nil (name : String) (v : StorageVolume) : renameRow [] name v = v := by
  simp [renameRow]

theorem renameRow_cons (id : Int) (ids : List Int) (name : String) (v : StorageVolume) :
    renameRow ids name (renameRow [id] name v) = renameRow (id :: ids) name v := by
  unfold renameRow
  by_cases h1 : v.id = id <;> by_cases h2 : v.id ∈ ids <;> simp [h1, h2]

theorem renameSnapshot_nil (name : String) (s : StorageVolumeSnapshot) :
    renameSnapshot [] name s = s := by
  simp [renameSnapshot]

theorem renameSnapshot_cons (id : Int) (ids : List Int) (name : String)
    (s : StorageVolumeSnapshot) :
    renameSnapshot ids name (renameSnapshot [id] name s) = renameSnapshot (id :: ids) name s := by
  unfold renameSnapshot
  by_cases h1 : s.id = id <;> by_cases h2 : s.id ∈ ids <;> simp [h1, h2]

/-- A successful loop of the change of `RenameStoragePoolVolume` leaves `renamedStore`. -/
theorem renameLoop_success (driver : Driver) (isSnapshot : Bool) (stored : String) :
    ∀ (ids : List Int) (tx tx1 : DB),
      replicateLoop (renameVolume driver isSnapshot stored) ids tx = (tx1, none) →
      tx1 = renamedStore isSnapshot stored ids tx := by
  intro ids
  induction ids with
  | nil =>
    intro tx tx1 h
    simp only [replicateLoop, Prod.mk.injEq, and_true] at h
    subst h
    cases isSnapshot
    · simp only [renamedStore, Bool.false_eq_true, if_false]
      rw [List.map_congr_left (fun v _ => renameRow_nil stored v), List.map_id']
    · simp only [renamedStore, if_true]
      rw [List.map_congr_left (fun s _ => renameSnapshot_nil stored s), List.map_id']
  | cons id ids ih =>
    intro tx tx1 h
    rw [replicateLoop] at h
    rcases hf : renameVolume driver isSnapshot stored id tx with ⟨tx2, _ | err⟩
    · rw [hf] at h
      simp only at h
      have h2 := Exec_success driver tx tx2 _ hf
      rw [ih tx2 tx1 h, h2]
      cases isSnapshot
      · simp only [renamedStore, Bool.false_eq_true, if_false, Stmt.run, List.map_map]
        congr 1
        apply List.map_congr_left
        intro v _
        simp only [Function.comp]
        rw [← renameRow_cons id ids stored v]
        congr 1
        simp [renameRow]
      · simp only [renamedStore, if_true, Stmt.run, List.map_map]
        congr 1
        apply List.map_congr_left
        intro s _
        simp only [Function.comp]
        rw [← renameSnapshot_cons id ids stored s]
        congr 1
        simp [renameSnapshot]
    · rw [hf] at h
      cases h


theorem renamedStore_congr (isSnapshot : Bool) (stored : String) (ids ids1 : List Int)
    (tx : DB) (h : ∀ x, x ∈ ids ↔ x ∈ ids1) :
    renamedStore isSnapshot stored ids tx = renamedStore isSnapshot stored ids1 tx := by
  have hrow : ∀ v, renameRow ids stored v = renameRow ids1 stored v := by
    intro v
    unfold renameRow
    by_cases hm : v.id ∈ ids
    · rw [if_pos hm, if_pos ((h _).mp hm)]
    · rw [if_neg hm, if_neg (fun h' => hm ((h _).mpr h'))]
  have hsnap : ∀ s, renameSnapshot ids stored s = renameSnapshot ids1 stored s := by
    intro s
    unfold renameSnapshot
    by_cases hm : s.id ∈ ids
    · rw [if_pos hm, if_pos ((h _).mp hm)]
    · rw [if_neg hm, if_neg (fun h' => hm ((h _).mpr h'))]
  unfold renamedStore
  rw [List.map_congr_left (fun v _ => hrow v), List.map_congr_left (fun s _ => hsnap s)]

/-- The ids a replicated change runs over are, as a set, the replication targets. -/
theorem mem_loop_targets (remoteDrivers : List String) (tx : DB) (poolDriver : String)
    (volumeID : Int) (project volumeName : String) (volumeType poolID : Int) (x : Int) :
    x ∈ (if poolDriver ∈ remoteDrivers then
          storageVolumeIDsGet tx project volumeName volumeType poolID
         else [volumeID]) ↔
      x ∈ replicationTargets remoteDrivers tx poolDriver volumeID project poolID volumeType
        volumeName := by
  unfold replicationTargets
  by_cases h : poolDriver ∈ remoteDrivers
  · rw [if_pos h, if_pos h, mem_storageVolumeIDsGet, List.mem_map]
  · rw [if_neg h, if_neg h]

/-- C17: a successful `RenameStoragePoolVolume` with a snapshot-qualified old name stores
the second field of the new name as the name of the target snapshot records and leaves the
volume table, so the parent volume's name, unchanged; for a new name `parent + delimiter +
short` whose two parts hold no delimiter that field is `short`.  With an old name that is
not snapshot-qualified it stores the whole new name on the target volume records.  The
targets are the resolved record, or every record of the identity on a remote pool. -/
theorem RenameStoragePoolVolume_stored_name (driver : Driver) (remoteDrivers : List String)
    (localNodeID : Int) (db db1 : DB) (project oldVolumeName newVolumeName : String)
    (volumeType poolID : Int)
    (hrename : Cluster.RenameStoragePoolVolume driver remoteDrivers localNodeID db project
      oldVolumeName newVolumeName volumeType poolID = some (db1, none)) :
    ∃ poolDriver volumeID vol,
      storagePoolDriverGet db poolID = .ok poolDriver ∧
      Cluster.GetLocalStoragePoolVolume remoteDrivers localNodeID db project oldVolumeName
        volumeType poolID = .ok (volumeID, vol) ∧
      (stringsContains oldVolumeName SnapshotDelimiter = true →
        ∃ stored, (stringsSplit newVolumeName SnapshotDelimiter)[1]? = some stored ∧
          db1 = renamedStore true stored
            (replicationTargets remoteDrivers db poolDriver volumeID project poolID volumeType
              oldVolumeName) db ∧
          db1.storage_volumes = db.storage_volumes ∧
          ∀ parent short, newVolumeName = parent ++ SnapshotDelimiter ++ short →
            stringsContains parent SnapshotDelimiter = false →
            stringsContains short SnapshotDelimiter = false → stored = short) ∧
      (stringsContains oldVolumeName SnapshotDelimiter = false →
        db1 = renamedStore false newVolumeName
          (replicationTargets remoteDrivers db poolDriver volumeID project poolID volumeType
            oldVolumeName) db) := by
  unfold Cluster.RenameStoragePoolVolume at hrename
  cases hlocal : Cluster.GetLocalStoragePoolVolume remoteDrivers localNodeID db project
      oldVolumeName volumeType poolID with
  | error err => rw [hlocal] at hrename; cases hrename
  | ok res =>
    obtain ⟨volumeID, vol⟩ := res
    rw [hlocal] at hrename
    simp only at hrename
    cases hname : (if stringsContains oldVolumeName SnapshotDelimiter = true then
        (stringsSplit newVolumeName SnapshotDelimiter)[1]? else some newVolumeName) with
    | none => rw [hname] at hrename; cases hrename
    | some stored =>
      rw [hname] at hrename
      simp only [Option.some.injEq] at hrename
      obtain ⟨poolDriver, hdrv, hloop⟩ := storagePoolVolumeReplicateIfCeph_success _ _ _ _ _ _ _
        _ _ (Transaction_success db db1 _ hrename)
      have hstore := renameLoop_success driver _ stored _ db db1 hloop
      rw [renamedStore_congr _ stored _ _ db
        (mem_loop_targets remoteDrivers db poolDriver volumeID project oldVolumeName volumeType
          poolID)] at hstore
      refine ⟨poolDriver, volumeID, vol, hdrv, rfl, ?_, ?_⟩
      · intro hsnap
        rw [hsnap] at hstore
        rw [if_pos hsnap] at hname
        refine ⟨stored, hname, hstore, ?_, ?_⟩
        · rw [hstore]; rfl
        · intro parent short hnew hparent hshort
          rw [hnew, stringsSplit_qualified parent short hparent hshort] at hname
          simp only [List.getElem?_cons_succ, List.getElem?_cons_zero, Option.some.injEq] at hname
          exact hname.symm
      · intro hplain
        rw [hplain] at hstore
        rw [if_neg (by rw [hplain]; decide)] at hname
        simp only [Option.some.injEq] at hname
        rw [← hname] at hstore
        exact hstore

/-- C17 at the example store: renaming the snapshot `vol/snap0` to `vol/first` stores
`first` on the snapshot record and leaves the volume rows as they were; renaming the volume
`solo` to `single` stores the whole new name. -/
theorem RenameStoragePoolVolume_stored_name_witness :
    (∃ db1, Cluster.RenameStoragePoolVolume Driver.accepting exampleRemoteDrivers 1 exampleDB
          "default" "vol/snap0" "vol/first" 2 2 = some (db1, none) ∧
        db1.storage_volumes_snapshots = [⟨1, 3, "first", "first", none⟩] ∧
        db1.storage_volumes = exampleDB.storage_volumes) ∧
      (∃ db1, Cluster.RenameStoragePoolVolume Driver.accepting exampleRemoteDrivers 2 exampleDB
          "default" "solo" "single" 2 2 = some (db1, none) ∧
        db1.storage_volumes.map (fun v => v.name) =
          ["data", "data", "vol", "vol", "shared", "pinned", "single"]) ∧
      ∃ poolDriver volumeID vol,
        storagePoolDriverGet exampleDB 2 = .ok poolDriver ∧
        Cluster.GetLocalStoragePoolVolume exampleRemoteDrivers 1 exampleDB "default" "vol/snap0"
          2 2 = .ok (volumeID, vol) :=
  ⟨⟨_, by rfl, by rfl, by rfl⟩, ⟨_, by rfl, by rfl⟩,
    (RenameStoragePoolVolume_stored_name Driver.accepting exampleRemoteDrivers 1 exampleDB _
      "default" "vol/snap0" "vol/first" 2 2 (by rfl)).imp
      (fun _ h => h.imp (fun _ h' => h'.imp (fun _ h'' => ⟨h''.1, h''.2.1⟩)))⟩


/-! ## Removing -/

theorem filter_not_mem_cons {α : Type} (key : α → Int) (a : Int) (rest : List Int)
    (l : List α) :
    (l.filter (fun x => !decide (key x = a))).filter (fun x => decide (key x ∉ rest)) =
      l.filter (fun x => decide (key x ∉ a :: rest)) := by
  rw [List.filter_filter]
  apply List.filter_congr
  intro x _
  by_cases h1 : key x = a <;> by_cases h2 : key x ∈ rest <;> simp [h1, h2]

theorem filter_not_mem_nil {α : Type} (key : α → Int) (l : List α) :
    l.filter (fun x => decide (key x ∉ ([] : List Int))) = l := by
  rw [List.filter_eq_self]
  intro x _
  simp

/-- A successful loop of the change of `RemoveStoragePoolVolume` leaves the store after
the `DELETE` statements of the ids, in turn. -/
theorem removeLoop_success (driver : Driver) (isSnapshot : Bool) :
    ∀ (ids : List Int) (tx tx1 : DB),
      replicateLoop (removeVolume driver isSnapshot) ids tx = (tx1, none) →
      tx1 = ids.foldl (fun s id =>
        (if isSnapshot then Stmt.DeleteSnapshot id else Stmt.DeleteVolume id).run s) tx := by
  intro ids
  induction ids with
  | nil =>
    intro tx tx1 h
    simp only [replicateLoop, Prod.mk.injEq, and_true] at h
    exact h.symm
  | cons id ids ih =>
    intro tx tx1 h
    rw [replicateLoop] at h
    rcases hf : removeVolume driver isSnapshot id tx with ⟨tx2, _ | err⟩
    · rw [hf] at h
      simp only at h
      have h2 := Exec_success driver tx tx2 _ hf
      rw [List.foldl_cons, ← h2]
      exact ih tx2 tx1 h
    · rw [hf] at h
      cases h

/-- The store after the snapshots `ids` were deleted: the snapshot rows with one of the
ids are gone, the config rows of the other snapshots are kept, nothing is added, and the
other tables are as they were. -/
theorem fold_deleteSnapshot :
    ∀ (ids : List Int) (tx : DB),
      (ids.foldl (fun s id => (Stmt.DeleteSnapshot id).run s) tx).storage_volumes =
          tx.storage_volumes ∧
        (ids.foldl (fun s id => (Stmt.DeleteSnapshot id).run s) tx).storage_volumes_config =
          tx.storage_volumes_config ∧
        (ids.foldl (fun s id => (Stmt.DeleteSnapshot id).run s) tx).nodes = tx.nodes ∧
        (ids.foldl (fun s id => (Stmt.DeleteSnapshot id).run s) tx).projects = tx.projects ∧
        (ids.foldl (fun s id => (Stmt.DeleteSnapshot id).run s) tx).storage_pools =
          tx.storage_pools ∧
        (ids.foldl (fun s id => (Stmt.DeleteSnapshot id).run s) tx).storage_volumes_snapshots =
          tx.storage_volumes_snapshots.filter (fun s => decide (s.id ∉ ids)) ∧
        (∀ r ∈ tx.storage_volumes_snapshots_config, r.owner ∉ ids →
          r ∈ (ids.foldl (fun s id =>
            (Stmt.DeleteSnapshot id).run s) tx).storage_volumes_snapshots_config) ∧
        (ids.foldl (fun s id =>
            (Stmt.DeleteSnapshot id).run s) tx).storage_volumes_snapshots_config.Sublist
          tx.storage_volumes_snapshots_config := by
  intro ids
  induction ids with
  | nil =>
    intro tx
    refine ⟨rfl, rfl, rfl, rfl, rfl, ?_, fun r hr _ => hr, List.Sublist.refl _⟩
    simp only [List.foldl_nil]
    exact (filter_not_mem_nil (fun s : StorageVolumeSnapshot => s.id) _).symm
  | cons id ids ih =>
    intro tx
    rw [List.foldl_cons]
    obtain ⟨h1, h2, h3, h4, h5, h6, h7, h8⟩ := ih ((Stmt.DeleteSnapshot id).run tx)
    refine ⟨by rw [h1]; rfl, by rw [h2]; rfl, by rw [h3]; rfl, by rw [h4]; rfl,
      by rw [h5]; rfl, ?_, ?_, ?_⟩
    · rw [h6]
      simp only [Stmt.run, deleteSnapshots]
      exact filter_not_mem_cons (fun s : StorageVolumeSnapshot => s.id) id ids _
    · intro r hr hown
      simp only [List.mem_cons, not_or] at hown
      apply h7 r _ hown.2
      simp only [Stmt.run, deleteSnapshots, List.mem_filter, Bool.not_eq_true',
        Bool.eq_false_iff, ne_eq, List.any_eq_true, Bool.and_eq_true, decide_eq_true_eq,
        not_exists, not_and]
      refine ⟨hr, ?_⟩
      intro s _ hs hso
      exact hown.1 (hso.symm.trans hs)
    · refine List.Sublist.trans h8 ?_
      simp only [Stmt.run, deleteSnapshots]
      exact List.filter_sublist _

/-- The store after the volumes `ids` were deleted: the volume rows with one of the ids
are gone with their config rows and their snapshots, the config rows of the snapshots of
other volumes are kept, nothing is added, and the other tables are as they were. -/
theorem fold_deleteVolume :
    ∀ (ids : List Int) (tx : DB),
      (ids.foldl (fun s id => (Stmt.DeleteVolume id).run s) tx).storage_volumes =
          tx.storage_volumes.filter (fun v => decide (v.id ∉ ids)) ∧
        (ids.foldl (fun s id => (Stmt.DeleteVolume id).run s) tx).storage_volumes_config =
          tx.storage_volumes_config.filter (fun r => decide (r.owner ∉ ids)) ∧
        (ids.foldl (fun s id => (Stmt.DeleteVolume id).run s) tx).nodes = tx.nodes ∧
        (ids.foldl (fun s id => (Stmt.DeleteVolume id).run s) tx).projects = tx.projects ∧
        (ids.foldl (fun s id => (Stmt.DeleteVolume id).run s) tx).storage_pools =
          tx.storage_pools ∧
        (ids.foldl (fun s id => (Stmt.DeleteVolume id).run s) tx).storage_volumes_snapshots =
          tx.storage_volumes_snapshots.filter (fun s => decide (s.storage_volume_id ∉ ids)) ∧
        (∀ r ∈ tx.storage_volumes_snapshots_config,
          (∀ s ∈ tx.storage_volumes_snapshots, s.id = r.owner → s.storage_volume_id ∉ ids) →
          r ∈ (ids.foldl (fun s id =>
            (Stmt.DeleteVolume id).run s) tx).storage_volumes_snapshots_config) ∧
        (ids.foldl (fun s id =>
            (Stmt.DeleteVolume id).run s) tx).storage_volumes_snapshots_config.Sublist
          tx.storage_volumes_snapshots_config := by
  intro ids
  induction ids with
  | nil =>
    intro tx
    refine ⟨?_, ?_, rfl, rfl, rfl, ?_, fun r hr _ => hr, List.Sublist.refl _⟩
    · exact (filter_not_mem_nil (fun v : StorageVolume => v.id) _).symm
    · exact (filter_not_mem_nil (fun r : ConfigRow => r.owner) _).symm
    · exact (filter_not_mem_nil (fun s : StorageVolumeSnapshot => s.storage_volume_id) _).symm
  | cons id ids ih =>
    intro tx
    rw [List.foldl_cons]
    obtain ⟨h1, h2, h3, h4, h5, h6, h7, h8⟩ := ih ((Stmt.DeleteVolume id).run tx)
    refine ⟨?_, ?_, by rw [h3]; rfl, by rw [h4]; rfl, by rw [h5]; rfl, ?_, ?_, ?_⟩
    · rw [h1]
      simp only [Stmt.run, deleteSnapshots]
      exact filter_not_mem_cons (fun v : StorageVolume => v.id) id ids _
    · rw [h2]
      simp only [Stmt.run, deleteSnapshots]
      exact filter_not_mem_cons (fun r : ConfigRow => r.owner) id ids _
    · rw [h6]
      simp only [Stmt.run, deleteSnapshots]
      exact filter_not_mem_cons (fun s : StorageVolumeSnapshot => s.storage_volume_id) id ids _
    · intro r hr hown
      apply h7 r
      · simp only [Stmt.run, deleteSnapshots, List.mem_filter, Bool.not_eq_true',
          Bool.eq_false_iff, ne_eq, List.any_eq_true, Bool.and_eq_true, decide_eq_true_eq,
          not_exists, not_and]
        refine ⟨hr, ?_⟩
        intro s hs hsv hso
        exact hown s hs hso (by rw [hsv]; exact List.mem_cons_self _ _)
      · intro s hs hso
        simp only [Stmt.run, deleteSnapshots, List.mem_filter] at hs
        exact fun hmem => hown s hs.1 hso (List.mem_cons_of_mem _ hmem)
    · refine List.Sublist.trans h8 ?_
      simp only [Stmt.run, deleteSnapshots]
      exact List.filter_sublist _


theorem filter_not_mem_congr {α : Type} (key : α → Int) (ids ids1 : List Int)
    (h : ∀ x, x ∈ ids ↔ x ∈ ids1) (l : List α) :
    l.filter (fun x => decide (key x ∉ ids)) = l.filter (fun x => decide (key x ∉ ids1)) := by
  apply List.filter_congr
  intro x _
  by_cases hx : key x ∈ ids
  · simp [hx, (h _).mp hx]
  · have hx1 : key x ∉ ids1 := fun h1 => hx ((h _).mpr h1)
    simp [hx, hx1]

/-- Without a record of the identity that passes the member filter,
`GetLocalStoragePoolVolume` reports NotFound. -/
theorem GetLocalStoragePoolVolume_notFound (remoteDrivers : List String) (localNodeID : Int)
    (db : DB) (project volumeName : String) (volumeType poolID : Int)
    (h : ¬ ∃ v ∈ recordsOf db project poolID volumeType volumeName,
      memberFilter remoteDrivers db localNodeID v) :
    Cluster.GetLocalStoragePoolVolume remoteDrivers localNodeID db project volumeName volumeType
        poolID = .error (.StatusError StatusNotFound "Storage pool volume not found") := by
  unfold Cluster.GetLocalStoragePoolVolume Cluster.storagePoolVolumeGetType
    Cluster.storagePoolVolumeGetTypeID ClusterTx.storagePoolVolumeGetTypeID
  have key := @mem_getTypeID_rows remoteDrivers db project volumeName volumeType poolID
    localNodeID
  simp only []
  generalize ((innerJoin
        (innerJoin (storage_volumes_all db) db.storage_pools
          (fun v pool => decide (v.storage_pool_id = pool.id)))
        db.projects (fun vp p => decide (vp.1.project_id = p.id))).filter
      (fun vpp => decide (vpp.2.name = project) && decide (vpp.1.1.storage_pool_id = poolID)
        && decide (vpp.1.1.name = volumeName) && decide (vpp.1.1.type = volumeType)
        && onMember remoteDrivers localNodeID vpp.1.1 vpp.1.2)).map
      (fun vpp => vpp.1.1.id) = result at key
  cases result with
  | nil => rfl
  | cons id rest =>
    obtain ⟨v, hv, hm, _⟩ := (@key id).mp (List.mem_cons_self _ _)
    exact absurd ⟨v, hv, hm⟩ h

/-- C18: a successful `RemoveStoragePoolVolume` deletes exactly the target records, the
resolved record or, on a remote pool, every record of the identity: from the snapshot table
when the name holds the snapshot delimiter, leaving the volume table and the volume config
as they were, and from the volume table otherwise, together with the config rows and the
snapshots those volumes own; every other record is unchanged, the config rows of the other
snapshots are kept, and nothing is added.  When no record resolves on the current member
it returns NotFound and the store is unchanged. -/
theorem RemoveStoragePoolVolume_frame (driver : Driver) (remoteDrivers : List String)
    (localNodeID : Int) (db : DB) (project volumeName : String) (volumeType poolID : Int) :
    (∀ db1,
      Cluster.RemoveStoragePoolVolume driver remoteDrivers localNodeID db project volumeName
          volumeType poolID = (db1, none) →
      ∃ poolDriver volumeID vol,
        storagePoolDriverGet db poolID = .ok poolDriver ∧
        Cluster.GetLocalStoragePoolVolume remoteDrivers localNodeID db project volumeName
          volumeType poolID = .ok (volumeID, vol) ∧
        db1.nodes = db.nodes ∧ db1.projects = db.projects ∧
        db1.storage_pools = db.storage_pools ∧
        db1.storage_volumes_snapshots_config.Sublist db.storage_volumes_snapshots_config ∧
        (stringsContains volumeName SnapshotDelimiter = true →
          db1.storage_volumes = db.storage_volumes ∧
          db1.storage_volumes_config = db.storage_volumes_config ∧
          db1.storage_volumes_snapshots = db.storage_volumes_snapshots.filter (fun s =>
            decide (s.id ∉ replicationTargets remoteDrivers db poolDriver volumeID project poolID
              volumeType volumeName)) ∧
          ∀ r ∈ db.storage_volumes_snapshots_config,
            r.owner ∉ replicationTargets remoteDrivers db poolDriver volumeID project poolID
              volumeType volumeName →
            r ∈ db1.storage_volumes_snapshots_config) ∧
        (stringsContains volumeName SnapshotDelimiter = false →
          db1.storage_volumes = db.storage_volumes.filter (fun v =>
            decide (v.id ∉ replicationTargets remoteDrivers db poolDriver volumeID project poolID
              volumeType volumeName)) ∧
          db1.storage_volumes_config = db.storage_volumes_config.filter (fun r =>
            decide (r.owner ∉ replicationTargets remoteDrivers db poolDriver volumeID project
              poolID volumeType volumeName)) ∧
          db1.storage_volumes_snapshots = db.storage_volumes_snapshots.filter (fun s =>
            decide (s.storage_volume_id ∉ replicationTargets remoteDrivers db poolDriver volumeID
              project poolID volumeType volumeName)) ∧
          ∀ r ∈ db.storage_volumes_snapshots_config,
            (∀ s ∈ db.storage_volumes_snapshots, s.id = r.owner →
              s.storage_volume_id ∉ replicationTargets remoteDrivers db poolDriver volumeID
                project poolID volumeType volumeName) →
            r ∈ db1.storage_volumes_snapshots_config)) ∧
    ((¬ ∃ v ∈ recordsOf db project poolID volumeType volumeName,
        memberFilter remoteDrivers db localNodeID v) →
      Cluster.RemoveStoragePoolVolume driver remoteDrivers localNodeID db project volumeName
          volumeType poolID =
        (db, some (.StatusError StatusNotFound "Storage pool volume not found"))) := by
  constructor
  · intro db1 hrem
    unfold Cluster.RemoveStoragePoolVolume at hrem
    cases hlocal : Cluster.GetLocalStoragePoolVolume remoteDrivers localNodeID db project
        volumeName volumeType poolID with
    | error err => rw [hlocal] at hrem; cases hrem
    | ok res =>
      obtain ⟨volumeID, vol⟩ := res
      rw [hlocal] at hrem
      obtain ⟨poolDriver, hdrv, hloop⟩ := storagePoolVolumeReplicateIfCeph_success _ _ _ _ _ _ _
        _ _ (Transaction_success db db1 _ hrem)
      have hfold := removeLoop_success driver _ _ db db1 hloop
      have hmem := mem_loop_targets remoteDrivers db poolDriver volumeID project volumeName
        volumeType poolID
      cases hc : stringsContains volumeName SnapshotDelimiter
      · rw [hc] at hfold
        simp only [Bool.false_eq_true, if_false] at hfold
        obtain ⟨h1, h2, h3, h4, h5, h6, h7, h8⟩ := fold_deleteVolume
          (if poolDriver ∈ remoteDrivers then
            storageVolumeIDsGet db project volumeName volumeType poolID else [volumeID]) db
        rw [← hfold] at h1 h2 h3 h4 h5 h6 h7 h8
        refine ⟨poolDriver, volumeID, vol, hdrv, rfl, h3, h4, h5, h8, ?_, ?_⟩
        · intro h; cases h
        · intro _
          refine ⟨?_, ?_, ?_, ?_⟩
          · rw [h1]; exact filter_not_mem_congr _ _ _ hmem _
          · rw [h2]; exact filter_not_mem_congr _ _ _ hmem _
          · rw [h6]; exact filter_not_mem_congr _ _ _ hmem _
          · intro r hr hown
            exact h7 r hr (fun s hs hso hin => hown s hs hso ((hmem _).mp hin))
      · rw [hc] at hfold
        simp only [if_true] at hfold
        obtain ⟨h1, h2, h3, h4, h5, h6, h7, h8⟩ := fold_deleteSnapshot
          (if poolDriver ∈ remoteDrivers then
            storageVolumeIDsGet db project volumeName volumeType poolID else [volumeID]) db
        rw [← hfold] at h1 h2 h3 h4 h5 h6 h7 h8
        refine ⟨poolDriver, volumeID, vol, hdrv, rfl, h3, h4, h5, h8, ?_, ?_⟩
        · intro _
          refine ⟨h1, h2, ?_, ?_⟩
          · rw [h6]; exact filter_not_mem_congr _ _ _ hmem _
          · intro r hr hown
            exact h7 r hr (fun hin => hown ((hmem _).mp hin))
        · intro h; cases h
  · intro hnone
    unfold Cluster.RemoveStoragePoolVolume
    rw [GetLocalStoragePoolVolume_notFound remoteDrivers localNodeID db project volumeName
      volumeType poolID hnone]

/-- C18 at the example store: removing `data` from the remote pool deletes its two legacy
records and leaves the other five volume rows; removing the snapshot `vol/snap0` deletes
the one snapshot row and no volume row; removing `nope` reports NotFound and changes
nothing. -/
theorem RemoveStoragePoolVolume_frame_witness :
    (Cluster.RemoveStoragePoolVolume Driver.accepting exampleRemoteDrivers 1 exampleDB
        "default" "data" 2 1).2 = none ∧
      (Cluster.RemoveStoragePoolVolume Driver.accepting exampleRemoteDrivers 1 exampleDB
        "default" "data" 2 1).1.storage_volumes.map (fun v => v.id) = [3, 4, 5, 6, 7] ∧
      (Cluster.RemoveStoragePoolVolume Driver.accepting exampleRemoteDrivers 1 exampleDB
        "default" "vol/snap0" 2 2).2 = none ∧
      (Cluster.RemoveStoragePoolVolume Driver.accepting exampleRemoteDrivers 1 exampleDB
        "default" "vol/snap0" 2 2).1.storage_volumes_snapshots = [] ∧
      (Cluster.RemoveStoragePoolVolume Driver.accepting exampleRemoteDrivers 1 exampleDB
        "default" "vol/snap0" 2 2).1.storage_volumes = exampleDB.storage_volumes ∧
      Cluster.RemoveStoragePoolVolume Driver.accepting exampleRemoteDrivers 1 exampleDB
          "default" "nope" 2 2 =
        (exampleDB, some (.StatusError StatusNotFound "Storage pool volume not found")) :=
  ⟨by rfl, by rfl, by rfl, by rfl, by rfl,
    (RemoveStoragePoolVolume_frame Driver.accepting exampleRemoteDrivers 1 exampleDB "default"
      "nope" 2 2).2 (by
        rintro ⟨v, hv, _⟩
        have : recordsOf exampleDB "default" 2 2 "nope" = [] := by rfl
        rw [this] at hv
        exact List.not_mem_nil _ hv)⟩


/-! ## Listing the volumes of a pool -/

/-- In a pool without volumes the per-type listing of names is empty. -/
theorem storagePoolVolumesGetType_empty (remoteDrivers : List String) (db : DB)
    (project : String) (volumeType poolID nodeID : Int)
    (hnone : ∀ v ∈ storage_volumes_all db, v.storage_pool_id ≠ poolID) :
    Cluster.storagePoolVolumesGetType remoteDrivers db project volumeType poolID nodeID = [] := by
  unfold Cluster.storagePoolVolumesGetType
  rw [List.map_eq_nil_iff, List.filter_eq_nil_iff]
  rintro ⟨⟨v, p⟩, pool⟩ hmem hw
  have hv := (mem_innerJoin.mp (mem_innerJoin.mp hmem).1).1
  simp only [Bool.and_eq_true, decide_eq_true_eq] at hw
  exact hnone v hv hw.1.1.2

/-- In a pool without volumes the listing of a member collects nothing. -/
theorem collectVolumes_empty (remoteDrivers : List String) (db : DB) (project : String)
    (poolID nodeID : Int)
    (hnone : ∀ v ∈ storage_volumes_all db, v.storage_pool_id ≠ poolID) :
    ∀ volumeTypes : List Int,
      collectVolumes remoteDrivers db project poolID nodeID volumeTypes [] = .ok [] := by
  intro volumeTypes
  induction volumeTypes with
  | nil => rfl
  | cons volumeType volumeTypes ih =>
    rw [collectVolumes, storagePoolVolumesGetType_empty remoteDrivers db project volumeType
      poolID nodeID hnone]
    simp only [fetchVolumes]
    exact ih

/-- In a pool without volumes no member id is scanned. -/
theorem volumeNodeIDs_empty (remoteDrivers : List String) (db : DB) (project : String)
    (poolID : Int) (hnone : ∀ v ∈ storage_volumes_all db, v.storage_pool_id ≠ poolID) :
    volumeNodeIDs remoteDrivers db project poolID = .ok [] := by
  unfold volumeNodeIDs
  have hnil : (innerJoin
        (innerJoin (storage_volumes_all db) db.projects
          (fun v p => decide (p.id = v.project_id)))
        db.storage_pools (fun vp pool => decide (pool.id = vp.1.storage_pool_id))).filter
      (fun vpp =>
        (decide (vpp.1.2.name = project) || decide (vpp.1.1.type = StoragePoolVolumeTypeCustom))
        && decide (vpp.1.1.storage_pool_id = poolID)
        && !StringInSlice vpp.2.driver remoteDrivers) = [] := by
    rw [List.filter_eq_nil_iff]
    rintro ⟨⟨v, p⟩, pool⟩ hmem hw
    have hv := (mem_innerJoin.mp (mem_innerJoin.mp hmem).1).1
    simp only [Bool.and_eq_true, decide_eq_true_eq] at hw
    exact hnone v hv hw.1.2
  rw [hnil]
  rfl

/-- On a pool whose driver is a remote driver no member id is scanned. -/
theorem volumeNodeIDs_remote (remoteDrivers : List String) (db : DB) (project : String)
    (poolID : Int) (poolDriver : String)
    (hdrv : ClusterTx.GetStoragePoolDriver db poolID = .ok poolDriver)
    (hremote : poolDriver ∈ remoteDrivers)
    (hpool : (db.storage_pools.map StoragePool.id).Nodup) :
    volumeNodeIDs remoteDrivers db project poolID = .ok [] := by
  unfold volumeNodeIDs
  have hnil : (innerJoin
        (innerJoin (storage_volumes_all db) db.projects
          (fun v p => decide (p.id = v.project_id)))
        db.storage_pools (fun vp pool => decide (pool.id = vp.1.storage_pool_id))).filter
      (fun vpp =>
        (decide (vpp.1.2.name = project) || decide (vpp.1.1.type = StoragePoolVolumeTypeCustom))
        && decide (vpp.1.1.storage_pool_id = poolID)
        && !StringInSlice vpp.2.driver remoteDrivers) = [] := by
    rw [List.filter_eq_nil_iff]
    rintro ⟨⟨v, p⟩, pool⟩ hmem hw
    obtain ⟨_, hpoolmem, hjoin⟩ := mem_innerJoin.mp hmem
    simp only [Bool.and_eq_true, decide_eq_true_eq, Bool.not_eq_true', StringInSlice,
      decide_eq_false_iff_not] at hw hjoin
    unfold ClusterTx.GetStoragePoolDriver at hdrv
    split at hdrv
    · cases hdrv
    · rename_i p0 rest hfilter
      simp only [Except.ok.injEq] at hdrv
      have hp0 : p0 ∈ db.storage_pools.filter (fun p => decide (p.id = poolID)) := by
        rw [hfilter]; exact List.mem_cons_self _ _
      rw [List.mem_filter] at hp0
      simp only [decide_eq_true_eq] at hp0
      have heq : pool = p0 := List.inj_on_of_nodup_map hpool hpoolmem hp0.1
        (by rw [hjoin, hw.1.2, hp0.2])
      apply hw.2
      rw [heq, hdrv]
      exact hremote
  rw [hnil]
  rfl

/-- C20: for a remote-class pool, `GetStoragePoolVolumes` returns exactly the volumes the
current member's listing `GetLocalStoragePoolVolumes` returns, each once and in the same
order, and the empty list without error when that listing reports NotFound: the scan of
members contributes no member id for a pool whose driver is a remote driver. -/
theorem GetStoragePoolVolumes_remote (remoteDrivers : List String) (localNodeID : Int)
    (db : DB) (project : String) (poolID : Int) (volumeTypes : List Int) (poolDriver : String)
    (hdrv : ClusterTx.GetStoragePoolDriver db poolID = .ok poolDriver)
    (hremote : poolDriver ∈ remoteDrivers)
    (hpool : (db.storage_pools.map StoragePool.id).Nodup) :
    volumeNodeIDs remoteDrivers db project poolID = .ok [] ∧
    (Cluster.GetStoragePoolVolumes remoteDrivers localNodeID db project poolID volumeTypes).1 =
      (Cluster.GetLocalStoragePoolVolumes remoteDrivers localNodeID db project poolID
        volumeTypes).1 ∧
    (Cluster.GetStoragePoolVolumes remoteDrivers localNodeID db project poolID volumeTypes).2 =
      (match (Cluster.GetLocalStoragePoolVolumes remoteDrivers localNodeID db project poolID
          volumeTypes).2 with
      | none => none
      | some err => if StatusErrorCheck err StatusNotFound then none else some err) ∧
    (∀ err, (Cluster.GetLocalStoragePoolVolumes remoteDrivers localNodeID db project poolID
        volumeTypes).2 = some err → StatusErrorCheck err StatusNotFound = true →
      Cluster.GetStoragePoolVolumes remoteDrivers localNodeID db project poolID volumeTypes =
        ([], none)) := by
  have hids := volumeNodeIDs_remote remoteDrivers db project poolID poolDriver hdrv hremote hpool
  have hrem : Cluster.IsRemoteStorage remoteDrivers db poolID = .ok true := by
    unfold Cluster.IsRemoteStorage
    rw [hdrv]
    simp [StringInSlice, hremote]
  have herr : ∀ vols err,
      Cluster.storagePoolVolumesGet remoteDrivers db project poolID localNodeID volumeTypes =
        (vols, some err) → vols = [] := by
    intro vols err h
    unfold Cluster.storagePoolVolumesGet at h
    split at h
    · cases h; rfl
    · rename_i result _
      split at h
      · rename_i hlen
        cases h
        exact List.length_eq_zero.mp hlen
      · cases h
  refine ⟨hids, ?_⟩
  unfold Cluster.GetStoragePoolVolumes Cluster.GetLocalStoragePoolVolumes
  rw [hids]
  simp only [memberVolumes, hrem, if_true, List.nil_append]
  rcases hl : Cluster.storagePoolVolumesGet remoteDrivers db project poolID localNodeID
      volumeTypes with ⟨vols, _ | err⟩
  · simp
  · have hv := herr vols err hl
    subst hv
    by_cases hc : StatusErrorCheck err StatusNotFound = true
    · simp [hc]
    · simp only [Bool.not_eq_true] at hc
      simp [hc]

/-- C20 at the remote pool of the example store, from member 1: both listings return the
custom volumes `data`, `shared` and `pinned` of the member. -/
theorem GetStoragePoolVolumes_remote_witness :
    ClusterTx.GetStoragePoolDriver exampleDB 1 = .ok "ceph" ∧ "ceph" ∈ exampleRemoteDrivers ∧
      (exampleDB.storage_pools.map StoragePool.id).Nodup ∧
      ((Cluster.GetLocalStoragePoolVolumes exampleRemoteDrivers 1 exampleDB "default" 1
        [2]).1.map (fun v => v.Name)) = ["data", "shared", "pinned"] ∧
      (Cluster.GetStoragePoolVolumes exampleRemoteDrivers 1 exampleDB "default" 1 [2]).1 =
        (Cluster.GetLocalStoragePoolVolumes exampleRemoteDrivers 1 exampleDB "default" 1
          [2]).1 :=
  ⟨rfl, by decide, by decide, by rfl,
    (GetStoragePoolVolumes_remote exampleRemoteDrivers 1 exampleDB "default" 1 [2] "ceph" rfl
      (by decide) (by decide)).2.1⟩


/-- A failed fetch of the volumes of one type reports a wrapped error. -/
theorem fetchVolumes_error_wrapped (remoteDrivers : List String) (db : DB) (project : String)
    (volumeType poolID nodeID : Int) :
    ∀ (volumeNames : List String) (result : List ApiStorageVolume) (err : Error),
      fetchVolumes remoteDrivers db project volumeType poolID nodeID volumeNames result =
        .error err →
      ∃ inner, err = .Wrapped "Failed to fetch volume type" inner := by
  intro volumeNames
  induction volumeNames with
  | nil => intro result err h; cases h
  | cons volumeName volumeNames ih =>
    intro result err h
    rw [fetchVolumes] at h
    split at h
    · rename_i inner _
      cases h
      exact ⟨inner, rfl⟩
    · exact ih _ err h

/-- A failed listing of a member reports a wrapped error. -/
theorem collectVolumes_error_wrapped (remoteDrivers : List String) (db : DB) (project : String)
    (poolID nodeID : Int) :
    ∀ (volumeTypes : List Int) (result : List ApiStorageVolume) (err : Error),
      collectVolumes remoteDrivers db project poolID nodeID volumeTypes result = .error err →
      ∃ inner, err = .Wrapped "Failed to fetch volume type" inner := by
  intro volumeTypes
  induction volumeTypes with
  | nil => intro result err h; cases h
  | cons volumeType volumeTypes ih =>
    intro result err h
    rw [collectVolumes] at h
    split at h
    · rename_i err1 hf
      cases h
      exact fetchVolumes_error_wrapped remoteDrivers db project volumeType poolID nodeID _ _ _ hf
    · exact ih _ err h

/-- The listing of a member returns no volume together with an error. -/
theorem storagePoolVolumesGet_error_nil (remoteDrivers : List String) (db : DB)
    (project : String) (poolID nodeID : Int) (volumeTypes : List Int)
    (err : Error)
    (h : (Cluster.storagePoolVolumesGet remoteDrivers db project poolID nodeID volumeTypes).2 =
      some err) :
    (Cluster.storagePoolVolumesGet remoteDrivers db project poolID nodeID volumeTypes).1 =
      [] := by
  unfold Cluster.storagePoolVolumesGet at h ⊢
  split
  · rfl
  · rename_i result hc
    rw [hc] at h
    simp only at h
    split at h
    · rename_i hlen
      rw [if_pos hlen]
      exact List.length_eq_zero.mp hlen
    · cases h

/-- The loop over the members when every failed listing is a NotFound: the volumes of the
members are appended in the order of the member ids. -/
theorem memberVolumes_skip (listing : Int → List ApiStorageVolume × Option Error)
    (hnil : ∀ n err, (listing n).2 = some err → (listing n).1 = []) :
    ∀ (nodeIDs : List Int) (volumes : List ApiStorageVolume),
      (∀ n ∈ nodeIDs, ∀ err, (listing n).2 = some err →
        StatusErrorCheck err StatusNotFound = true) →
      memberVolumes listing nodeIDs volumes =
        .ok (volumes ++ nodeIDs.flatMap (fun n => (listing n).1)) := by
  intro nodeIDs
  induction nodeIDs with
  | nil => intro volumes _; simp [memberVolumes]
  | cons nodeID nodeIDs ih =>
    intro volumes hall
    have ih1 := fun vs => ih vs (fun n hn => hall n (List.mem_cons_of_mem _ hn))
    rw [memberVolumes]
    rcases hl : listing nodeID with ⟨vols, _ | err⟩
    · simp only [List.flatMap_cons, hl]
      rw [ih1, List.append_assoc]
    · have hc := hall nodeID (List.mem_cons_self _ _) err (by rw [hl])
      have hv := hnil nodeID err (by rw [hl])
      rw [hl] at hv
      simp only at hv
      simp only [hc, if_true, List.flatMap_cons, hl, hv, List.nil_append]
      exact ih1 volumes

/-- The loop over the members when the listing of some member fails with another error than
NotFound: the loop ends with such an error. -/
theorem memberVolumes_abort (listing : Int → List ApiStorageVolume × Option Error)
    (n : Int) (err : Error) (hn : (listing n).2 = some err)
    (hc : StatusErrorCheck err StatusNotFound = false) :
    ∀ (nodeIDs : List Int) (volumes : List ApiStorageVolume), n ∈ nodeIDs →
      ∃ err1, memberVolumes listing nodeIDs volumes = .error err1 ∧
        StatusErrorCheck err1 StatusNotFound = false := by
  intro nodeIDs
  induction nodeIDs with
  | nil => intro _ h; cases h
  | cons nodeID nodeIDs ih =>
    intro volumes hmem
    rw [memberVolumes]
    rcases hl : listing nodeID with ⟨vols, _ | err0⟩
    · simp only
      rcases List.mem_cons.mp hmem with heq | hrest
      · rw [heq, hl] at hn
        cases hn
      · exact ih _ hrest
    · simp only
      by_cases hc0 : StatusErrorCheck err0 StatusNotFound = true
      · rw [if_pos hc0]
        rcases List.mem_cons.mp hmem with heq | hrest
        · rw [heq, hl] at hn
          simp only [Option.some.injEq] at hn
          rw [hn, hc] at hc0
          cases hc0
        · exact ih _ hrest
      · rw [if_neg hc0]
        simp only [Bool.not_eq_true] at hc0
        exact ⟨err0, rfl, hc0⟩


/-- C19: `GetStoragePoolVolumes` on an existing pool that has no volumes returns the empty
list and no error.  The listing of a member, `storagePoolVolumesGet` (which
`GetLocalStoragePoolVolumes` is at the current member), returns the NotFound status error
exactly when the list it collected is empty, and the collected list without error
otherwise.  In the loop of `GetStoragePoolVolumes` over the members a listing that fails
with NotFound is skipped (the volumes of the other members are returned, in the order of
the member ids), while a listing that fails with any other error makes the whole call
return an error that is not a NotFound. -/
theorem GetStoragePoolVolumes_notFound_handling (remoteDrivers : List String)
    (localNodeID : Int) (db : DB) (project : String) (poolID : Int) (volumeTypes : List Int) :
    ((∃ driver, ClusterTx.GetStoragePoolDriver db poolID = .ok driver) →
      (∀ v ∈ storage_volumes_all db, v.storage_pool_id ≠ poolID) →
      Cluster.GetStoragePoolVolumes remoteDrivers localNodeID db project poolID volumeTypes =
        ([], none)) ∧
    (∀ nodeID,
      ((Cluster.storagePoolVolumesGet remoteDrivers db project poolID nodeID volumeTypes).2 =
          some (.StatusError StatusNotFound "Storage pool volume(s) not found") ↔
        collectVolumes remoteDrivers db project poolID nodeID volumeTypes [] = .ok []) ∧
      (∀ result,
        collectVolumes remoteDrivers db project poolID nodeID volumeTypes [] = .ok result →
        Cluster.storagePoolVolumesGet remoteDrivers db project poolID nodeID volumeTypes =
          (result, if result = [] then
            some (.StatusError StatusNotFound "Storage pool volume(s) not found")
          else none))) ∧
    Cluster.GetLocalStoragePoolVolumes remoteDrivers localNodeID db project poolID volumeTypes =
      Cluster.storagePoolVolumesGet remoteDrivers db project poolID localNodeID volumeTypes ∧
    (∀ nodeIDs, volumeNodeIDs remoteDrivers db project poolID = .ok nodeIDs →
      Cluster.IsRemoteStorage remoteDrivers db poolID = .ok false →
      (∀ n ∈ nodeIDs, ∀ err,
        (Cluster.storagePoolVolumesGet remoteDrivers db project poolID n volumeTypes).2 =
          some err → StatusErrorCheck err StatusNotFound = true) →
      Cluster.GetStoragePoolVolumes remoteDrivers localNodeID db project poolID volumeTypes =
        (nodeIDs.flatMap (fun n =>
          (Cluster.storagePoolVolumesGet remoteDrivers db project poolID n volumeTypes).1),
          none)) ∧
    (∀ nodeIDs n err, volumeNodeIDs remoteDrivers db project poolID = .ok nodeIDs →
      n ∈ nodeIDs →
      (Cluster.storagePoolVolumesGet remoteDrivers db project poolID n volumeTypes).2 =
        some err →
      StatusErrorCheck err StatusNotFound = false →
      ∃ err1,
        Cluster.GetStoragePoolVolumes remoteDrivers localNodeID db project poolID volumeTypes =
          ([], some err1) ∧ StatusErrorCheck err1 StatusNotFound = false) := by
  refine ⟨?_, ?_, rfl, ?_, ?_⟩
  · rintro ⟨driver, hdrv⟩ hnone
    have hids := volumeNodeIDs_empty remoteDrivers db project poolID hnone
    have hcol := collectVolumes_empty remoteDrivers db project poolID localNodeID hnone
      volumeTypes
    unfold Cluster.GetStoragePoolVolumes Cluster.IsRemoteStorage Cluster.storagePoolVolumesGet
    rw [hids, hdrv, hcol]
    simp only [memberVolumes]
    by_cases hr : StringInSlice driver remoteDrivers = true
    · simp [hr, StatusErrorCheck]
    · simp [hr]
  · intro nodeID
    constructor
    · unfold Cluster.storagePoolVolumesGet
      constructor
      · intro h
        split at h
        · rename_i err hc
          obtain ⟨inner, hinner⟩ := collectVolumes_error_wrapped remoteDrivers db project
            poolID nodeID volumeTypes [] err hc
          rw [hinner] at h
          simp at h
        · rename_i result hc
          split at h
          · rename_i hlen
            rw [hc, List.length_eq_zero.mp hlen]
          · cases h
      · intro h
        rw [h]
        rfl
    · intro result h
      unfold Cluster.storagePoolVolumesGet
      rw [h]
      simp only [List.length_eq_zero]
      by_cases hr : result = []
      · simp [hr]
      · simp [hr]
  · intro nodeIDs hids hrem hall
    unfold Cluster.GetStoragePoolVolumes
    rw [hids, hrem]
    simp only
    rw [memberVolumes_skip _ (fun n err h => storagePoolVolumesGet_error_nil remoteDrivers db
      project poolID n volumeTypes err h) nodeIDs [] hall]
    simp
  · intro nodeIDs n err hids hmem hn hc
    obtain ⟨err1, hloop, hc1⟩ := memberVolumes_abort
      (fun nodeID => Cluster.storagePoolVolumesGet remoteDrivers db project poolID nodeID
        volumeTypes) n err hn hc nodeIDs [] hmem
    refine ⟨err1, ?_, hc1⟩
    unfold Cluster.GetStoragePoolVolumes
    rw [hids]
    simp only
    rw [hloop]


/-- C19 on three stores, from member 1 with the volume type custom: an existing pool without
volumes lists as the empty list without error; in `listingDB` the member ids scanned are 1
and 2, the listing of member 2 reports NotFound and is skipped, and the volume `a` of
member 1 is returned; in `brokenListingDB` the listing of member 1 fails on the content
type of `a` and the whole call fails with that error. -/
theorem GetStoragePoolVolumes_notFound_handling_witness :
    Cluster.GetStoragePoolVolumes exampleRemoteDrivers 1 emptyPoolDB "default" 2 [2] =
      ([], none) ∧
    volumeNodeIDs exampleRemoteDrivers listingDB "default" 2 = .ok [1, 2] ∧
    Cluster.storagePoolVolumesGet exampleRemoteDrivers listingDB "default" 2 2 [2] =
      ([], some (.StatusError StatusNotFound "Storage pool volume(s) not found")) ∧
    Cluster.GetStoragePoolVolumes exampleRemoteDrivers 1 listingDB "default" 2 [2] =
      ([1, 2].flatMap (fun n =>
        (Cluster.storagePoolVolumesGet exampleRemoteDrivers listingDB "default" 2 n [2]).1),
        none) ∧
    (Cluster.GetStoragePoolVolumes exampleRemoteDrivers 1 listingDB "default" 2 [2]).1.map
      (fun v => v.Name) = ["a"] ∧
    Cluster.storagePoolVolumesGet exampleRemoteDrivers brokenListingDB "default" 2 1 [2] =
      ([], some (.Wrapped "Failed to fetch volume type"
        (.Errorf "Invalid storage volume content type" []))) ∧
    (∃ err1,
      Cluster.GetStoragePoolVolumes exampleRemoteDrivers 1 brokenListingDB "default" 2 [2] =
        ([], some err1) ∧ StatusErrorCheck err1 StatusNotFound = false) :=
  ⟨(GetStoragePoolVolumes_notFound_handling exampleRemoteDrivers 1 emptyPoolDB "default" 2
      [2]).1 ⟨"dir", rfl⟩ (by intro v hv; cases hv),
    rfl, rfl,
    (GetStoragePoolVolumes_notFound_handling exampleRemoteDrivers 1 listingDB "default" 2
      [2]).2.2.2.1 [1, 2] rfl rfl (by
        intro n hn err h
        simp only [List.mem_cons, List.mem_singleton, List.not_mem_nil, or_false] at hn
        rcases hn with rfl | rfl
        · have h1 : (Cluster.storagePoolVolumesGet exampleRemoteDrivers listingDB "default" 2
              1 [2]).2 = none := rfl
          rw [h1] at h
          cases h
        · have h2 : (Cluster.storagePoolVolumesGet exampleRemoteDrivers listingDB "default" 2
              2 [2]).2 = some (.StatusError StatusNotFound
                "Storage pool volume(s) not found") := rfl
          rw [h2] at h
          cases h
          rfl),
    rfl, rfl,
    (GetStoragePoolVolumes_notFound_handling exampleRemoteDrivers 1 brokenListingDB "default"
      2 [2]).2.2.2.2 [1, 2] 1 _ rfl (by decide) rfl rfl⟩



/-! ## The next snapshot index and the order of the names -/

/-- The pattern splits around its first `%d` into one field or into two. -/
theorem stringsSplitN_two (pattern : String) :
    (∃ field0, stringsSplitN pattern "%d" 2 = [field0]) ∨
      ∃ field0 field1, stringsSplitN pattern "%d" 2 = [field0, field1] := by
  unfold stringsSplitN
  rw [if_neg (by decide)]
  cases h : cutAt "%d".data pattern.data with
  | none => left; exact ⟨String.mk pattern.data, by simp [splitNFields, h]⟩
  | some p => right; exact ⟨String.mk p.1, String.mk p.2, by simp [splitNFields, h]⟩

/-- With a pattern of one field the loop returns `max` without names and panics with a
name to scan. -/
theorem nextIndexLoop_one_field (pattern field0 : String)
    (hfields : stringsSplitN pattern "%d" 2 = [field0]) (names : List String) (max : Int) :
    nextIndexLoop pattern names max = if names = [] then some max else none := by
  cases names with
  | nil => rfl
  | cons name names =>
    rw [nextIndexLoop]
    simp [hfields]

/-- When no name parses to the largest `int`, the index does not depend on the order of the
names: the scan loop returns the same on every permutation of the names, for every
pattern. -/
theorem nextIndexLoop_perm (pattern : String) (names1 names2 : List String)
    (hperm : names1.Perm names2)
    (hbound : ∀ n ∈ parsedIndexes pattern names1, n < 9223372036854775807) :
    nextIndexLoop pattern names1 0 = nextIndexLoop pattern names2 0 := by
  rcases stringsSplitN_two pattern with ⟨field0, hfields⟩ | ⟨field0, field1, hfields⟩
  · rw [nextIndexLoop_one_field pattern field0 hfields,
      nextIndexLoop_one_field pattern field0 hfields]
    by_cases h1 : names1 = []
    · have h2 : names2 = [] := by
        rw [h1] at hperm
        exact List.nil_perm.mp hperm
      rw [if_pos h1, if_pos h2]
    · have h2 : names2 ≠ [] := by
        intro h
        rw [h] at hperm
        exact h1 (List.perm_nil.mp hperm)
      rw [if_neg h1, if_neg h2]
  · have hp : (parsedIndexes pattern names1).Perm (parsedIndexes pattern names2) :=
      hperm.filterMap _
    have hbound2 : ∀ n ∈ parsedIndexes pattern names2, n < 9223372036854775807 :=
      fun n hn => hbound n (hp.mem_iff.mpr hn)
    obtain ⟨r1, hr1, h01, _, hall1, hor1⟩ := nextIndexLoop_spec pattern field0 field1 hfields
      names1 0 (le_refl _) (by decide) hbound
    obtain ⟨r2, hr2, h02, _, hall2, hor2⟩ := nextIndexLoop_spec pattern field0 field1 hfields
      names2 0 (le_refl _) (by decide) hbound2
    rw [hr1, hr2]
    congr 1
    have hle12 : r1 ≤ r2 := by
      rcases hor1 with h | h
      · omega
      · have := hall2 (r1 - 1) (hp.mem_iff.mp h)
        omega
    have hle21 : r2 ≤ r1 := by
      rcases hor2 with h | h
      · omega
      · have := hall1 (r2 - 1) (hp.mem_iff.mpr h)
        omega
    omega

/-- C24, at the failing input: the snapshots `snap9223372036854775807` and `snap5` of `vol`
against the pattern `snap%d`.  Returned in that order the index is `6` (the wrapped
`num + 1` of the first name is below `5`); returned in the other order the index is the
wrapped `num + 1`, `-9223372036854775808`: the result depends on the order of the names. -/
theorem GetNextStorageVolumeSnapshotIndex_order_dependent :
    List.Perm ["snap9223372036854775807", "snap5"] ["snap5", "snap9223372036854775807"] ∧
      snapshotNames exampleRemoteDrivers 1
        (snapshotsDB ["snap9223372036854775807", "snap5"]) "local" "vol" 2 =
        ["snap9223372036854775807", "snap5"] ∧
      snapshotNames exampleRemoteDrivers 1
        (snapshotsDB ["snap5", "snap9223372036854775807"]) "local" "vol" 2 =
        ["snap5", "snap9223372036854775807"] ∧
      Cluster.GetNextStorageVolumeSnapshotIndex exampleRemoteDrivers 1
        (snapshotsDB ["snap9223372036854775807", "snap5"]) "local" "vol" 2 "snap%d" = some 6 ∧
      Cluster.GetNextStorageVolumeSnapshotIndex exampleRemoteDrivers 1
        (snapshotsDB ["snap5", "snap9223372036854775807"]) "local" "vol" 2 "snap%d" =
        some (-9223372036854775808) :=
  ⟨List.Perm.swap _ _ _, by rfl, by rfl, by rfl, by rfl⟩

/-! ## Renaming a snapshot to any new name -/

/-- A new name without the delimiter makes the rename of a snapshot panic: the split new
name has one field and `parts[1]` is out of range. -/
theorem RenameStoragePoolVolume_panics (driver : Driver) (remoteDrivers : List String)
    (localNodeID : Int) (db : DB) (project oldVolumeName newVolumeName : String)
    (volumeType poolID : Int) (volumeID : Int) (vol : ApiStorageVolume)
    (hlocal : Cluster.GetLocalStoragePoolVolume remoteDrivers localNodeID db project
      oldVolumeName volumeType poolID = .ok (volumeID, vol))
    (hold : stringsContains oldVolumeName SnapshotDelimiter = true)
    (hnew : stringsContains newVolumeName SnapshotDelimiter = false) :
    Cluster.RenameStoragePoolVolume driver remoteDrivers localNodeID db project oldVolumeName
      newVolumeName volumeType poolID = none := by
  have hn : '/' ∉ newVolumeName.data := by
    intro h
    rw [(stringsContains_delimiter newVolumeName).mpr h] at hnew
    cases hnew
  have hsplit : stringsSplit newVolumeName SnapshotDelimiter = [newVolumeName] := by
    unfold stringsSplit
    rw [if_neg (by decide)]
    have hd : SnapshotDelimiter.data = ['/'] := rfl
    rw [hd, splitScan_no_delimiter newVolumeName.data [] hn]
    rfl
  unfold Cluster.RenameStoragePoolVolume
  rw [hlocal]
  simp [hold, hsplit]

/-- C25, at the failing inputs: renaming the snapshot `vol/snap0` of the example store.
With the new name `first`, which holds no delimiter, the split new name is the one field
`first` and `parts[1]` is out of range: the call panics.  With the new name `vol/a/b` the
split gives `vol`, `a`, `b` and the name stored is the second field `a`, not `a/b`, the
text after the first delimiter. -/
theorem RenameStoragePoolVolume_new_name_not_total :
    stringsSplit "first" SnapshotDelimiter = ["first"] ∧
      Cluster.RenameStoragePoolVolume Driver.accepting exampleRemoteDrivers 1 exampleDB
        "default" "vol/snap0" "first" 2 2 = none ∧
      stringsSplit "vol/a/b" SnapshotDelimiter = ["vol", "a", "b"] ∧
      ∃ db1, Cluster.RenameStoragePoolVolume Driver.accepting exampleRemoteDrivers 1 exampleDB
          "default" "vol/snap0" "vol/a/b" 2 2 = some (db1, none) ∧
        db1.storage_volumes_snapshots.map (fun s => s.name) = ["a"] :=
  ⟨by rfl, by rfl, by rfl, _, by rfl, by rfl⟩



/-! ## Removing image volumes -/

/-- What a successful `RemoveStorageVolumeImages` leaves in the volume table: the volumes of
another type than image, and the image volumes named by one of the given fingerprints. -/
theorem RemoveStorageVolumeImages_volumes (driver : Driver) (db db1 : DB)
    (fingerprints : List String)
    (h : Cluster.RemoveStorageVolumeImages driver db fingerprints = (db1, none)) :
    db1.storage_volumes = db.storage_volumes.filter (fun v =>
      !decide (v.type = StoragePoolVolumeTypeImage) || decide (v.name ∈ fingerprints)) := by
  unfold Cluster.RemoveStorageVolumeImages exec Transaction Exec at h
  split at h
  · rename_i tx heq
    simp only at heq
    split at heq
    · cases heq
    · split at heq
      · cases heq
      · simp only [Prod.mk.injEq] at heq h
        rw [← h.1, ← heq.1]
        simp only [Stmt.run, deleteSnapshots]
        apply List.filter_congr
        intro v _
        cases decide (v.type = StoragePoolVolumeTypeImage) <;>
          cases decide (v.name ∈ fingerprints) <;> rfl
  · cases h

/-- C21, at the failing input: in a store with the image volumes `fp1` and `fp2` and the
custom volumes `fp1` and `data`, `RemoveStorageVolumeImages` with the fingerprint `fp1`
succeeds and the image volume `fp1`, the one of the given fingerprint, remains, while the
image volume `fp2`, of another name, is deleted with its config row; the custom volumes are
unchanged. -/
theorem RemoveStorageVolumeImages_keeps_given :
    ∃ db1, Cluster.RemoveStorageVolumeImages Driver.accepting imageVolumesDB ["fp1"] =
        (db1, none) ∧
      db1.storage_volumes =
        [⟨1, "fp1", 2, some 1, 1, "", 1, 0⟩, ⟨3, "fp1", 2, some 1, 2, "", 1, 0⟩,
         ⟨4, "data", 2, some 1, 2, "", 1, 0⟩] ∧
      (∃ v ∈ db1.storage_volumes, v.type = StoragePoolVolumeTypeImage ∧ v.name ∈ ["fp1"]) ∧
      (∃ v ∈ imageVolumesDB.storage_volumes, v.type = StoragePoolVolumeTypeImage ∧
        v.name ∉ ["fp1"] ∧ v ∉ db1.storage_volumes) ∧
      db1.storage_volumes_config = [⟨4, "size", "2GiB"⟩] :=
  ⟨_, by rfl, by rfl, ⟨⟨1, "fp1", 2, some 1, 1, "", 1, 0⟩, by decide, by decide, by decide⟩,
    ⟨⟨2, "fp2", 2, some 1, 1, "", 1, 0⟩, by decide, by decide, by decide, by decide⟩, by rfl⟩



/-! ## The image with a given key -/

/-- C22, on every store and at the failing input: the filter `GetImage` builds sets the
project and the fingerprint, a combination for which `GetImages` picks no statement, so
`GetImage` returns the wrapped error `No statement exists for the given Filter` for every
store, project and fingerprint.  In the example store exactly one image has the project
`default` and the fingerprint `abc` (the one `GetImages` returns for that fingerprint), and
`GetImage` returns the error instead of that image; for a key no image has it returns the
same error, which is no NotFound status error. -/
theorem GetImage_no_statement :
    (∀ (tx : ImagesTx) (project fingerprint : String),
      GetImage tx project fingerprint =
        .error (.Wrapped "Failed to fetch from \"images\" table"
          (.Errorf "No statement exists for the given Filter" []))) ∧
    (imagesWithKey exampleImages "default" "abc").map (fun i => i.ID) = [1] ∧
    (GetImages exampleImages { Fingerprint := some "abc" }).toOption.map
        (fun objects => objects.map (fun i => i.ID)) = some [1] ∧
    (GetImage exampleImages "default" "abc").toOption = none ∧
    imagesWithKey exampleImages "default" "none" = [] ∧
    StatusErrorCheck (.Wrapped "Failed to fetch from \"images\" table"
      (.Errorf "No statement exists for the given Filter" [])) StatusNotFound = false :=
  ⟨fun _ _ _ => rfl, by rfl, by rfl, by rfl, by rfl, by rfl⟩



/-! ## Counting rows -/

/-- C23: `Count` on a table of the store returns without error the number of its rows that
satisfy the where filter, whatever the filter and its arguments, as the engine reads them,
and the number of all its rows for the empty filter; on the table of the test, which holds
the ids 1 and 2, it returns 0 for `id=999`, 1 for `id=1` and 2 for the empty filter. -/
theorem Count_rows :
    (∀ (Row Arg : Type) (engine : WhereEngine Row Arg) (tx : CountTx Row) (table : String)
        (rows : List Row),
      tx.tables.lookup table = some rows →
      Count engine tx table "" [] = .ok rows.length ∧
        ∀ (where_ : String) (args : List Arg) (satisfies : Row → Bool), where_ ≠ "" →
          engine where_ args = .ok satisfies →
          Count engine tx table where_ args = .ok (rows.countP satisfies)) ∧
    Count idEngine newTxForCount "test" "id=?" [999] = .ok 0 ∧
    Count idEngine newTxForCount "test" "id=?" [1] = .ok 1 ∧
    Count idEngine newTxForCount "test" "" [] = .ok 2 := by
  refine ⟨?_, by rfl, by rfl, by rfl⟩
  intro Row Arg engine tx table rows h
  unfold Count
  rw [h]
  refine ⟨by simp, ?_⟩
  intro where_ args satisfies hne heng
  simp only [hne, if_false, heng]
  rw [List.countP_eq_length_filter]

end Lxd
